import Mathlib

/-!
Instance registry, ownership protocol and keep-alive graph of nanobind.

A shallow embedding of `src/internals.h` and `src/type.cpp`.

* Machine addresses are natural numbers, `0` is `nullptr`.
* `(uintptr_t)` arithmetic is reduced modulo `2 ^ (8 * sizeof(uintptr_t))`.
* Python integers are `Int`.
* The process-wide `internals` record and the part of the runtime heap that the
  code reads and writes form one explicit `State`, passed through every call.
-/

namespace nanobind

/-! ## Part 1: definitions -/

/-- A machine address; `0` is `nullptr`. -/
abbrev Addr := Nat

/-- The value of `std::type_index(*p)`: compared by type identity. -/
abbrev TypeIndex := Nat

/-- Constants of the target ABI and of the C++ runtime that the code refers to
but that are fixed outside `src/`. -/
structure Config where
  /-- The value of `sizeof(void *)`, which is also `sizeof(uintptr_t)`. -/
  ptr_bytes : Nat
  /-- The value of `sizeof(nb_inst)`. -/
  sizeof_nb_inst : Nat
  /-- The value of `__STDCPP_DEFAULT_NEW_ALIGNMENT__`. -/
  default_new_alignment : Nat
  /-- The address of the `Py_None` singleton. -/
  Py_None : Addr
  /-- The identity `std::type_index(*p)` of the `std::type_info` found at `p`. -/
  type_index : Addr → TypeIndex

/-- Number of bits of `uintptr_t`: `8 * sizeof(uintptr_t)`. -/
def Config.bits (cfg : Config) : Nat := 8 * cfg.ptr_bytes

/-- The conversion `(Py_ssize_t) i` of a machine word `i < 2 ^ w`, two's complement. -/
def to_ssize (w : Nat) (i : Nat) : Int :=
  if i < 2 ^ (w - 1) then (i : Int) else (i : Int) - 2 ^ w

/-- The conversion `(uintptr_t) k` of a signed value. -/
def to_uintptr (w : Nat) (k : Int) : Nat :=
  (k % 2 ^ w).toNat

/-- Embedding of `ptr_to_key` (internals.h:78-82). The Python integer built by
`PyLong_FromSsize_t` is represented by its value. -/
def ptr_to_key (cfg : Config) (p : Addr) : Int :=
  let w := cfg.bits
  let i := p % 2 ^ w
  let i := (i >>> 4) ||| ((i <<< (w - 4)) % 2 ^ w)
  to_ssize w i

/-- Embedding of `key_to_ptr` (internals.h:84-88). -/
def key_to_ptr (cfg : Config) (o : Int) : Addr :=
  let w := cfg.bits
  let i := to_uintptr w o
  ((i <<< 4) % 2 ^ w) ||| (i >>> (w - 4))

/-- Modelled from the spec: the enumeration `rv_policy` is declared in a header
that is not under `src/`. Its enumerators are the five ownership policies of the
spec's glossary, which are also the five that `type_put` names. -/
inductive rv_policy where
  | copy
  | move
  | reference
  | reference_internal
  | none
  deriving DecidableEq, Repr

/-- The bits of `type_flags` that the code tests. The numeric values of the
enumerators are declared outside `src/`; every test `t->flags & type_flags::X`
is the field `X` here. -/
structure type_flags where
  is_destructible : Bool
  is_copy_constructible : Bool
  is_move_constructible : Bool
  has_destruct : Bool
  has_copy : Bool
  has_move : Bool
  has_scope : Bool
  has_doc : Bool
  has_base : Bool
  has_base_py : Bool

/-- The fields of `type_data` that the code reads. The hooks `destruct`, `copy`
and `move` are native function pointers: a call is recorded in the trace of the
state, and for `copy` and `move` the descriptor says on which arguments the
native constructor throws. -/
structure type_data where
  flags : type_flags
  name : String
  doc : String
  /-- The pointer `const std::type_info *type`. -/
  type : Addr
  /-- The pointer `PyTypeObject *type_py`. -/
  type_py : Addr
  scope : Addr
  size : Nat
  align : Nat
  copy_throws : Addr → Addr → Bool
  move_throws : Addr → Addr → Bool

/-- The fields of `nb_inst` after `PyObject_HEAD` (internals.h:18-29). -/
structure nb_inst where
  value : Addr
  destruct : Bool
  free : Bool
  clear_keep_alive : Bool

/-- The fields of the heap type object that `type_new` writes, with the
`type_data` copy kept in its trailing storage (`get_extra<type_data>(type)`). -/
structure PyTypeObject where
  tp_name : String
  tp_doc : Option String
  tp_basicsize : Nat
  tp_itemsize : Nat
  ht_name : String
  ht_qualname : String
  extra : type_data

/-- A value stored in an attribute of a Python object: another object, or a
Python string given by its text. -/
inductive PyVal where
  | obj (a : Addr)
  | str (text : String)
  deriving DecidableEq, Repr

/-- Calls that leave the bridge: native hooks, the native heap, the runtime. -/
inductive Event where
  /-- The call `t->destruct(value)`. -/
  | destruct (value : Addr)
  /-- The call `t->copy(dst, src)`. -/
  | copy (dst src : Addr)
  /-- The call `t->move(dst, src)`. -/
  | move (dst src : Addr)
  /-- The call `memcpy(dst, src, n)`. -/
  | memcpy (dst src : Addr) (n : Nat)
  /-- The call `operator delete(p)`, or the aligned form when `align` is given. -/
  | delete (p : Addr) (align : Option Nat)
  /-- The call `type->tp_free(self)`. -/
  | tp_free (self : Addr)
  /-- The runtime deallocates an object whose type the bridge does not define. -/
  | dealloc (o : Addr)
  deriving DecidableEq, Repr

/-- The diagnostics of `fail(...)`, one per call site. -/
inductive Fatal where
  /-- Diagnostic "inst_new(): duplicate object!". -/
  | duplicate_object
  /-- Diagnostic "attempted to call the destructor of a non-destructible type!". -/
  | destroy_non_destructible
  /-- Diagnostic "failure while clearing references!". -/
  | clearing_references
  /-- Diagnostic "attempted to delete an unknown instance!". -/
  | unknown_instance
  /-- Diagnostic "could not find type!". -/
  | could_not_find_type
  /-- Diagnostic "multiple base types specified!". -/
  | multiple_base_types
  /-- Diagnostic "PyType_Ready() failed!". -/
  | type_ready_failed
  /-- Diagnostic "type was already registered!". -/
  | type_already_registered
  /-- Diagnostic "inst_keep_alive(): internal error!". -/
  | keep_alive_internal_error
  /-- Diagnostic "attempted to move an instance that is not move-constructible!". -/
  | move_non_movable
  /-- Diagnostic "attempted to copy an instance that is not copy-constructible!". -/
  | copy_non_copyable
  deriving DecidableEq, Repr

/-- How a call ends. -/
inductive Outcome (α : Type) where
  /-- The call returns. -/
  | ok (a : α)
  /-- The call ends in `fail(...)`: a diagnostic, then the process is aborted. -/
  | fatal (f : Fatal)
  /-- The call ends in `raise(...)`, a C++ exception ("expected a nb_type nurse"). -/
  | raised
  /-- The C++ code has no defined behaviour: it reads or writes through a null
  pointer or a pointer to released storage, or divides by zero. -/
  | undefined
  /-- The recursion budget of the model ran out. -/
  | out_of_fuel
  deriving DecidableEq, Repr

/-- The record `internals` (internals.h:48-71) and the part of the runtime heap
that the code reads and writes. Hash maps and the keep-alive dictionary are
partial functions on their keys. -/
structure State where
  /-- The metatype `internals.nb_type`. -/
  nb_type : Addr
  /-- Instance Registry `inst_c2p`: (value address, type identity) to proxy. -/
  inst_c2p : Addr × TypeIndex → Option Addr
  /-- Type Registry `type_c2p`: type identity to the `type_data` copy, which is
  named by the address of the type object that holds it. -/
  type_c2p : TypeIndex → Option Addr
  /-- Dictionary `keep_alive`: key of the nurse to the set object of its patients. -/
  keep_alive : Int → Option Addr
  /-- Field `ob_refcnt` of every object. -/
  ob_refcnt : Addr → Int
  /-- Field `ob_type` of every object. -/
  ob_type : Addr → Addr
  /-- The live `nb_inst` objects. -/
  insts : Addr → Option nb_inst
  /-- The live type objects made by `type_new`. -/
  types : Addr → Option PyTypeObject
  /-- The live Python set objects with their elements, in iteration order. -/
  sets : Addr → Option (List Int)
  /-- Attributes of Python objects, as read by `getattr` and written by `setattr`. -/
  attrs : Addr → String → Option PyVal
  /-- The test `PyModule_Check`. -/
  is_module : Addr → Bool
  /-- The calls that left the bridge so far, oldest first. -/
  trace : List Event

/-- A map with one key rebound. -/
def upd {α β : Type} [DecidableEq α] (m : α → β) (k : α) (v : β) : α → β :=
  fun x => if x = k then v else m x

/-- Sequencing: the continuation runs only when the first call returns. -/
def andThen {α β : Type} (r : Outcome α × State) (k : α → State → Outcome β × State) :
    Outcome β × State :=
  match r with
  | (Outcome.ok a, s) => k a s
  | (Outcome.fatal f, s) => (Outcome.fatal f, s)
  | (Outcome.raised, s) => (Outcome.raised, s)
  | (Outcome.undefined, s) => (Outcome.undefined, s)
  | (Outcome.out_of_fuel, s) => (Outcome.out_of_fuel, s)

/-- The runtime's `Py_INCREF(o)`. -/
def Py_INCREF (s : State) (o : Addr) : State :=
  { s with ob_refcnt := upd s.ob_refcnt o (s.ob_refcnt o + 1) }

/-- Record a call that leaves the bridge. -/
def emit (s : State) (e : Event) : State :=
  { s with trace := s.trace ++ [e] }

/-- Embedding of `type_free` (type.cpp:122-136). `PyType_Type.tp_dealloc`
releases the type object. -/
def type_free (cfg : Config) (s : State) (o : Addr) : Outcome Unit × State :=
  match s.types o with
  | none => (Outcome.undefined, s)
  | some tp =>
    match s.type_c2p (cfg.type_index tp.extra.type) with
    | none => (Outcome.fatal Fatal.could_not_find_type, s)
    | some _ =>
      let s1 := { s with type_c2p := upd s.type_c2p (cfg.type_index tp.extra.type) none }
      (Outcome.ok (), { s1 with types := upd s1.types o none })

/-- The runtime's dispatch to `Py_TYPE(o)->tp_dealloc` when the count of `o`
reaches zero. A set releases its storage; an instance of a type made by
`type_new` runs `inst_dealloc` (type.cpp:197), passed as `dealloc_inst`.
Modelled from the spec: the `tp_dealloc` slot of the metatype is filled outside
`src/`; by section 4.2, Unregister (`type_free`) runs when a proxy-type object is
destroyed. Any other object is left to the runtime. -/
def tp_dealloc (cfg : Config) (dealloc_inst : State → Addr → Outcome Unit × State)
    (s : State) (o : Addr) : Outcome Unit × State :=
  match s.sets o with
  | some _ => (Outcome.ok (), { s with sets := upd s.sets o none })
  | none =>
    match s.insts o with
    | some _ => dealloc_inst s o
    | none =>
      match s.types o with
      | some _ => type_free cfg s o
      | none => (Outcome.ok (), emit s (Event.dealloc o))

/-- The runtime's `Py_DECREF(o)`: the count drops by one, and the object is
deallocated when the count becomes zero. -/
def Py_DECREF_with (cfg : Config) (dealloc_inst : State → Addr → Outcome Unit × State)
    (s : State) (o : Addr) : Outcome Unit × State :=
  let s1 := { s with ob_refcnt := upd s.ob_refcnt o (s.ob_refcnt o - 1) }
  if s1.ob_refcnt o = 0 then tp_dealloc cfg dealloc_inst s1 o else (Outcome.ok (), s1)

/-- The loop `while (_PySet_NextEntry(...)) Py_DECREF(key_to_ptr(key))`
(type.cpp:103-104) over the elements of the set. -/
def release_patients (cfg : Config) (decref : State → Addr → Outcome Unit × State) :
    List Int → State → Outcome Unit × State
  | [], s => (Outcome.ok (), s)
  | key :: rest, s =>
    andThen (decref s (key_to_ptr cfg key)) (fun _ s1 => release_patients cfg decref rest s1)

/-- Step 1 of `inst_dealloc` (type.cpp:72-80): the native destructor. -/
def dealloc_destruct (s : State) (inst : nb_inst) (t : type_data) : Outcome Unit × State :=
  if inst.destruct then
    if t.flags.is_destructible then
      if t.flags.has_destruct then (Outcome.ok (), emit s (Event.destruct inst.value))
      else (Outcome.ok (), s)
    else (Outcome.fatal Fatal.destroy_non_destructible, s)
  else (Outcome.ok (), s)

/-- Step 2 of `inst_dealloc` (type.cpp:82-87): the storage. -/
def dealloc_free (cfg : Config) (s : State) (inst : nb_inst) (t : type_data) : State :=
  if inst.free then
    if t.align ≤ cfg.default_new_alignment then emit s (Event.delete inst.value none)
    else emit s (Event.delete inst.value (some t.align))
  else s

/-- Step 3 of `inst_dealloc` (type.cpp:89-108): the keep-alive entry of `self`.
`PyDict_GetItem` returns a borrowed reference, `PyDict_DelItem` gives up the
reference of the dictionary, and the loop then reads the set again. -/
def dealloc_keep_alive (cfg : Config) (decref : State → Addr → Outcome Unit × State)
    (s : State) (self : Addr) (inst : nb_inst) : Outcome Unit × State :=
  if inst.clear_keep_alive then
    let self_key := ptr_to_key cfg self
    match s.keep_alive self_key with
    | none => (Outcome.fatal Fatal.clearing_references, s)
    | some set =>
      let s1 := { s with keep_alive := upd s.keep_alive self_key none }
      andThen (decref s1 set) (fun _ s2 =>
        match s2.sets set with
        | none => (Outcome.undefined, s2)
        | some keys =>
          andThen (release_patients cfg decref keys s2) (fun _ s3 => decref s3 set))
  else (Outcome.ok (), s)

/-- Step 4 of `inst_dealloc` (type.cpp:110-116): the Instance Registry entry. -/
def dealloc_unregister (cfg : Config) (s : State) (inst : nb_inst) (t : type_data) :
    Outcome Unit × State :=
  match s.inst_c2p (inst.value, cfg.type_index t.type) with
  | none => (Outcome.fatal Fatal.unknown_instance, s)
  | some _ =>
    (Outcome.ok (),
      { s with inst_c2p := upd s.inst_c2p (inst.value, cfg.type_index t.type) none })

/-- Embedding of `inst_dealloc` (type.cpp:66-120). A released patient may itself
be a proxy whose release runs `inst_dealloc` again; `fuel` bounds that nesting. -/
def inst_dealloc (cfg : Config) : Nat → State → Addr → Outcome Unit × State
  | 0, s, _ => (Outcome.out_of_fuel, s)
  | fuel + 1, s, self =>
    match s.insts self with
    | none => (Outcome.undefined, s)
    | some inst =>
      let type := s.ob_type self
      match s.types type with
      | none => (Outcome.undefined, s)
      | some tp =>
        let t := tp.extra
        andThen (dealloc_destruct s inst t) (fun _ s1 =>
          let s2 := dealloc_free cfg s1 inst t
          andThen (dealloc_keep_alive cfg (Py_DECREF_with cfg (inst_dealloc cfg fuel)) s2 self inst)
            (fun _ s3 =>
              andThen (dealloc_unregister cfg s3 inst t) (fun _ s4 =>
                let s5 := emit { s4 with insts := upd s4.insts self none } (Event.tp_free self)
                Py_DECREF_with cfg (inst_dealloc cfg fuel) s5 type)))

/-- The runtime's `Py_DECREF(o)` with `inst_dealloc` as the deallocator of proxies. -/
def Py_DECREF (cfg : Config) (fuel : Nat) (s : State) (o : Addr) : Outcome Unit × State :=
  Py_DECREF_with cfg (inst_dealloc cfg fuel) s o

/-- The rounding `(offset + align - 1) / align * align` of type.cpp:47 in
`uintptr_t` arithmetic. -/
def align_up (cfg : Config) (offset align : Nat) : Nat :=
  (((offset + align - 1) % 2 ^ cfg.bits) / align * align) % 2 ^ cfg.bits

/-- Embedding of `inst_new_impl` (type.cpp:34-59). The block returned by
`PyType_GenericAlloc` is at address `o`: its count is one, its fields are zero,
and the heap type it instantiates gains one reference. -/
def inst_new_impl (cfg : Config) (s : State) (o : Addr) (type : Addr) (value : Addr) :
    Outcome Addr × State :=
  if o = 0 then (Outcome.undefined, s) else
  match s.types type with
  | none => (Outcome.undefined, s)
  | some tp =>
    let t := tp.extra
    if value = 0 ∧ t.align = 0 then (Outcome.undefined, s) else
    let s1 := Py_INCREF s type
    let v := if value ≠ 0 then value else align_up cfg ((o + tp.tp_basicsize) % 2 ^ cfg.bits) t.align
    let self : nb_inst := { value := v, destruct := false, free := false, clear_keep_alive := false }
    let s2 := { s1 with
      ob_refcnt := upd s1.ob_refcnt o 1
      ob_type := upd s1.ob_type o type
      insts := upd s1.insts o (some self) }
    match s2.inst_c2p (v, cfg.type_index t.type) with
    | some _ => (Outcome.fatal Fatal.duplicate_object, s2)
    | none =>
      (Outcome.ok o, { s2 with inst_c2p := upd s2.inst_c2p (v, cfg.type_index t.type) (some o) })

/-- Embedding of `inst_keep_alive` (type.cpp:250-295). The object returned by
`PySet_New` is at address `set_obj` (null when the runtime has no memory);
`PyDict_SetItem`, `PySet_Contains` and `PySet_Add` on integer keys succeed. -/
def inst_keep_alive (cfg : Config) (fuel : Nat) (s : State) (set_obj : Addr)
    (nurse patient : Addr) : Outcome Unit × State :=
  if patient = 0 then (Outcome.ok (), s) else
  if nurse = 0 ∨ s.ob_type (s.ob_type nurse) ≠ s.nb_type then (Outcome.raised, s) else
  let nurse_key := ptr_to_key cfg nurse
  let patient_key := ptr_to_key cfg patient
  let found : Outcome Addr × State :=
    match s.keep_alive nurse_key with
    | some nurse_set => (Outcome.ok nurse_set, s)
    | none =>
      if set_obj = 0 then (Outcome.fatal Fatal.keep_alive_internal_error, s) else
      let s1 := { s with
        sets := upd s.sets set_obj (some [])
        ob_refcnt := upd s.ob_refcnt set_obj 1 }
      let s2 := Py_INCREF { s1 with keep_alive := upd s1.keep_alive nurse_key (some set_obj) }
        set_obj
      (Outcome.ok set_obj, s2)
  andThen found (fun nurse_set s3 =>
    match s3.sets nurse_set with
    | none => (Outcome.undefined, s3)
    | some keys =>
      if keys.contains patient_key then Py_DECREF cfg fuel s3 nurse_set
      else
        match s3.insts nurse with
        | none => (Outcome.undefined, s3)
        | some inst =>
          let s4 := { s3 with sets := upd s3.sets nurse_set (some (keys ++ [patient_key])) }
          let s5 := Py_INCREF s4 patient
          let s6 := { s5 with insts := upd s5.insts nurse (some { inst with clear_keep_alive := true }) }
          Py_DECREF cfg fuel s6 nurse_set)

/-- The assignment to the flags `destruct` and `free` of type.cpp:327-329. -/
def set_ownership (s : State) (inst : Addr) (destruct free : Bool) : Outcome Unit × State :=
  match s.insts inst with
  | none => (Outcome.undefined, s)
  | some i =>
    (Outcome.ok (),
      { s with insts := upd s.insts inst (some { i with destruct := destruct, free := free }) })

/-- The constructor call of type.cpp:334-350 and 352-368, for `move` and for
`copy` alike: `constructible` and `has_hook` are the two flag tests, `throws`
says whether the hook throws, `call` is the call of the hook and `not_constructible`
the diagnostic. The result `true` means that `type_put` goes on, `false` that it
returns `nullptr` from the handler. -/
def construct_value (cfg : Config) (fuel : Nat) (s : State) (t : type_data)
    (inst value : Addr) (constructible has_hook : Bool) (throws : Addr → Addr → Bool)
    (call : Addr → Addr → Event) (not_constructible : Fatal) : Outcome Bool × State :=
  match s.insts inst with
  | none => (Outcome.undefined, s)
  | some i =>
    if constructible then
      if has_hook then
        let s1 := emit s (call i.value value)
        if throws i.value value then
          andThen (Py_DECREF cfg fuel s1 inst) (fun _ s2 => (Outcome.ok false, s2))
        else (Outcome.ok true, s1)
      else (Outcome.ok true, emit s (Event.memcpy i.value value t.size))
    else (Outcome.fatal not_constructible, s)

/-- Embedding of `type_put` (type.cpp:297-371). The blocks that
`PyType_GenericAlloc` and `PySet_New` would return are at `o` and `set_obj`.
The result `0` is `nullptr`. -/
def type_put (cfg : Config) (fuel : Nat) (s : State) (o set_obj : Addr)
    (cpp_type value : Addr) (rvp : rv_policy) (parent : Addr) : Outcome Addr × State :=
  if value = 0 then (Outcome.ok cfg.Py_None, Py_INCREF s cfg.Py_None) else
  match s.inst_c2p (value, cfg.type_index cpp_type) with
  | some result => (Outcome.ok result, Py_INCREF s result)
  | none =>
    if rvp = rv_policy.none then (Outcome.ok 0, s) else
    match s.type_c2p (cfg.type_index cpp_type) with
    | none => (Outcome.ok 0, s)
    | some tptr =>
      match s.types tptr with
      | none => (Outcome.undefined, s)
      | some tp =>
        let t := tp.extra
        let store_in_obj : Bool := rvp = rv_policy.copy ∨ rvp = rv_policy.move
        andThen (inst_new_impl cfg s o t.type_py (if store_in_obj then 0 else value))
          (fun inst s1 =>
            let destruct : Bool := rvp ≠ rv_policy.reference ∧ rvp ≠ rv_policy.reference_internal
            let free : Bool := destruct && !store_in_obj
            andThen (set_ownership s1 inst destruct free) (fun _ s2 =>
              andThen
                (if rvp = rv_policy.reference_internal then
                  inst_keep_alive cfg fuel s2 set_obj inst parent
                else (Outcome.ok (), s2))
                (fun _ s3 =>
                  andThen
                    (if rvp = rv_policy.move then
                      construct_value cfg fuel s3 t inst value t.flags.is_move_constructible
                        t.flags.has_move t.move_throws Event.move Fatal.move_non_movable
                    else (Outcome.ok true, s3))
                    (fun go_on s4 =>
                      if go_on then
                        andThen
                          (if rvp = rv_policy.copy then
                            construct_value cfg fuel s4 t inst value
                              t.flags.is_copy_constructible t.flags.has_copy t.copy_throws
                              Event.copy Fatal.copy_non_copyable
                          else (Outcome.ok true, s4))
                          (fun go_on s5 =>
                            if go_on then (Outcome.ok inst, s5) else (Outcome.ok 0, s5))
                      else (Outcome.ok 0, s4)))))

/-- The string built by `PyUnicode_FromFormat("%U.%U", a, b)`; the format `%U`
needs a Python string. -/
def format_UU (a : PyVal) (b : String) : Option String :=
  match a with
  | PyVal.str x => some (x ++ "." ++ b)
  | PyVal.obj _ => none

/-- The call `setattr(o, name, v)`: the attribute is bound to `v`. The references
that attribute dictionaries hold are the runtime's own and are not counted. -/
def setattr (s : State) (o : Addr) (name : String) (v : PyVal) : State :=
  { s with attrs := fun a n => if a = o ∧ n = name then some v else s.attrs a n }

/-- The qualified name computed at type.cpp:148-155: the name of the type, after
the `__qualname__` of the scope when the scope is not a module and has one. The
result is `none` when `%U` is given an object that is not a string. -/
def type_qualname (s : State) (t : type_data) : Option String :=
  if t.flags.has_scope && !s.is_module t.scope then
    match s.attrs t.scope "__qualname__" with
    | some q => format_UU q t.name
    | none => some t.name
  else some t.name

/-- The object `scope_name` of type.cpp:157-162: the attribute `__module__` of
the scope, else its attribute `__name__`. -/
def type_scope_name (s : State) (t : type_data) : Option PyVal :=
  if t.flags.has_scope then
    match s.attrs t.scope "__module__" with
    | some m => some m
    | none => s.attrs t.scope "__name__"
  else none

/-- The string `fullname` of type.cpp:163-165, which the code builds and does not
use; `none` when `%U` is given an object that is not a string. -/
def type_fullname (s : State) (t : type_data) : Option String :=
  match type_scope_name s t with
  | some m => format_UU m t.name
  | none => some t.name

/-- The second part of `type_new` (type.cpp:173-221): the type object is
allocated at `ht`, filled in, made ready and published, and then entered in the
Type Registry. -/
def type_new_build (cfg : Config) (s : State) (ht : Addr) (ready : Bool) (t : type_data)
    (qualname : String) (scope_name : Option PyVal) : Outcome Addr × State :=
  if ht = 0 then (Outcome.undefined, s) else
  let tp : PyTypeObject :=
    { tp_name := t.name
      tp_doc := if t.flags.has_doc then some t.doc else none
      tp_basicsize := cfg.sizeof_nb_inst
      tp_itemsize := t.size + (if t.align > cfg.ptr_bytes then t.align - cfg.ptr_bytes else 0)
      ht_name := t.name
      ht_qualname := qualname
      extra := t }
  let s1 := { s with
    ob_refcnt := upd s.ob_refcnt ht 1
    ob_type := upd s.ob_type ht s.nb_type
    types := upd s.types ht (some tp) }
  if !ready then (Outcome.fatal Fatal.type_ready_failed, s1) else
  let s2 :=
    match scope_name with
    | some m => setattr s1 ht "__module__" m
    | none => s1
  let s3 := if t.flags.has_scope then setattr s2 t.scope t.name (PyVal.obj ht) else s2
  let s4 := { s3 with types := upd s3.types ht (some { tp with extra := { t with type_py := ht } }) }
  match s4.type_c2p (cfg.type_index t.type) with
  | some _ => (Outcome.fatal Fatal.type_already_registered, s4)
  | none =>
    (Outcome.ok ht, { s4 with type_c2p := upd s4.type_c2p (cfg.type_index t.type) (some ht) })

/-- Embedding of `type_new` (type.cpp:138-222). The block returned by
`alloc_extra` is at address `ht` with count one and type `internals.nb_type`;
`ready` says whether `PyType_Ready` succeeds. -/
def type_new (cfg : Config) (s : State) (ht : Addr) (ready : Bool) (t : type_data) :
    Outcome Addr × State :=
  if t.flags.has_base && t.flags.has_base_py then
    (Outcome.fatal Fatal.multiple_base_types, s)
  else
    match type_qualname s t, type_fullname s t with
    | some qualname, some _ => type_new_build cfg s ht ready t qualname (type_scope_name s t)
    | _, _ => (Outcome.undefined, s)

/-- The type identity `T` is registered in `s`: the Type Registry maps it to a
live type object `ty` whose `type_data` is `t`, as `type_new` leaves it: the
descriptor names `T` and points back to `ty`, the type of `ty` is the metatype of
the bridge, and `ty` is referenced. -/
def Registered (cfg : Config) (s : State) (T : TypeIndex) (ty : Addr) (tp : PyTypeObject) :
    Prop :=
  s.type_c2p T = some ty ∧ s.types ty = some tp ∧ tp.extra.type_py = ty ∧
    cfg.type_index tp.extra.type = T ∧ s.ob_type ty = s.nb_type ∧ 0 < s.ob_refcnt ty

/-- The address `o` names no live object of `s` and no key of its keep-alive
dictionary: it may be the result of the next allocation. -/
def Fresh (cfg : Config) (s : State) (o : Addr) : Prop :=
  s.insts o = none ∧ s.types o = none ∧ s.sets o = none ∧
    s.keep_alive (ptr_to_key cfg o) = none

/-- A 64-bit target: pointers of 8 bytes, `sizeof(nb_inst) = 32`, and type
identities told apart by the address of their `std::type_info`. -/
def cfg64 : Config :=
  { ptr_bytes := 8
    sizeof_nb_inst := 32
    default_new_alignment := 16
    Py_None := 8
    type_index := fun p => p }

/-- The runtime before any registration: the metatype is at address 64 and the
`None` singleton is referenced once. -/
def state_empty : State :=
  { nb_type := 64
    inst_c2p := fun _ => none
    type_c2p := fun _ => none
    keep_alive := fun _ => none
    ob_refcnt := fun a => if a = 8 then 1 else 0
    ob_type := fun _ => 0
    insts := fun _ => none
    types := fun _ => none
    sets := fun _ => none
    attrs := fun _ _ => none
    is_module := fun _ => false
    trace := [] }

/-- A descriptor of 16 bytes aligned to 8, with `std::type_info` at address 7,
published as "A" in the scope object at address 500. -/
def descr (flags : type_flags) (throws : Bool) : type_data :=
  { flags := flags
    name := "A"
    doc := ""
    type := 7
    type_py := 0
    scope := 500
    size := 16
    align := 8
    copy_throws := fun _ _ => throws
    move_throws := fun _ _ => throws }

/-- Flags of a type that can be destroyed and copied, but not moved, bitwise. -/
def flags_copy_only : type_flags :=
  { is_destructible := true
    is_copy_constructible := true
    is_move_constructible := false
    has_destruct := false
    has_copy := false
    has_move := false
    has_scope := false
    has_doc := false
    has_base := false
    has_base_py := false }

/-- The state after `type_new` registered `descr flags throws` in the type object
at address 4096. -/
def state_registered (flags : type_flags) (throws : Bool) : State :=
  (type_new cfg64 state_empty 4096 true (descr flags throws)).2

/-- Flags of a type with custom destructor, copy and move hooks. -/
def flags_hooks : type_flags :=
  { is_destructible := true
    is_copy_constructible := true
    is_move_constructible := true
    has_destruct := true
    has_copy := true
    has_move := true
    has_scope := false
    has_doc := false
    has_base := false
    has_base_py := false }

/-- Flags of a type with custom copy and move hooks that is declared
non-destructible. -/
def flags_not_destructible : type_flags :=
  { flags_hooks with is_destructible := false, has_destruct := false }

/-- Flags of a type that is published in a scope. -/
def flags_scoped : type_flags :=
  { flags_copy_only with has_scope := true }

/-- Flags that name a native base and a Python base at once. -/
def flags_two_bases : type_flags :=
  { flags_copy_only with has_base := true, has_base_py := true }

/-- The type object that `type_new` builds at address 4096 for `descr flags throws`. -/
def type_object_registered (flags : type_flags) (throws : Bool) : PyTypeObject :=
  { tp_name := "A"
    tp_doc := if flags.has_doc then some "" else none
    tp_basicsize := 32
    tp_itemsize := 16
    ht_name := "A"
    ht_qualname := "A"
    extra := { descr flags throws with type_py := 4096 } }

/-- The attributes `__qualname__`, `__module__` and `__name__` of the scope of
the descriptor, where present, are Python strings, as `%U` requires. -/
def ScopeNamesAreStrings (s : State) (t : type_data) : Prop :=
  ∀ n v, (n = "__qualname__" ∨ n = "__module__" ∨ n = "__name__") →
    s.attrs t.scope n = some v → ∃ x, v = PyVal.str x

/-- The state after `type_put` with policy `reference` bound the address 1000 of
the registered type to the new proxy 8192. -/
def state_bound : State :=
  (type_put cfg64 0 (state_registered flags_copy_only false) 8192 0 7 1000
    rv_policy.reference 0).2

/-- Embedding of `type_get` (type.cpp:224-248). The state is only read. The
result is the returned flag together with the value written to `*out`, or `none`
where the code leaves `*out` untouched. -/
def type_get (cfg : Config) (s : State) (cpp_type o : Addr) : Outcome (Bool × Option Addr) :=
  if o = 0 ∨ o = cfg.Py_None then Outcome.ok (decide (o ≠ 0), some 0) else
  let type := s.ob_type o
  if s.ob_type type ≠ s.nb_type then Outcome.ok (false, none) else
  match s.types type with
  | none => Outcome.undefined
  | some tp =>
    if tp.extra.type = cpp_type ∨ cfg.type_index tp.extra.type = cfg.type_index cpp_type then
      match s.insts o with
      | none => Outcome.undefined
      | some inst => Outcome.ok (true, some inst.value)
    else Outcome.ok (false, none)

/-- The state after `type_put` with policy `reference_internal` bound the address
1000 to the new proxy 8192 (the nurse), with the object at 600 as owner (the
patient) and the new set at 16384. -/
def state_linked : State :=
  (type_put cfg64 0 (state_registered flags_copy_only false) 8192 16384 7 1000
    rv_policy.reference_internal 600).2

/-- The state `s1` differs from `s` at most in the trace of calls and in the
attributes. -/
def SameHeap (s s1 : State) : Prop :=
  s1.nb_type = s.nb_type ∧ s1.inst_c2p = s.inst_c2p ∧ s1.type_c2p = s.type_c2p ∧
    s1.keep_alive = s.keep_alive ∧ s1.ob_refcnt = s.ob_refcnt ∧ s1.ob_type = s.ob_type ∧
    s1.insts = s.insts ∧ s1.types = s.types ∧ s1.sets = s.sets

/-- What a release can do to the heap: `s1` comes from `s` by removing proxies,
type objects, sets, registry entries and dictionary entries and by lowering
counts; nothing is added, and no proxy or type object is modified. -/
def Shrinks (s s1 : State) : Prop :=
  s1.nb_type = s.nb_type ∧ s1.ob_type = s.ob_type ∧
    (∀ p, s1.insts p = s.insts p ∨ s1.insts p = none) ∧
    (∀ k, s1.inst_c2p k = s.inst_c2p k ∨ s1.inst_c2p k = none) ∧
    (∀ a, s1.types a = s.types a ∨ s1.types a = none) ∧
    (∀ T, s1.type_c2p T = s.type_c2p T ∨ s1.type_c2p T = none) ∧
    (∀ k, s1.keep_alive k = s.keep_alive k ∨ s1.keep_alive k = none) ∧
    (∀ a, s1.sets a = s.sets a ∨ s1.sets a = none) ∧
    (∀ q, s1.ob_refcnt q ≤ s.ob_refcnt q)

/-- How often the trace records a call of a destructor hook on the address `v`. -/
def destruct_count (v : Addr) (tr : List Event) : Nat :=
  tr.count (Event.destruct v)

/-- The situation in which `self` is released: its count is not positive, and no
other live proxy with destruct-on-release set wraps the value address `v`. -/
def ReleaseOf (self v : Addr) (s : State) : Prop :=
  (∀ q i, s.insts q = some i → q ≠ self → i.destruct = true → i.value ≠ v) ∧
    s.ob_refcnt self ≤ 0

/-- The step from `s` to `s1` only shrinks the heap and, in the situation
`ReleaseOf self v`, calls no destructor hook on `v`. -/
def QuietStep (self v : Addr) (s s1 : State) : Prop :=
  Shrinks s s1 ∧
    (ReleaseOf self v s → destruct_count v s1.trace = destruct_count v s.trace)

/-- The state after `type_put` with policy `copy` copied the value at 1000 into
the new proxy 8192 of the registered type: the proxy owns its value at 8224. -/
def state_owned (flags : type_flags) : State :=
  (type_put cfg64 0 (state_registered flags false) 8192 0 7 1000 rv_policy.copy 0).2

/-- The state in which the runtime calls `inst_dealloc` on the proxy 8192 of
`state_owned`: the count of the proxy has become zero. -/
def state_dying (flags : type_flags) : State :=
  { state_owned flags with ob_refcnt := upd (state_owned flags).ob_refcnt 8192 0 }

/-- The Instance Registry invariant: every live proxy has an entry; every entry
points to a live proxy and is keyed by that proxy's value address and, as long as
the type object of the proxy is live, by the type identity recorded there; and no
proxy has two entries. -/
def RegistryInv (cfg : Config) (s : State) : Prop :=
  (∀ p inst, s.insts p = some inst → ∃ k, s.inst_c2p k = some p) ∧
  (∀ k p, s.inst_c2p k = some p → ∃ inst, s.insts p = some inst ∧ k.1 = inst.value ∧
    ∀ tp, s.types (s.ob_type p) = some tp → k.2 = cfg.type_index tp.extra.type) ∧
  (∀ k k2 p, s.inst_c2p k = some p → s.inst_c2p k2 = some p → k = k2)

/-- The proxy `z` is in step 3 of its own release: its keep-alive entry is gone
and, while it is live, its flag `clear_keep_alive` is set, so that a nested
release of `z` stops with "failure while clearing references". -/
def Protected (cfg : Config) (z : Addr) (s : State) : Prop :=
  s.keep_alive (ptr_to_key cfg z) = none ∧
    ∀ i, s.insts z = some i → i.clear_keep_alive = true

/-- A call with result `r` from a state `s` with the registry invariant does not
end in "unknown instance", keeps the invariant, and leaves a protected proxy `z`
and its entry `k` alone. -/
def Sound (cfg : Config) (z : Addr) (k : Addr × TypeIndex) {α : Type} (s : State)
    (r : Outcome α × State) : Prop :=
  RegistryInv cfg s →
    r.1 ≠ Outcome.fatal Fatal.unknown_instance ∧ RegistryInv cfg r.2 ∧
      (Protected cfg z s → s.inst_c2p k = some z →
        r.2.inst_c2p k = some z ∧ r.2.insts z = s.insts z)

/-- A call with result `r` from a state `s` with the registry invariant does not
end in "unknown instance", and when it returns the invariant holds again. -/
def Safe (cfg : Config) {α : Type} (s : State) (r : Outcome α × State) : Prop :=
  RegistryInv cfg s →
    r.1 ≠ Outcome.fatal Fatal.unknown_instance ∧ ∀ a, r.1 = Outcome.ok a → RegistryInv cfg r.2

/-- Both registries are empty and no proxy is live. -/
def Initial (s : State) : Prop :=
  (∀ k, s.inst_c2p k = none) ∧ (∀ T, s.type_c2p T = none) ∧ (∀ p, s.insts p = none)

/-- The states that calls of `type_new`, `inst_new_impl`, `type_put` and
`inst_dealloc` which return reach from empty registries, together with the
reference counting of the runtime. The block that an allocation returns is not a
live proxy, and the block of a new type object is not the type of a live proxy. -/
inductive Reachable (cfg : Config) : State → Prop where
  /-- Empty registries. -/
  | init (s : State) (h : Initial s) : Reachable cfg s
  /-- Register: `type_new` returns. -/
  | register (s s1 : State) (ht r : Addr) (ready : Bool) (t : type_data)
      (hs : Reachable cfg s) (hfresh : s.insts ht = none)
      (htype : ∀ p, s.insts p ≠ none → s.ob_type p ≠ ht)
      (hcall : type_new cfg s ht ready t = (Outcome.ok r, s1)) : Reachable cfg s1
  /-- Allocate: `inst_new_impl` returns. -/
  | allocate (s s1 : State) (o type value r : Addr)
      (hs : Reachable cfg s) (hfresh : s.insts o = none)
      (hcall : inst_new_impl cfg s o type value = (Outcome.ok r, s1)) : Reachable cfg s1
  /-- Bind: `type_put` returns. -/
  | bind (s s1 : State) (fuel : Nat) (o set_obj cpp_type value parent r : Addr)
      (rvp : rv_policy) (hs : Reachable cfg s) (hfresh : s.insts o = none)
      (hcall : type_put cfg fuel s o set_obj cpp_type value rvp parent = (Outcome.ok r, s1)) :
      Reachable cfg s1
  /-- Release: `inst_dealloc` returns. -/
  | release (s s1 : State) (fuel : Nat) (p : Addr) (hs : Reachable cfg s)
      (hcall : inst_dealloc cfg fuel s p = (Outcome.ok (), s1)) : Reachable cfg s1
  /-- The runtime takes a reference. -/
  | incref (s : State) (o : Addr) (hs : Reachable cfg s) : Reachable cfg (Py_INCREF s o)
  /-- The runtime gives up a reference, which releases the object at count zero. -/
  | decref (s s1 : State) (fuel : Nat) (o : Addr) (hs : Reachable cfg s)
      (hcall : Py_DECREF cfg fuel s o = (Outcome.ok (), s1)) : Reachable cfg s1

/-! ## Part 2: theorems -/

theorem two_pow_split (w : Nat) (hw : 4 ≤ w) : 2 ^ w = 2 ^ (w - 4) * 16 := by
  have h : w = (w - 4) + 4 := by omega
  conv_lhs => rw [h]
  rw [pow_add]
  norm_num

theorem to_uintptr_to_ssize (w : Nat) (i : Nat) (hi : i < 2 ^ w) :
    to_uintptr w (to_ssize w i) = i := by
  unfold to_uintptr to_ssize
  have hpos : (0 : Int) < 2 ^ w := by positivity
  have hiw : (i : Int) < 2 ^ w := by exact_mod_cast hi
  split
  · rw [Int.emod_eq_of_lt (by omega) hiw]
    simp
  · have h1 : ((i : Int) - 2 ^ w) % 2 ^ w = (i : Int) := by
      rw [Int.sub_emod, Int.emod_self, sub_zero, Int.emod_emod_of_dvd _ (dvd_refl _)]
      exact Int.emod_eq_of_lt (by omega) hiw
    rw [h1]
    simp

theorem rotate_right_value (w p : Nat) (hw : 4 ≤ w) (hp : p < 2 ^ w) :
    (p >>> 4) ||| ((p <<< (w - 4)) % 2 ^ w) = p / 16 + (p % 16) * 2 ^ (w - 4) := by
  have hsplit : 2 ^ w = 2 ^ (w - 4) * 16 := two_pow_split w hw
  have hq : p / 16 < 2 ^ (w - 4) := by
    rw [Nat.div_lt_iff_lt_mul (by norm_num)]
    omega
  have h1 : p >>> 4 = p / 16 := by
    rw [Nat.shiftRight_eq_div_pow]
  have h2 : (p <<< (w - 4)) % 2 ^ w = (p % 16) * 2 ^ (w - 4) := by
    rw [Nat.shiftLeft_eq, hsplit]
    conv_lhs => rw [← Nat.div_add_mod p 16]
    rw [Nat.add_mul, Nat.mul_comm 16 (p / 16), Nat.mul_assoc, Nat.mul_comm 16 (2 ^ (w - 4)),
      Nat.mul_comm (p / 16), Nat.mul_add_mod]
    apply Nat.mod_eq_of_lt
    rw [Nat.mul_comm (2 ^ (w - 4)) 16]
    exact Nat.mul_lt_mul_of_pos_right (Nat.mod_lt _ (by norm_num)) (by positivity)
  rw [h1, h2, Nat.mul_comm (p % 16), Nat.add_comm, Nat.lor_comm]
  exact (Nat.mul_add_lt_is_or hq _).symm

theorem rotate_right_lt (w p : Nat) (hw : 4 ≤ w) (hp : p < 2 ^ w) :
    p / 16 + (p % 16) * 2 ^ (w - 4) < 2 ^ w := by
  have hsplit : 2 ^ w = 2 ^ (w - 4) * 16 := two_pow_split w hw
  have hq : p / 16 < 2 ^ (w - 4) := by
    rw [Nat.div_lt_iff_lt_mul (by norm_num)]
    omega
  have hr : p % 16 < 16 := Nat.mod_lt _ (by norm_num)
  have : (p % 16) * 2 ^ (w - 4) ≤ 15 * 2 ^ (w - 4) := Nat.mul_le_mul_right _ (by omega)
  omega

theorem rotate_left_value (w q r : Nat) (hw : 4 ≤ w) (hq : q < 2 ^ (w - 4)) (hr : r < 16) :
    (((q + r * 2 ^ (w - 4)) <<< 4) % 2 ^ w) ||| ((q + r * 2 ^ (w - 4)) >>> (w - 4))
      = 16 * q + r := by
  have hsplit : 2 ^ w = 2 ^ (w - 4) * 16 := two_pow_split w hw
  have h1 : ((q + r * 2 ^ (w - 4)) <<< 4) % 2 ^ w = 16 * q := by
    rw [Nat.shiftLeft_eq]
    have : (q + r * 2 ^ (w - 4)) * 2 ^ 4 = 16 * q + 2 ^ w * r := by
      rw [hsplit]; ring
    rw [this, Nat.add_mul_mod_self_left]
    apply Nat.mod_eq_of_lt
    omega
  have h2 : (q + r * 2 ^ (w - 4)) >>> (w - 4) = r := by
    rw [Nat.shiftRight_eq_div_pow, Nat.add_mul_div_right _ _ (by positivity),
      Nat.div_eq_of_lt hq, Nat.zero_add]
  rw [h1, h2]
  exact (Nat.mul_add_lt_is_or (show r < 2 ^ 4 by simpa using hr) q).symm

/-- C5: the codec is exactly invertible. For every pointer width of at least one
byte and every address `p` representable in a machine word,
`key_to_ptr (ptr_to_key p) = p`; the key is the word rotated right by four bits and
read as a signed integer, so this covers the keys that come out negative. -/
theorem key_to_ptr_ptr_to_key (cfg : Config) (p : Addr)
    (hbytes : 1 ≤ cfg.ptr_bytes) (hp : p < 2 ^ cfg.bits) :
    key_to_ptr cfg (ptr_to_key cfg p) = p := by
  have hw : 4 ≤ cfg.bits := by unfold Config.bits; omega
  unfold key_to_ptr ptr_to_key
  simp only
  rw [Nat.mod_eq_of_lt hp, rotate_right_value _ _ hw hp,
    to_uintptr_to_ssize _ _ (rotate_right_lt _ _ hw hp)]
  have hsplit : 2 ^ cfg.bits = 2 ^ (cfg.bits - 4) * 16 := two_pow_split _ hw
  have hq : p / 16 < 2 ^ (cfg.bits - 4) := by
    rw [Nat.div_lt_iff_lt_mul (by norm_num)]
    rw [hsplit] at hp
    exact hp
  rw [rotate_left_value _ _ _ hw hq (Nat.mod_lt _ (by norm_num))]
  exact Nat.div_add_mod p 16

/-! ### Maps and sequencing -/

@[simp] theorem upd_same {α β : Type} [DecidableEq α] (m : α → β) (k : α) (v : β) :
    upd m k v k = v := by
  simp [upd]

theorem upd_other {α β : Type} [DecidableEq α] (m : α → β) (k : α) (v : β) (x : α)
    (h : x ≠ k) : upd m k v x = m x := by
  simp [upd, h]

@[simp] theorem andThen_ok {α β : Type} (a : α) (s : State)
    (k : α → State → Outcome β × State) : andThen (Outcome.ok a, s) k = k a s := rfl

@[simp] theorem andThen_fatal {α β : Type} (f : Fatal) (s : State)
    (k : α → State → Outcome β × State) :
    andThen (Outcome.fatal f, s) k = (Outcome.fatal f, s) := rfl

/-! ### Bind: reuse of a registered proxy -/

/-- C2: identity reuse takes precedence over policy. When the Instance Registry
holds `p` for the key (value, type identity), `type_put` returns `p` for every
policy, adds one to the count of `p` and to no other count, and leaves the
Instance Registry, the Type Registry, the keep-alive dictionary and its sets, the
fields of every proxy (value address and the three flags) and the trace of hook
calls as they were. -/
theorem type_put_reuses_registered_proxy (cfg : Config) (fuel : Nat) (s : State)
    (o set_obj cpp_type value : Addr) (rvp : rv_policy) (parent p : Addr)
    (hvalue : value ≠ 0)
    (hreg : s.inst_c2p (value, cfg.type_index cpp_type) = some p) :
    ∃ s1, type_put cfg fuel s o set_obj cpp_type value rvp parent = (Outcome.ok p, s1) ∧
      s1.ob_refcnt p = s.ob_refcnt p + 1 ∧
      (∀ q, q ≠ p → s1.ob_refcnt q = s.ob_refcnt q) ∧
      s1.inst_c2p = s.inst_c2p ∧ s1.type_c2p = s.type_c2p ∧
      s1.keep_alive = s.keep_alive ∧ s1.sets = s.sets ∧
      s1.insts = s.insts ∧ s1.types = s.types ∧ s1.trace = s.trace := by
  refine ⟨Py_INCREF s p, ?_, ?_, ?_, rfl, rfl, rfl, rfl, rfl, rfl, rfl⟩
  · simp [type_put, hvalue, hreg]
  · simp [Py_INCREF]
  · intro q hq
    simp [Py_INCREF, upd_other _ _ _ _ hq]

/-! ### Bind: a new proxy -/

/-- C4: reference policy. With `T` registered, `value` non-null and no proxy
registered for (value, T), `type_put` with policy `reference` returns the newly
allocated proxy `o`, referenced once; its value address is `value` itself, its
flags `destruct`, `free` and `clear_keep_alive` are all false; the Instance
Registry gains the entry (value, T) for `o` and is otherwise unchanged; no hook
is called, and the Type Registry, the keep-alive dictionary and its sets are
unchanged. -/
theorem type_put_reference_policy (cfg : Config) (fuel : Nat) (s : State)
    (o set_obj cpp_type value parent ty : Addr) (tp : PyTypeObject)
    (hvalue : value ≠ 0) (ho : o ≠ 0)
    (hnone : s.inst_c2p (value, cfg.type_index cpp_type) = none)
    (hreg : Registered cfg s (cfg.type_index cpp_type) ty tp) :
    ∃ s1, type_put cfg fuel s o set_obj cpp_type value rv_policy.reference parent
        = (Outcome.ok o, s1) ∧
      s1.insts o = some { value := value, destruct := false, free := false,
                          clear_keep_alive := false } ∧
      s1.ob_refcnt o = 1 ∧
      s1.inst_c2p (value, cfg.type_index cpp_type) = some o ∧
      (∀ k, k ≠ (value, cfg.type_index cpp_type) → s1.inst_c2p k = s.inst_c2p k) ∧
      s1.trace = s.trace ∧ s1.type_c2p = s.type_c2p ∧
      s1.keep_alive = s.keep_alive ∧ s1.sets = s.sets := by
  obtain ⟨h1, h2, h3, h4, h5, h6⟩ := hreg
  simp [type_put, hvalue, hnone, h1, h2, h3, h4, inst_new_impl, ho, Py_INCREF, set_ownership]
  intro a b hab
  apply upd_other
  intro h
  simp only [Prod.mk.injEq] at h
  exact hab h.1 h.2

theorem align_up_bounds (cfg : Config) (b a : Nat) (ha : 0 < a)
    (hfit : b + a ≤ 2 ^ cfg.bits) :
    b ≤ align_up cfg b a ∧ align_up cfg b a < b + a ∧ a ∣ align_up cfg b a := by
  unfold align_up
  have h1 : (b + a - 1) % 2 ^ cfg.bits = b + a - 1 := Nat.mod_eq_of_lt (by omega)
  have hle : (b + a - 1) / a * a ≤ b + a - 1 := Nat.div_mul_le_self _ _
  have h2 : ((b + a - 1) / a * a) % 2 ^ cfg.bits = (b + a - 1) / a * a :=
    Nat.mod_eq_of_lt (by omega)
  rw [h1, h2]
  have hlt : b + a - 1 < ((b + a - 1) / a + 1) * a := by
    have := Nat.lt_div_mul_add (a := b + a - 1) ha
    rw [Nat.add_mul, Nat.one_mul]
    exact this
  rw [Nat.add_mul, Nat.one_mul] at hlt
  exact ⟨by omega, by omega, Nat.dvd_mul_left _ _⟩

/-- C3, as amended: copy policy. With `T` registered and copy-constructible,
`value` non-null, no proxy registered for (value, T), and a copy that does not
throw, `type_put` with policy `copy` returns the newly allocated proxy `o`; its
value address `v` is the start of its own trailing storage rounded up to the
alignment of `T`, its flag `destruct` is true and its flag `free` is false (the
storage is part of the proxy and goes back to the runtime with it), and it is
registered under (v, T). The address `v` lies in the window of `align` bytes
after the header of `o`, so it differs from `value` whenever `value` lies outside
that window. The copy is made by the hook when the type has one, else bitwise. -/
theorem type_put_copy_policy (cfg : Config) (fuel : Nat) (s : State)
    (o set_obj cpp_type value parent ty : Nat) (tp : PyTypeObject)
    (hvalue : value ≠ 0) (ho : o ≠ 0)
    (hnone : s.inst_c2p (value, cfg.type_index cpp_type) = none)
    (hreg : Registered cfg s (cfg.type_index cpp_type) ty tp)
    (hcopy : tp.extra.flags.is_copy_constructible = true)
    (halign : 0 < tp.extra.align)
    (hfit : o + tp.tp_basicsize + tp.extra.align ≤ 2 ^ cfg.bits)
    (hnew : s.inst_c2p (align_up cfg (o + tp.tp_basicsize) tp.extra.align,
      cfg.type_index cpp_type) = none)
    (hthrow : tp.extra.flags.has_copy = true →
      tp.extra.copy_throws (align_up cfg (o + tp.tp_basicsize) tp.extra.align) value = false)
    (hout : value < o + tp.tp_basicsize ∨ o + tp.tp_basicsize + tp.extra.align ≤ value) :
    ∃ s1 v, type_put cfg fuel s o set_obj cpp_type value rv_policy.copy parent
        = (Outcome.ok o, s1) ∧
      v = align_up cfg (o + tp.tp_basicsize) tp.extra.align ∧
      s1.insts o = some { value := v, destruct := true, free := false,
                          clear_keep_alive := false } ∧
      s1.inst_c2p (v, cfg.type_index cpp_type) = some o ∧
      o + tp.tp_basicsize ≤ v ∧ v < o + tp.tp_basicsize + tp.extra.align ∧
      tp.extra.align ∣ v ∧ v ≠ value ∧
      s1.trace = s.trace ++
        [if tp.extra.flags.has_copy = true then Event.copy v value
         else Event.memcpy v value tp.extra.size] := by
  obtain ⟨h1, h2, h3, h4, h5, h6⟩ := hreg
  obtain ⟨hb1, hb2, hb3⟩ := align_up_bounds cfg (o + tp.tp_basicsize) tp.extra.align halign hfit
  have hmod : (o + tp.tp_basicsize) % 2 ^ cfg.bits = o + tp.tp_basicsize :=
    Nat.mod_eq_of_lt (by omega)
  have hne : align_up cfg (o + tp.tp_basicsize) tp.extra.align ≠ value := by omega
  have halign0 : tp.extra.align ≠ 0 := by omega
  by_cases hhook : tp.extra.flags.has_copy = true
  · have hth := hthrow hhook
    simp [type_put, hvalue, hnone, h1, h2, h3, h4, inst_new_impl, ho, Py_INCREF,
      set_ownership, construct_value, halign0, hmod, hnew, hcopy, hhook, hth, emit,
      hb1, hb2, hb3, hne]
  · simp [type_put, hvalue, hnone, h1, h2, h3, h4, inst_new_impl, ho, Py_INCREF,
      set_ownership, construct_value, halign0, hmod, hnew, hcopy, hhook, emit,
      hb1, hb2, hb3, hne]

/-- C3, counterexample: a type of 16 bytes that is copied bitwise is registered,
and `type_put` with policy `copy` is called for the unregistered address 1000.
The proxy returned is the new block at 8192; its value address is 8224 and its
flag `destruct` is true, but its flag `free` is false, not true. -/
theorem copy_proxy_free_flag_is_false :
    (type_put cfg64 0 (state_registered flags_copy_only false) 8192 0 7 1000
        rv_policy.copy 0).1 = Outcome.ok 8192 ∧
      ((type_put cfg64 0 (state_registered flags_copy_only false) 8192 0 7 1000
        rv_policy.copy 0).2.insts 8192).map (fun i => (i.value, i.destruct, i.free))
        = some (8224, true, false) := by
  decide

/-- C6, as amended: move of a non-movable type. With `T` registered but not
move-constructible, `value` non-null and no proxy registered for (value, T),
`type_put` with policy `move` ends in the fatal error "not move-constructible".
The error is raised after the allocation: at that point the Instance Registry
holds its former entries and, in addition, the entry of the new proxy `o` under
its own storage address; `o` is still live, no hook was called and nothing was
released. -/
theorem type_put_move_non_movable (cfg : Config) (fuel : Nat) (s : State)
    (o set_obj cpp_type value parent ty : Addr) (tp : PyTypeObject)
    (hvalue : value ≠ 0) (ho : o ≠ 0)
    (hnone : s.inst_c2p (value, cfg.type_index cpp_type) = none)
    (hreg : Registered cfg s (cfg.type_index cpp_type) ty tp)
    (hmove : tp.extra.flags.is_move_constructible = false)
    (halign : tp.extra.align ≠ 0)
    (hnew : s.inst_c2p (align_up cfg ((o + tp.tp_basicsize) % 2 ^ cfg.bits) tp.extra.align,
      cfg.type_index cpp_type) = none) :
    ∃ s1 v, type_put cfg fuel s o set_obj cpp_type value rv_policy.move parent
        = (Outcome.fatal Fatal.move_non_movable, s1) ∧
      v = align_up cfg ((o + tp.tp_basicsize) % 2 ^ cfg.bits) tp.extra.align ∧
      s1.inst_c2p (v, cfg.type_index cpp_type) = some o ∧
      (∀ k, k ≠ (v, cfg.type_index cpp_type) → s1.inst_c2p k = s.inst_c2p k) ∧
      s1.insts o = some { value := v, destruct := true, free := false,
                          clear_keep_alive := false } ∧
      s1.trace = s.trace := by
  obtain ⟨h1, h2, h3, h4, h5, h6⟩ := hreg
  simp [type_put, hvalue, hnone, h1, h2, h3, h4, inst_new_impl, ho, Py_INCREF,
    set_ownership, construct_value, halign, hnew, hmove]
  intro a b hab
  apply upd_other
  intro h
  simp only [Prod.mk.injEq] at h
  exact hab h.1 h.2

/-- C6, counterexample: the registered type cannot be moved, and `type_put` with
policy `move` is called for the unregistered address 1000. The call ends in the
fatal error; at that point the Instance Registry holds an entry for the storage
address 8224 of the new proxy 8192, which it did not hold before the call. -/
theorem move_non_movable_leaves_entry :
    (type_put cfg64 0 (state_registered flags_copy_only false) 8192 0 7 1000
        rv_policy.move 0).1 = Outcome.fatal Fatal.move_non_movable ∧
      (state_registered flags_copy_only false).inst_c2p (8224, 7) = none ∧
      (type_put cfg64 0 (state_registered flags_copy_only false) 8192 0 7 1000
        rv_policy.move 0).2.inst_c2p (8224, 7) = some 8192 := by
  decide

/-! ### Bind: identity over a sequence of calls -/

theorem Py_DECREF_of_set (cfg : Config) (fuel : Nat) (s : State) (a : Addr) (keys : List Int)
    (h : s.sets a = some keys) :
    Py_DECREF cfg fuel s a =
      (Outcome.ok (),
        if s.ob_refcnt a - 1 = 0 then
          { s with ob_refcnt := upd s.ob_refcnt a (s.ob_refcnt a - 1), sets := upd s.sets a none }
        else { s with ob_refcnt := upd s.ob_refcnt a (s.ob_refcnt a - 1) }) := by
  unfold Py_DECREF Py_DECREF_with
  by_cases h0 : s.ob_refcnt a - 1 = 0
  · simp [h0, tp_dealloc, h]
  · simp [h0]

/-- C9: reference_internal policy. With `T` registered, `value` non-null, no
proxy registered for (value, T), a non-null owner `parent`, and new blocks `o`
and `set_obj` that are fresh and distinct from the owner, `type_put` with policy
`reference_internal` returns the same new proxy `o` as policy `reference` does,
with value address `value` and flags `destruct` and `free` false, registered
under (value, T). In addition the keep-alive dictionary gains one entry, from the
key of `o` to a new set whose only element is the key of the owner; the count of
the owner is one more than under policy `reference` (and one more than before the
call unless the owner is the type object of `T`, which every new instance
references); the flag `clear_keep_alive` of `o` is set. The new set is
referenced once, no other count differs from policy `reference`, and no hook is
called. -/
theorem type_put_reference_internal (cfg : Config) (fuel : Nat) (s : State)
    (o set_obj cpp_type value parent ty : Addr) (tp : PyTypeObject)
    (hvalue : value ≠ 0) (ho : o ≠ 0) (hparent : parent ≠ 0) (hset : set_obj ≠ 0)
    (hnone : s.inst_c2p (value, cfg.type_index cpp_type) = none)
    (hreg : Registered cfg s (cfg.type_index cpp_type) ty tp)
    (hfresh : Fresh cfg s o)
    (hso : set_obj ≠ o) (hpo : parent ≠ o) (hps : parent ≠ set_obj) :
    ∃ s_ref s_int,
      type_put cfg fuel s o set_obj cpp_type value rv_policy.reference parent
        = (Outcome.ok o, s_ref) ∧
      type_put cfg fuel s o set_obj cpp_type value rv_policy.reference_internal parent
        = (Outcome.ok o, s_int) ∧
      s_ref.insts o = some { value := value, destruct := false, free := false,
                             clear_keep_alive := false } ∧
      s_int.insts o = some { value := value, destruct := false, free := false,
                             clear_keep_alive := true } ∧
      s_int.inst_c2p (value, cfg.type_index cpp_type) = some o ∧
      s_int.inst_c2p = s_ref.inst_c2p ∧
      s_ref.keep_alive = s.keep_alive ∧ s_ref.sets = s.sets ∧
      s_int.keep_alive = upd s.keep_alive (ptr_to_key cfg o) (some set_obj) ∧
      s_int.sets = upd s.sets set_obj (some [ptr_to_key cfg parent]) ∧
      s_int.ob_refcnt parent = s_ref.ob_refcnt parent + 1 ∧
      (parent ≠ ty → s_int.ob_refcnt parent = s.ob_refcnt parent + 1) ∧
      (∀ q, q ≠ parent → q ≠ set_obj → s_int.ob_refcnt q = s_ref.ob_refcnt q) ∧
      s_int.ob_refcnt set_obj = 1 ∧
      s_int.trace = s.trace := by
  obtain ⟨h1, h2, h3, h4, h5, h6⟩ := hreg
  obtain ⟨f1, f2, f3, f4⟩ := hfresh
  have hty : ty ≠ o := by
    intro h
    rw [h, f2] at h2
    exact Option.noConfusion h2
  have hos : o ≠ set_obj := Ne.symm hso
  have hop : o ≠ parent := Ne.symm hpo
  have hsp : set_obj ≠ parent := Ne.symm hps
  simp [type_put, hvalue, hnone, h1, h2, h3, h4, inst_new_impl, ho, Py_INCREF, set_ownership,
    inst_keep_alive, hparent, upd_other _ _ _ _ hty, h5, f4, hset, Py_DECREF, Py_DECREF_with,
    upd_other _ _ _ _ hos, upd_other _ _ _ _ hop, upd_other _ _ _ _ hsp,
    upd_other _ _ _ _ hso, upd_other _ _ _ _ hpo, upd_other _ _ _ _ hps]
  refine ⟨?_, ?_, ?_⟩
  · funext x
    by_cases hx : x = set_obj
    · simp [upd, hx]
    · simp [upd, hx]
  · intro hpt
    exact upd_other _ _ _ _ hpt
  · intro q hq1 hq2
    simp [upd, hq1, hq2]

/-! ### Bind: a constructor that throws -/

theorem upd_upd_none {α β : Type} [DecidableEq α] (m : α → Option β) (k : α) (v : Option β)
    (h : m k = none) : upd (upd m k v) k none = m := by
  funext x
  by_cases hx : x = k
  · simp [upd, hx, h]
  · simp [upd, hx]

/-- C8: the destructor after a failed construction. Let `T` be registered,
destructible with a custom destructor hook, `value` non-null with no proxy
registered for (value, T), the blocks fresh, and let the policy be `copy` or
`move` with a custom hook that throws. Then `type_put` returns `nullptr`, and its
calls that leave the bridge are, in this order: the hook on the storage `v` of
the new proxy, the destructor hook on the same `v`, where no object was
constructed, and `tp_free` of the proxy. The flag `destruct` is set before the
constructor runs (type.cpp:327), and the handler releases the proxy through
`inst_dealloc`, which obeys the flag. Afterwards the Instance Registry, the
keep-alive dictionary and the count of the type object are as before the call. -/
theorem type_put_throw_runs_destructor (cfg : Config) (fuel : Nat) (s : State)
    (o set_obj cpp_type value parent ty : Addr) (tp : PyTypeObject) (rvp : rv_policy)
    (hvalue : value ≠ 0) (ho : o ≠ 0)
    (hnone : s.inst_c2p (value, cfg.type_index cpp_type) = none)
    (hreg : Registered cfg s (cfg.type_index cpp_type) ty tp)
    (hfresh : Fresh cfg s o)
    (halign : tp.extra.align ≠ 0)
    (hnew : s.inst_c2p (align_up cfg ((o + tp.tp_basicsize) % 2 ^ cfg.bits) tp.extra.align,
      cfg.type_index cpp_type) = none)
    (hrvp : rvp = rv_policy.copy ∨ rvp = rv_policy.move)
    (hcopy : rvp = rv_policy.copy → tp.extra.flags.is_copy_constructible = true ∧
      tp.extra.flags.has_copy = true ∧
      tp.extra.copy_throws
        (align_up cfg ((o + tp.tp_basicsize) % 2 ^ cfg.bits) tp.extra.align) value = true)
    (hmove : rvp = rv_policy.move → tp.extra.flags.is_move_constructible = true ∧
      tp.extra.flags.has_move = true ∧
      tp.extra.move_throws
        (align_up cfg ((o + tp.tp_basicsize) % 2 ^ cfg.bits) tp.extra.align) value = true)
    (hdes : tp.extra.flags.is_destructible = true)
    (hhook : tp.extra.flags.has_destruct = true) :
    ∃ s1 v, type_put cfg (fuel + 1) s o set_obj cpp_type value rvp parent
        = (Outcome.ok 0, s1) ∧
      v = align_up cfg ((o + tp.tp_basicsize) % 2 ^ cfg.bits) tp.extra.align ∧
      s1.trace = s.trace ++
        [if rvp = rv_policy.copy then Event.copy v value else Event.move v value,
         Event.destruct v, Event.tp_free o] ∧
      s1.insts o = none ∧
      s1.inst_c2p = s.inst_c2p ∧ s1.type_c2p = s.type_c2p ∧
      s1.keep_alive = s.keep_alive ∧ s1.sets = s.sets ∧
      s1.ob_refcnt ty = s.ob_refcnt ty := by
  obtain ⟨h1, h2, h3, h4, h5, h6⟩ := hreg
  obtain ⟨f1, f2, f3, f4⟩ := hfresh
  have hty : ty ≠ o := by
    intro h
    rw [h, f2] at h2
    exact Option.noConfusion h2
  have hrc : s.ob_refcnt ty ≠ 0 := by omega
  rcases hrvp with h | h
  · obtain ⟨c1, c2, c3⟩ := hcopy h
    subst h
    simp [type_put, hvalue, hnone, h1, h2, h3, h4, inst_new_impl, ho, Py_INCREF,
      set_ownership, construct_value, halign, hnew, c1, c2, c3, emit, Py_DECREF,
      Py_DECREF_with, tp_dealloc, f3, inst_dealloc, upd_other _ _ _ _ hty, dealloc_destruct,
      hdes, hhook, dealloc_free, dealloc_keep_alive, dealloc_unregister, hrc,
      upd_upd_none _ _ _ hnew]
  · obtain ⟨c1, c2, c3⟩ := hmove h
    subst h
    simp [type_put, hvalue, hnone, h1, h2, h3, h4, inst_new_impl, ho, Py_INCREF,
      set_ownership, construct_value, halign, hnew, c1, c2, c3, emit, Py_DECREF,
      Py_DECREF_with, tp_dealloc, f3, inst_dealloc, upd_other _ _ _ _ hty, dealloc_destruct,
      hdes, hhook, dealloc_free, dealloc_keep_alive, dealloc_unregister, hrc,
      upd_upd_none _ _ _ hnew]

/-- C7: a constructor that throws, on a type declared non-destructible. Let `T`
be registered, copy- or move-constructible with a custom hook that throws, but
not flagged destructible. Then `type_put` with policy `copy` or `move` does not
return `nullptr`: the handler releases the new proxy, whose flag `destruct` is
already set, and `inst_dealloc` ends in the fatal error "destructor of a
non-destructible type". At that point the proxy is still live and still
registered under its storage address. -/
theorem type_put_throw_non_destructible (cfg : Config) (fuel : Nat) (s : State)
    (o set_obj cpp_type value parent ty : Addr) (tp : PyTypeObject) (rvp : rv_policy)
    (hvalue : value ≠ 0) (ho : o ≠ 0)
    (hnone : s.inst_c2p (value, cfg.type_index cpp_type) = none)
    (hreg : Registered cfg s (cfg.type_index cpp_type) ty tp)
    (hfresh : Fresh cfg s o)
    (halign : tp.extra.align ≠ 0)
    (hnew : s.inst_c2p (align_up cfg ((o + tp.tp_basicsize) % 2 ^ cfg.bits) tp.extra.align,
      cfg.type_index cpp_type) = none)
    (hrvp : rvp = rv_policy.copy ∨ rvp = rv_policy.move)
    (hcopy : rvp = rv_policy.copy → tp.extra.flags.is_copy_constructible = true ∧
      tp.extra.flags.has_copy = true ∧
      tp.extra.copy_throws
        (align_up cfg ((o + tp.tp_basicsize) % 2 ^ cfg.bits) tp.extra.align) value = true)
    (hmove : rvp = rv_policy.move → tp.extra.flags.is_move_constructible = true ∧
      tp.extra.flags.has_move = true ∧
      tp.extra.move_throws
        (align_up cfg ((o + tp.tp_basicsize) % 2 ^ cfg.bits) tp.extra.align) value = true)
    (hdes : tp.extra.flags.is_destructible = false) :
    ∃ s1 v, type_put cfg (fuel + 1) s o set_obj cpp_type value rvp parent
        = (Outcome.fatal Fatal.destroy_non_destructible, s1) ∧
      v = align_up cfg ((o + tp.tp_basicsize) % 2 ^ cfg.bits) tp.extra.align ∧
      s1.insts o = some { value := v, destruct := true, free := false,
                          clear_keep_alive := false } ∧
      s1.inst_c2p (v, cfg.type_index cpp_type) = some o := by
  obtain ⟨h1, h2, h3, h4, h5, h6⟩ := hreg
  obtain ⟨f1, f2, f3, f4⟩ := hfresh
  have hty : ty ≠ o := by
    intro h
    rw [h, f2] at h2
    exact Option.noConfusion h2
  rcases hrvp with h | h
  · obtain ⟨c1, c2, c3⟩ := hcopy h
    subst h
    simp [type_put, hvalue, hnone, h1, h2, h3, h4, inst_new_impl, ho, Py_INCREF,
      set_ownership, construct_value, halign, hnew, c1, c2, c3, emit, Py_DECREF,
      Py_DECREF_with, tp_dealloc, f3, inst_dealloc, upd_other _ _ _ _ hty, dealloc_destruct,
      hdes]
  · obtain ⟨c1, c2, c3⟩ := hmove h
    subst h
    simp [type_put, hvalue, hnone, h1, h2, h3, h4, inst_new_impl, ho, Py_INCREF,
      set_ownership, construct_value, halign, hnew, c1, c2, c3, emit, Py_DECREF,
      Py_DECREF_with, tp_dealloc, f3, inst_dealloc, upd_other _ _ _ _ hty, dealloc_destruct,
      hdes]

/-! ### Register: a type identity that is already registered -/

theorem type_new_build_duplicate (cfg : Config) (s : State) (ht first : Addr) (ready : Bool)
    (t : type_data) (qualname : String) (scope_name : Option PyVal)
    (hdup : s.type_c2p (cfg.type_index t.type) = some first) :
    (∀ a, (type_new_build cfg s ht ready t qualname scope_name).1 ≠ Outcome.ok a) ∧
    (type_new_build cfg s ht ready t qualname scope_name).2.type_c2p = s.type_c2p ∧
    (∀ a, a ≠ ht → (type_new_build cfg s ht ready t qualname scope_name).2.types a = s.types a) ∧
    (∀ a n, a ≠ ht → ¬(t.flags.has_scope = true ∧ a = t.scope ∧ n = t.name) →
      (type_new_build cfg s ht ready t qualname scope_name).2.attrs a n = s.attrs a n) ∧
    (ready = true → ht ≠ 0 →
      (type_new_build cfg s ht ready t qualname scope_name).1
          = Outcome.fatal Fatal.type_already_registered ∧
        (t.flags.has_scope = true →
          (type_new_build cfg s ht ready t qualname scope_name).2.attrs t.scope t.name
            = some (PyVal.obj ht))) := by
  unfold type_new_build
  by_cases hht : ht = 0
  · simp [hht]
  cases ready
  · simp [hht]
    intro a ha
    exact upd_other _ _ _ _ ha
  cases scope_name <;> cases hsc : t.flags.has_scope <;>
    simp [hht, setattr, hdup] <;>
    (try constructor) <;> intros <;> simp_all [upd]

theorem type_qualname_defined (s : State) (t : type_data) (h : ScopeNamesAreStrings s t) :
    ∃ q, type_qualname s t = some q := by
  unfold type_qualname
  split
  · cases hq : s.attrs t.scope "__qualname__" with
    | none => exact ⟨_, rfl⟩
    | some v =>
      obtain ⟨x, hx⟩ := h "__qualname__" v (Or.inl rfl) hq
      subst hx
      exact ⟨_, rfl⟩
  · exact ⟨_, rfl⟩

theorem type_fullname_defined (s : State) (t : type_data) (h : ScopeNamesAreStrings s t) :
    ∃ q, type_fullname s t = some q := by
  unfold type_fullname
  cases hn : type_scope_name s t with
  | none => exact ⟨_, rfl⟩
  | some v =>
    have hstr : ∃ x, v = PyVal.str x := by
      unfold type_scope_name at hn
      split at hn
      · cases hm : s.attrs t.scope "__module__" with
        | some m =>
          rw [hm] at hn
          simp only [Option.some.injEq] at hn
          subst hn
          exact h "__module__" m (Or.inr (Or.inl rfl)) hm
        | none =>
          rw [hm] at hn
          exact h "__name__" v (Or.inr (Or.inr rfl)) hn
      · exact Option.noConfusion hn
    obtain ⟨x, hx⟩ := hstr
    subst hx
    exact ⟨_, rfl⟩

/-- C10, as amended: registering a type identity twice. When the Type Registry
already maps the identity of the descriptor `t` to a type object `first`,
`type_new` never returns. It ends in the fatal error "type was already
registered" whenever it gets as far as the registry, that is unless both base
flags are set, `PyType_Ready` fails, the allocation fails or a scope name is not
a string. The duplicate is detected last: at the point of the error the Type
Registry is unchanged and still maps the identity to `first`, every type object
other than the new block `ht` is unchanged, and every attribute of every other
object is unchanged, with one exception: when `t` has a scope, the name of `t` in
that scope has been rebound to the new type object `ht`. -/
theorem type_new_duplicate (cfg : Config) (s : State) (ht first : Addr) (ready : Bool)
    (t : type_data)
    (hdup : s.type_c2p (cfg.type_index t.type) = some first) :
    (∀ a, (type_new cfg s ht ready t).1 ≠ Outcome.ok a) ∧
    (type_new cfg s ht ready t).2.type_c2p (cfg.type_index t.type) = some first ∧
    (type_new cfg s ht ready t).2.type_c2p = s.type_c2p ∧
    (∀ a, a ≠ ht → (type_new cfg s ht ready t).2.types a = s.types a) ∧
    (∀ a n, a ≠ ht → ¬(t.flags.has_scope = true ∧ a = t.scope ∧ n = t.name) →
      (type_new cfg s ht ready t).2.attrs a n = s.attrs a n) ∧
    (¬(t.flags.has_base = true ∧ t.flags.has_base_py = true) → ready = true → ht ≠ 0 →
      ScopeNamesAreStrings s t →
      (type_new cfg s ht ready t).1 = Outcome.fatal Fatal.type_already_registered ∧
        (t.flags.has_scope = true →
          (type_new cfg s ht ready t).2.attrs t.scope t.name = some (PyVal.obj ht))) := by
  unfold type_new
  by_cases hb : (t.flags.has_base && t.flags.has_base_py) = true
  · rw [if_pos hb]
    refine ⟨fun a h => Outcome.noConfusion h, hdup, rfl, fun _ _ => rfl, fun _ _ _ _ => rfl, ?_⟩
    intro hnb
    simp only [Bool.and_eq_true] at hb
    exact absurd hb hnb
  · rw [if_neg hb]
    cases hq : type_qualname s t with
    | none =>
      refine ⟨fun a h => Outcome.noConfusion h, hdup, rfl, fun _ _ => rfl,
        fun _ _ _ _ => rfl, ?_⟩
      intro _ _ _ hstr
      obtain ⟨q, hq2⟩ := type_qualname_defined s t hstr
      rw [hq] at hq2
      exact Option.noConfusion hq2
    | some q =>
      cases hf : type_fullname s t with
      | none =>
        refine ⟨fun a h => Outcome.noConfusion h, hdup, rfl, fun _ _ => rfl,
          fun _ _ _ _ => rfl, ?_⟩
        intro _ _ _ hstr
        obtain ⟨f, hf2⟩ := type_fullname_defined s t hstr
        rw [hf] at hf2
        exact Option.noConfusion hf2
      | some f =>
        obtain ⟨b1, b2, b3, b4, b5⟩ :=
          type_new_build_duplicate cfg s ht first ready t q (type_scope_name s t) hdup
        refine ⟨b1, ?_, b2, b3, b4, fun _ hr hh _ => b5 hr hh⟩
        show (type_new_build cfg s ht ready t q (type_scope_name s t)).2.type_c2p
          (cfg.type_index t.type) = some first
        rw [b2]
        exact hdup

/-- C10, counterexample: the descriptor "A" with scope 500 is registered in the
type object 4096, which publishes the name "A" in the scope. Registering the same
descriptor again, in the block 20480, ends in the fatal error "type was already
registered", and the Type Registry still maps the identity to 4096; but the name
"A" of the scope no longer refers to the first type object 4096: it refers to
20480. Moreover a second descriptor with both base flags set ends in another
fatal error, "multiple base types". -/
theorem duplicate_registration_rebinds_name :
    (state_registered flags_scoped false).type_c2p 7 = some 4096 ∧
    (state_registered flags_scoped false).attrs 500 "A" = some (PyVal.obj 4096) ∧
    (type_new cfg64 (state_registered flags_scoped false) 20480 true
        (descr flags_scoped false)).1 = Outcome.fatal Fatal.type_already_registered ∧
    (type_new cfg64 (state_registered flags_scoped false) 20480 true
        (descr flags_scoped false)).2.type_c2p 7 = some 4096 ∧
    (type_new cfg64 (state_registered flags_scoped false) 20480 true
        (descr flags_scoped false)).2.attrs 500 "A" = some (PyVal.obj 20480) ∧
    (type_new cfg64 (state_registered flags_scoped false) 20480 true
        (descr flags_two_bases false)).1 = Outcome.fatal Fatal.multiple_base_types := by
  decide

theorem type_new_build_registers (cfg : Config) (s s1 : State) (ht a : Addr) (ready : Bool)
    (t : type_data) (qualname : String) (scope_name : Option PyVal)
    (h : type_new_build cfg s ht ready t qualname scope_name = (Outcome.ok a, s1)) :
    a = ht ∧ ∃ tp, Registered cfg s1 (cfg.type_index t.type) ht tp ∧
      tp.extra = { t with type_py := ht } := by
  unfold type_new_build at h
  by_cases hht : ht = 0
  · simp [hht] at h
  cases ready
  · simp [hht] at h
  simp only [hht, if_false, Bool.not_true, Bool.false_eq_true] at h
  split at h
  · simp at h
  · simp only [Prod.mk.injEq, Outcome.ok.injEq] at h
    obtain ⟨ha, hs⟩ := h
    refine ⟨ha.symm,
      { tp_name := t.name
        tp_doc := if t.flags.has_doc then some t.doc else none
        tp_basicsize := cfg.sizeof_nb_inst
        tp_itemsize := t.size + (if t.align > cfg.ptr_bytes then t.align - cfg.ptr_bytes else 0)
        ht_name := t.name
        ht_qualname := qualname
        extra := { t with type_py := ht } }, ?_, rfl⟩
    rw [← hs]
    cases scope_name <;> cases hsc : t.flags.has_scope <;>
      simp [Registered, setattr, upd]

/-- Whenever `type_new` returns, the new type object is registered in the sense
of `Registered`, with the descriptor it was given. -/
theorem type_new_registers (cfg : Config) (s s1 : State) (ht a : Addr) (ready : Bool)
    (t : type_data) (h : type_new cfg s ht ready t = (Outcome.ok a, s1)) :
    a = ht ∧ ∃ tp, Registered cfg s1 (cfg.type_index t.type) ht tp ∧
      tp.extra = { t with type_py := ht } := by
  unfold type_new at h
  split at h
  · simp at h
  · split at h
    · exact type_new_build_registers cfg s s1 ht a ready t _ _ h
    · simp at h

/-! ### The theorems at concrete inputs -/

theorem registered_example (flags : type_flags) (throws : Bool)
    (hbase : (flags.has_base && flags.has_base_py) = false) (hscope : flags.has_scope = false) :
    Registered cfg64 (state_registered flags throws) 7 4096
      (type_object_registered flags throws) := by
  simp [Registered, state_registered, type_new, hbase, hscope, type_qualname, type_fullname,
    type_scope_name, type_new_build, descr, cfg64, state_empty, type_object_registered]

theorem fresh_example (flags : type_flags) (throws : Bool)
    (hbase : (flags.has_base && flags.has_base_py) = false) (hscope : flags.has_scope = false) :
    Fresh cfg64 (state_registered flags throws) 8192 := by
  simp [Fresh, state_registered, type_new, hbase, hscope, type_qualname, type_fullname,
    type_scope_name, type_new_build, descr, cfg64, state_empty, upd]

/-- Witness of C5 on a 64-bit target: the address 8 has the negative key
`-2 ^ 63` and is recovered from it. -/
theorem key_to_ptr_ptr_to_key_witness :
    1 ≤ cfg64.ptr_bytes ∧ (8 : Nat) < 2 ^ cfg64.bits ∧ ptr_to_key cfg64 8 = -2 ^ 63 ∧
      key_to_ptr cfg64 (ptr_to_key cfg64 8) = 8 :=
  ⟨by decide, by decide, by decide, key_to_ptr_ptr_to_key cfg64 8 (by decide) (by decide)⟩

/-- Witness of C2: the address 1000 is bound to the proxy 8192; a call with
policy `move` returns 8192. -/
theorem type_put_reuses_registered_proxy_witness :
    (1000 : Nat) ≠ 0 ∧ state_bound.inst_c2p (1000, cfg64.type_index 7) = some 8192 ∧
      ∃ s1, type_put cfg64 0 state_bound 12288 0 7 1000 rv_policy.move 0
          = (Outcome.ok 8192, s1) ∧
        s1.ob_refcnt 8192 = state_bound.ob_refcnt 8192 + 1 ∧
        s1.inst_c2p = state_bound.inst_c2p ∧ s1.insts = state_bound.insts ∧
        s1.trace = state_bound.trace :=
  ⟨by decide, by decide,
    let ⟨s1, h1, h2, _, h4, _, _, _, h8, _, h10⟩ :=
      type_put_reuses_registered_proxy cfg64 0 state_bound 12288 0 7 1000 rv_policy.move 0 8192
        (by decide) (by decide)
    ⟨s1, h1, h2, h4, h8, h10⟩⟩

/-- Witness of C4: the address 1000 of the registered type is bound by reference
to the new proxy 8192. -/
theorem type_put_reference_policy_witness :
    (1000 : Nat) ≠ 0 ∧ (8192 : Nat) ≠ 0 ∧
      (state_registered flags_copy_only false).inst_c2p (1000, cfg64.type_index 7) = none ∧
      Registered cfg64 (state_registered flags_copy_only false) (cfg64.type_index 7) 4096
        (type_object_registered flags_copy_only false) ∧
      ∃ s1, type_put cfg64 0 (state_registered flags_copy_only false) 8192 0 7 1000
          rv_policy.reference 0 = (Outcome.ok 8192, s1) ∧
        s1.insts 8192 = some { value := 1000, destruct := false, free := false,
                               clear_keep_alive := false } ∧
        s1.inst_c2p (1000, cfg64.type_index 7) = some 8192 ∧
        s1.trace = (state_registered flags_copy_only false).trace ∧
        s1.keep_alive = (state_registered flags_copy_only false).keep_alive :=
  ⟨by decide, by decide, by decide, registered_example flags_copy_only false rfl rfl,
    let ⟨s1, h1, h2, _, h4, _, h6, _, h8, _⟩ :=
      type_put_reference_policy cfg64 0 (state_registered flags_copy_only false) 8192 0 7 1000 0 4096
        (type_object_registered flags_copy_only false) (by decide) (by decide) (by decide)
        (registered_example flags_copy_only false rfl rfl)
    ⟨s1, h1, h2, h4, h6, h8⟩⟩

/-- Witness of C3 as amended: the address 1000 of the registered type is copied
bitwise into the new proxy 8192, whose storage starts at 8224. -/
theorem type_put_copy_policy_witness :
    Registered cfg64 (state_registered flags_copy_only false) (cfg64.type_index 7) 4096
        (type_object_registered flags_copy_only false) ∧
      (state_registered flags_copy_only false).inst_c2p (1000, cfg64.type_index 7) = none ∧
      ∃ s1 v, type_put cfg64 0 (state_registered flags_copy_only false) 8192 0 7 1000
          rv_policy.copy 0 = (Outcome.ok 8192, s1) ∧
        v = 8224 ∧
        s1.insts 8192 = some { value := v, destruct := true, free := false,
                               clear_keep_alive := false } ∧
        v ≠ 1000 :=
  ⟨registered_example flags_copy_only false rfl rfl, by decide,
    let ⟨s1, v, h1, h2, h3, _, _, _, _, h8, _⟩ :=
      type_put_copy_policy cfg64 0 (state_registered flags_copy_only false) 8192 0 7 1000 0 4096
        (type_object_registered flags_copy_only false) (by decide) (by decide) (by decide)
        (registered_example flags_copy_only false rfl rfl) rfl (by decide) (by decide)
        (by decide) (fun h => absurd h (by decide)) (by decide)
    ⟨s1, v, h1, h2.trans (by decide), h3, h8⟩⟩

/-- Witness of C6 as amended: the registered type cannot be moved; the fatal
error leaves the new proxy 8192 registered under its storage address. -/
theorem type_put_move_non_movable_witness :
    Registered cfg64 (state_registered flags_copy_only false) (cfg64.type_index 7) 4096
        (type_object_registered flags_copy_only false) ∧
      (type_object_registered flags_copy_only false).extra.flags.is_move_constructible = false ∧
      ∃ s1 v, type_put cfg64 0 (state_registered flags_copy_only false) 8192 0 7 1000
          rv_policy.move 0 = (Outcome.fatal Fatal.move_non_movable, s1) ∧
        s1.inst_c2p (v, cfg64.type_index 7) = some 8192 ∧
        s1.trace = (state_registered flags_copy_only false).trace :=
  ⟨registered_example flags_copy_only false rfl rfl, rfl,
    let ⟨s1, v, h1, _, h3, _, _, h6⟩ :=
      type_put_move_non_movable cfg64 0 (state_registered flags_copy_only false) 8192 0 7 1000 0
        4096 (type_object_registered flags_copy_only false) (by decide) (by decide) (by decide)
        (registered_example flags_copy_only false rfl rfl) rfl (by decide) (by decide)
    ⟨s1, v, h1, h3, h6⟩⟩

/-- Witness of C9: the address 1000 is bound with policy `reference_internal` and
owner 600; the key of the new proxy 8192 maps to the new set 16384. -/
theorem type_put_reference_internal_witness :
    Registered cfg64 (state_registered flags_copy_only false) (cfg64.type_index 7) 4096
        (type_object_registered flags_copy_only false) ∧
      Fresh cfg64 (state_registered flags_copy_only false) 8192 ∧
      ∃ s_ref s_int,
        type_put cfg64 0 (state_registered flags_copy_only false) 8192 16384 7 1000
          rv_policy.reference 600 = (Outcome.ok 8192, s_ref) ∧
        type_put cfg64 0 (state_registered flags_copy_only false) 8192 16384 7 1000
          rv_policy.reference_internal 600 = (Outcome.ok 8192, s_int) ∧
        s_int.insts 8192 = some { value := 1000, destruct := false, free := false,
                                  clear_keep_alive := true } ∧
        s_int.keep_alive = upd (state_registered flags_copy_only false).keep_alive
          (ptr_to_key cfg64 8192) (some 16384) ∧
        s_int.sets = upd (state_registered flags_copy_only false).sets 16384
          (some [ptr_to_key cfg64 600]) ∧
        s_int.ob_refcnt 600 = s_ref.ob_refcnt 600 + 1 :=
  ⟨registered_example flags_copy_only false rfl rfl, fresh_example flags_copy_only false rfl rfl,
    let ⟨s_ref, s_int, h1, h2, _, h4, _, _, _, _, h9, h10, h11, _⟩ :=
      type_put_reference_internal cfg64 0 (state_registered flags_copy_only false) 8192 16384 7
        1000 600 4096 (type_object_registered flags_copy_only false) (by decide) (by decide)
        (by decide) (by decide) (by decide) (registered_example flags_copy_only false rfl rfl)
        (fresh_example flags_copy_only false rfl rfl) (by decide) (by decide) (by decide)
    ⟨s_ref, s_int, h1, h2, h4, h9, h10, h11⟩⟩

/-- Witness of C8: the copy hook of the registered type throws; the destructor
hook is called on the storage 8224 of the new proxy 8192. -/
theorem type_put_throw_runs_destructor_witness :
    Registered cfg64 (state_registered flags_hooks true) (cfg64.type_index 7) 4096
        (type_object_registered flags_hooks true) ∧
      Fresh cfg64 (state_registered flags_hooks true) 8192 ∧
      ∃ s1, type_put cfg64 1 (state_registered flags_hooks true) 8192 0 7 1000
          rv_policy.copy 0 = (Outcome.ok 0, s1) ∧
        s1.trace = [Event.copy 8224 1000, Event.destruct 8224, Event.tp_free 8192] :=
  ⟨registered_example flags_hooks true rfl rfl, fresh_example flags_hooks true rfl rfl,
    let ⟨s1, _, h1, h2, h3, _⟩ :=
      type_put_throw_runs_destructor cfg64 0 (state_registered flags_hooks true) 8192 0 7 1000 0
        4096 (type_object_registered flags_hooks true) rv_policy.copy (by decide) (by decide)
        (by decide) (registered_example flags_hooks true rfl rfl)
        (fresh_example flags_hooks true rfl rfl) (by decide) (by decide) (Or.inl rfl)
        (fun _ => ⟨rfl, rfl, rfl⟩) (fun h => absurd h (by decide)) rfl rfl
    ⟨s1, h1, by rw [h3, h2]; rfl⟩⟩

/-- Witness of C7: the copy hook of a registered type that is declared
non-destructible throws; the call ends in a fatal error instead of returning. -/
theorem type_put_throw_non_destructible_witness :
    Registered cfg64 (state_registered flags_not_destructible true) (cfg64.type_index 7) 4096
        (type_object_registered flags_not_destructible true) ∧
      Fresh cfg64 (state_registered flags_not_destructible true) 8192 ∧
      ∃ s1, type_put cfg64 1 (state_registered flags_not_destructible true) 8192 0 7 1000
          rv_policy.copy 0 = (Outcome.fatal Fatal.destroy_non_destructible, s1) ∧
        s1.inst_c2p (8224, cfg64.type_index 7) = some 8192 :=
  ⟨registered_example flags_not_destructible true rfl rfl,
    fresh_example flags_not_destructible true rfl rfl,
    let ⟨s1, _, h1, h2, _, h4⟩ :=
      type_put_throw_non_destructible cfg64 0 (state_registered flags_not_destructible true)
        8192 0 7 1000 0 4096 (type_object_registered flags_not_destructible true)
        rv_policy.copy (by decide) (by decide) (by decide)
        (registered_example flags_not_destructible true rfl rfl)
        (fresh_example flags_not_destructible true rfl rfl) (by decide) (by decide) (Or.inl rfl)
        (fun _ => ⟨rfl, rfl, rfl⟩) (fun h => absurd h (by decide)) rfl
    ⟨s1, h1, by rw [h2] at h4; exact h4⟩⟩

/-- Witness of C10 as amended: the identity 7 is registered in the type object
4096; a second registration ends in the fatal error and rebinds the name "A". -/
theorem type_new_duplicate_witness :
    (state_registered flags_scoped false).type_c2p
        (cfg64.type_index (descr flags_scoped false).type) = some 4096 ∧
      (type_new cfg64 (state_registered flags_scoped false) 20480 true
        (descr flags_scoped false)).1 = Outcome.fatal Fatal.type_already_registered ∧
      (type_new cfg64 (state_registered flags_scoped false) 20480 true
        (descr flags_scoped false)).2.type_c2p = (state_registered flags_scoped false).type_c2p ∧
      (type_new cfg64 (state_registered flags_scoped false) 20480 true
        (descr flags_scoped false)).2.attrs 500 "A" = some (PyVal.obj 20480) :=
  ⟨by decide,
    ((type_new_duplicate cfg64 (state_registered flags_scoped false) 20480 4096 true
      (descr flags_scoped false) (by decide)).2.2.2.2.2 (by decide) rfl (by decide)
      (fun n v _ h => by
        have hnone : (state_registered flags_scoped false).attrs 500 n = none ∨
            n = "A" := by
          by_cases hn : n = "A"
          · exact Or.inr hn
          · left
            simp [state_registered, type_new, flags_scoped, flags_copy_only, type_qualname,
              type_fullname, type_scope_name, type_new_build, descr, cfg64, state_empty,
              setattr, hn]
        rcases hnone with h0 | h0
        · rw [show (descr flags_scoped false).scope = 500 from rfl, h0] at h
          exact Option.noConfusion h
        · subst h0
          rename_i hor
          rcases hor with h1 | h1 | h1 <;> exact absurd h1 (by decide))).1,
    (type_new_duplicate cfg64 (state_registered flags_scoped false) 20480 4096 true
      (descr flags_scoped false) (by decide)).2.2.1,
    by decide⟩

/-! ### Bind: null address, and no proxy without a registration -/

/-- C15: null address. For every type, policy, owner and allocator result,
`type_put` with a null address returns the `None` singleton; the count of `None`
rises by one, and nothing else changes: every other count, the Instance Registry,
the Type Registry, the keep-alive dictionary and its sets, all proxies and type
objects, and the trace of calls are as before. -/
theorem type_put_null (cfg : Config) (fuel : Nat) (s : State)
    (o set_obj cpp_type : Addr) (rvp : rv_policy) (parent : Addr) :
    ∃ s1, type_put cfg fuel s o set_obj cpp_type 0 rvp parent = (Outcome.ok cfg.Py_None, s1) ∧
      s1.ob_refcnt cfg.Py_None = s.ob_refcnt cfg.Py_None + 1 ∧
      (∀ q, q ≠ cfg.Py_None → s1.ob_refcnt q = s.ob_refcnt q) ∧
      s1.inst_c2p = s.inst_c2p ∧ s1.type_c2p = s.type_c2p ∧
      s1.keep_alive = s.keep_alive ∧ s1.sets = s.sets ∧
      s1.insts = s.insts ∧ s1.types = s.types ∧ s1.trace = s.trace := by
  refine ⟨Py_INCREF s cfg.Py_None, ?_, ?_, ?_, rfl, rfl, rfl, rfl, rfl, rfl, rfl⟩
  · simp [type_put]
  · simp [Py_INCREF]
  · intro q hq
    simp [Py_INCREF, upd_other _ _ _ _ hq]

/-- C16: no proxy is fabricated. For a non-null address with no entry for
(value, T) in the Instance Registry, if the policy is `none`, or if `T` is not in
the Type Registry, `type_put` returns `nullptr` and the state is exactly the state
before the call: nothing was allocated, counted, registered or called. -/
theorem type_put_not_found (cfg : Config) (fuel : Nat) (s : State)
    (o set_obj cpp_type value : Addr) (rvp : rv_policy) (parent : Addr)
    (hvalue : value ≠ 0)
    (hnone : s.inst_c2p (value, cfg.type_index cpp_type) = none)
    (hcase : rvp = rv_policy.none ∨ s.type_c2p (cfg.type_index cpp_type) = none) :
    type_put cfg fuel s o set_obj cpp_type value rvp parent = (Outcome.ok 0, s) := by
  rcases hcase with h | h
  · simp [type_put, hvalue, hnone, h]
  · by_cases hr : rvp = rv_policy.none
    · simp [type_put, hvalue, hnone, hr]
    · simp [type_put, hvalue, hnone, hr, h]

/-- Witness of C16: the address 1000 is not bound; a call with policy `none` for
the registered type and a call with policy `copy` for the unregistered identity 9
both return `nullptr` and leave the state as it was. -/
theorem type_put_not_found_witness :
    (1000 : Nat) ≠ 0 ∧
      (state_registered flags_copy_only false).inst_c2p (1000, cfg64.type_index 7) = none ∧
      (state_registered flags_copy_only false).type_c2p (cfg64.type_index 9) = none ∧
      type_put cfg64 0 (state_registered flags_copy_only false) 8192 0 7 1000 rv_policy.none 0
        = (Outcome.ok 0, state_registered flags_copy_only false) ∧
      type_put cfg64 0 (state_registered flags_copy_only false) 8192 0 9 1000 rv_policy.copy 0
        = (Outcome.ok 0, state_registered flags_copy_only false) :=
  ⟨by decide, by decide, by decide,
    type_put_not_found cfg64 0 (state_registered flags_copy_only false) 8192 0 7 1000
      rv_policy.none 0 (by decide) (by decide) (Or.inl rfl),
    type_put_not_found cfg64 0 (state_registered flags_copy_only false) 8192 0 9 1000
      rv_policy.copy 0 (by decide) (by decide) (Or.inr (by decide))⟩

/-! ### TryExtract -/

/-- C11, as amended: downcast. Let every object whose type has the metatype of
the bridge be a live proxy `inst` of a live type object `tp` made by `type_new`.
Then `type_get` always returns, never with an error, and it reports a match
exactly in two cases: the object is the `None` singleton, and then the address
written is null; or the object is non-null, its type has the metatype of the
bridge and the recorded type identity equals the expected one, and then the
address written is the value address stored in the proxy. For a null object it
reports no match and writes a null address; for any other object that is not
`None` it reports no match and writes nothing. -/
theorem type_get_match_iff (cfg : Config) (s : State) (cpp_type o : Addr)
    (tp : PyTypeObject) (inst : nb_inst)
    (hwf : s.ob_type (s.ob_type o) = s.nb_type →
      s.types (s.ob_type o) = some tp ∧ s.insts o = some inst) :
    ∃ r out, type_get cfg s cpp_type o = Outcome.ok (r, out) ∧
      (r = true ↔ o ≠ 0 ∧ (o = cfg.Py_None ∨
        (s.ob_type (s.ob_type o) = s.nb_type ∧
          cfg.type_index tp.extra.type = cfg.type_index cpp_type))) ∧
      (o = 0 ∨ o = cfg.Py_None → out = some 0) ∧
      (o ≠ 0 → o ≠ cfg.Py_None → r = true → out = some inst.value) ∧
      (o ≠ 0 → o ≠ cfg.Py_None → r = false → out = none) := by
  unfold type_get
  by_cases h0 : o = 0
  · simp [h0]
  by_cases hN : o = cfg.Py_None
  · refine ⟨true, some 0, ?_, ?_, ?_, ?_, ?_⟩
    · rw [if_pos (Or.inr hN)]
      simp [h0]
    · have hN0 : cfg.Py_None ≠ 0 := fun h => h0 (hN.trans h)
      simp [h0, hN, hN0]
    · intro _; rfl
    · intro _ h; exact absurd hN h
    · intro _ h; exact absurd hN h
  by_cases hm : s.ob_type (s.ob_type o) = s.nb_type
  · obtain ⟨ht, hi⟩ := hwf hm
    by_cases hT : cfg.type_index tp.extra.type = cfg.type_index cpp_type
    · have hor : tp.extra.type = cpp_type ∨
          cfg.type_index tp.extra.type = cfg.type_index cpp_type := Or.inr hT
      simp [h0, hN, hm, ht, hi, hor, hT]
    · have hor : ¬(tp.extra.type = cpp_type ∨
          cfg.type_index tp.extra.type = cfg.type_index cpp_type) := by
        rintro (h | h)
        · exact hT (by rw [h])
        · exact hT h
      have hne : tp.extra.type ≠ cpp_type := fun h => hor (Or.inl h)
      simp [h0, hN, hm, ht, hne, hT]
  · simp [h0, hN, hm]

/-- C11, counterexample: `type_get` is asked for the registered type with the
`None` singleton, which is no proxy. It reports a match, with a null address. -/
theorem type_get_none_is_a_match :
    type_get cfg64 state_bound 7 cfg64.Py_None = Outcome.ok (true, some 0) ∧
      state_bound.ob_type (state_bound.ob_type cfg64.Py_None) ≠ state_bound.nb_type := by
  decide

/-- Witness of C11 as amended: the proxy 8192 of the registered type matches the
identity 7 with its value address 1000, and does not match the identity 9. -/
theorem type_get_match_iff_witness :
    (state_bound.ob_type (state_bound.ob_type 8192) = state_bound.nb_type →
      state_bound.types (state_bound.ob_type 8192)
          = some (type_object_registered flags_copy_only false) ∧
        state_bound.insts 8192 = some { value := 1000, destruct := false, free := false,
                                        clear_keep_alive := false }) ∧
      type_get cfg64 state_bound 7 8192 = Outcome.ok (true, some 1000) ∧
      type_get cfg64 state_bound 9 8192 = Outcome.ok (false, none) ∧
      ∃ r out, type_get cfg64 state_bound 7 8192 = Outcome.ok (r, out) ∧ r = true :=
  ⟨fun _ => ⟨rfl, rfl⟩, by decide, by decide,
    let ⟨r, out, h1, h2, _⟩ :=
      type_get_match_iff cfg64 state_bound 7 8192 (type_object_registered flags_copy_only false)
        { value := 1000, destruct := false, free := false, clear_keep_alive := false }
        (fun _ => ⟨rfl, rfl⟩)
    ⟨r, out, h1, h2.mpr ⟨by decide, Or.inr ⟨by decide, by decide⟩⟩⟩⟩

/-! ### Co-located storage -/

theorem multiple_below_bound (d x y m : Nat) (hx : d ∣ x) (hy : d ∣ y)
    (hm : d ∣ m) (hxy : x ≤ y) (hlt : y < x + m) : y + d ≤ x + m := by
  obtain ⟨p, rfl⟩ := hx
  obtain ⟨q, rfl⟩ := hy
  obtain ⟨r, rfl⟩ := hm
  have h1 : d * q < d * (p + r) := by rw [Nat.mul_add]; exact hlt
  have h2 : q < p + r := Nat.lt_of_mul_lt_mul_left h1
  have h3 : d * (q + 1) ≤ d * (p + r) := Nat.mul_le_mul_left d h2
  rw [Nat.mul_add, Nat.mul_one, Nat.mul_add] at h3
  exact h3

theorem two_pow_dvd_of_le (i j : Nat) (h : 2 ^ i ≤ 2 ^ j) : 2 ^ i ∣ 2 ^ j := by
  apply Nat.pow_dvd_pow
  by_contra hji
  have hlt : j < i := Nat.lt_of_not_le hji
  have : 2 ^ j < 2 ^ i := Nat.pow_lt_pow_right (by norm_num) hlt
  omega

theorem align_up_fits (cfg : Config) (b a size : Nat)
    (hpa : ∃ i, a = 2 ^ i) (hpp : ∃ j, cfg.ptr_bytes = 2 ^ j)
    (hb : cfg.ptr_bytes ∣ b) (hfit : b + a ≤ 2 ^ cfg.bits) :
    align_up cfg b a = (b + a - 1) / a * a ∧
      a ∣ align_up cfg b a ∧ b ≤ align_up cfg b a ∧ align_up cfg b a < b + a ∧
      align_up cfg b a + size
        ≤ b + (size + (if a > cfg.ptr_bytes then a - cfg.ptr_bytes else 0)) := by
  obtain ⟨i, hi⟩ := hpa
  obtain ⟨j, hj⟩ := hpp
  have ha : 0 < a := by rw [hi]; positivity
  have hP : 0 < cfg.ptr_bytes := by rw [hj]; positivity
  obtain ⟨h1, h2, h3⟩ := align_up_bounds cfg b a ha hfit
  have hval : align_up cfg b a = (b + a - 1) / a * a := by
    unfold align_up
    have e1 : (b + a - 1) % 2 ^ cfg.bits = b + a - 1 := Nat.mod_eq_of_lt (by omega)
    have hle : (b + a - 1) / a * a ≤ b + a - 1 := Nat.div_mul_le_self _ _
    rw [e1]
    exact Nat.mod_eq_of_lt (by omega)
  refine ⟨hval, h3, h1, h2, ?_⟩
  by_cases hgt : a > cfg.ptr_bytes
  · have hdiv : cfg.ptr_bytes ∣ a := by
      rw [hi, hj]
      apply two_pow_dvd_of_le
      rw [← hi, ← hj]
      omega
    have := multiple_below_bound cfg.ptr_bytes b (align_up cfg b a) a hb
      (Dvd.dvd.trans hdiv h3) hdiv h1 h2
    rw [if_pos hgt]
    omega
  · have hdiv : a ∣ cfg.ptr_bytes := by
      rw [hi, hj]
      apply two_pow_dvd_of_le
      rw [← hi, ← hj]
      omega
    have := multiple_below_bound a b (align_up cfg b a) a (Dvd.dvd.trans hdiv hb) h3
      (dvd_refl a) h1 h2
    rw [if_neg hgt]
    omega

/-- The type object that `type_new` builds reserves `size` bytes of item storage,
plus `align - sizeof(void *)` bytes when the alignment exceeds the size of a
pointer, and its header is `sizeof(nb_inst)` bytes (type.cpp:188-193). -/
theorem type_new_itemsize (cfg : Config) (s s1 : State) (ht a : Addr) (ready : Bool)
    (t : type_data) (h : type_new cfg s ht ready t = (Outcome.ok a, s1)) :
    ∃ tp, s1.types a = some tp ∧ tp.extra.size = t.size ∧ tp.extra.align = t.align ∧
      tp.tp_basicsize = cfg.sizeof_nb_inst ∧
      tp.tp_itemsize = t.size + (if t.align > cfg.ptr_bytes then t.align - cfg.ptr_bytes else 0) := by
  unfold type_new at h
  split at h
  · simp at h
  · split at h
    · unfold type_new_build at h
      by_cases hht : ht = 0
      · simp [hht] at h
      cases ready
      · simp [hht] at h
      simp only [hht, if_false, Bool.not_true, Bool.false_eq_true] at h
      split at h
      · simp at h
      · simp only [Prod.mk.injEq, Outcome.ok.injEq] at h
        obtain ⟨ha, hs⟩ := h
        rw [← hs, ← ha]
        simp
    · simp at h

/-- C20: co-located storage fits and is aligned. Let the type object `tp` reserve
item storage as `type_new` does, let its alignment `a` and the size of a pointer
be powers of two, let the start `b = o + tp_basicsize` of the trailing storage of
the new block `o` be a multiple of the size of a pointer, and let `b + a` not
exceed the address space. Then `inst_new_impl` without an external address
returns the proxy `o` whose value address `v` is `((b + a - 1) / a) * a`, a
multiple of `a` with `b ≤ v < b + a`, and the value range `[v, v + size)` ends
inside the reserved storage `[b, b + tp_itemsize)`. -/
theorem inst_new_impl_storage_fits (cfg : Config) (s : State) (o type : Nat)
    (tp : PyTypeObject) (ho : o ≠ 0) (htp : s.types type = some tp)
    (hitem : tp.tp_itemsize = tp.extra.size +
      (if tp.extra.align > cfg.ptr_bytes then tp.extra.align - cfg.ptr_bytes else 0))
    (hpa : ∃ i, tp.extra.align = 2 ^ i) (hpp : ∃ j, cfg.ptr_bytes = 2 ^ j)
    (hb : cfg.ptr_bytes ∣ o + tp.tp_basicsize)
    (hfit : o + tp.tp_basicsize + tp.extra.align ≤ 2 ^ cfg.bits)
    (hnew : s.inst_c2p (align_up cfg (o + tp.tp_basicsize) tp.extra.align,
      cfg.type_index tp.extra.type) = none) :
    ∃ s1 v, inst_new_impl cfg s o type 0 = (Outcome.ok o, s1) ∧
      s1.insts o = some { value := v, destruct := false, free := false,
                          clear_keep_alive := false } ∧
      v = (o + tp.tp_basicsize + tp.extra.align - 1) / tp.extra.align * tp.extra.align ∧
      tp.extra.align ∣ v ∧ o + tp.tp_basicsize ≤ v ∧
      v < o + tp.tp_basicsize + tp.extra.align ∧
      v + tp.extra.size ≤ o + tp.tp_basicsize + tp.tp_itemsize := by
  obtain ⟨e1, e2, e3, e4, e5⟩ :=
    align_up_fits cfg (o + tp.tp_basicsize) tp.extra.align tp.extra.size hpa hpp hb hfit
  have hmod : (o + tp.tp_basicsize) % 2 ^ cfg.bits = o + tp.tp_basicsize :=
    Nat.mod_eq_of_lt (by omega)
  have ha0 : tp.extra.align ≠ 0 := by
    obtain ⟨i, hi⟩ := hpa
    rw [hi]
    positivity
  have e5b : align_up cfg (o + tp.tp_basicsize) tp.extra.align + tp.extra.size
      ≤ o + tp.tp_basicsize + tp.tp_itemsize := by
    rw [hitem]
    exact e5
  rw [← e1]
  simp [inst_new_impl, ho, htp, ha0, hmod, hnew, Py_INCREF, e2, e3, e4, e5b]

/-- Witness of C20: on the 64-bit target a proxy of the registered type, of 16
bytes aligned to 8, allocated at 8192, keeps its value at 8224. -/
theorem inst_new_impl_storage_fits_witness :
    (state_registered flags_copy_only false).types 4096
        = some (type_object_registered flags_copy_only false) ∧
      cfg64.ptr_bytes ∣ 8192 + (type_object_registered flags_copy_only false).tp_basicsize ∧
      ∃ s1 v, inst_new_impl cfg64 (state_registered flags_copy_only false) 8192 4096 0
          = (Outcome.ok 8192, s1) ∧
        s1.insts 8192 = some { value := v, destruct := false, free := false,
                               clear_keep_alive := false } ∧
        v = 8224 ∧ 8 ∣ v ∧ v + 16 ≤ 8224 + 16 :=
  ⟨rfl, by decide,
    let ⟨s1, v, h1, h2, h3, h4, _, _, h7⟩ :=
      inst_new_impl_storage_fits cfg64 (state_registered flags_copy_only false) 8192 4096
        (type_object_registered flags_copy_only false) (by decide) rfl (by decide) ⟨3, rfl⟩
        ⟨3, rfl⟩ (by decide) (by decide) (by decide)
    ⟨s1, v, h1, h2, h3.trans (by decide), h4, h7⟩⟩

/-! ### Link and the reference count of the dependency set -/

theorem inst_keep_alive_first (cfg : Config) (fuel : Nat) (s : State)
    (set_obj nurse patient : Addr) (inst : nb_inst)
    (hpatient : patient ≠ 0) (hnurse : nurse ≠ 0)
    (hmeta : s.ob_type (s.ob_type nurse) = s.nb_type)
    (hinst : s.insts nurse = some inst)
    (hkey : s.keep_alive (ptr_to_key cfg nurse) = none)
    (hset : set_obj ≠ 0) (hps : patient ≠ set_obj) :
    inst_keep_alive cfg fuel s set_obj nurse patient =
      (Outcome.ok (),
        { s with
          keep_alive := upd s.keep_alive (ptr_to_key cfg nurse) (some set_obj)
          sets := upd s.sets set_obj (some [ptr_to_key cfg patient])
          ob_refcnt := upd (upd s.ob_refcnt set_obj 1) patient (s.ob_refcnt patient + 1)
          insts := upd s.insts nurse (some { inst with clear_keep_alive := true }) }) := by
  have hsp : set_obj ≠ patient := Ne.symm hps
  simp [inst_keep_alive, hpatient, hnurse, hmeta, hinst, hkey, hset, Py_INCREF, Py_DECREF,
    Py_DECREF_with, upd_other _ _ _ _ hps, upd_other _ _ _ _ hsp]
  refine ⟨?_, ?_⟩
  · funext x
    by_cases hx : x = set_obj
    · simp [upd, hx, hsp]
    · simp [upd, hx]
  · funext x
    by_cases hx : x = set_obj
    · simp [upd, hx]
    · simp [upd, hx]

theorem inst_keep_alive_again (cfg : Config) (fuel : Nat) (s : State)
    (set_obj nurse patient a : Addr) (keys : List Int)
    (hpatient : patient ≠ 0) (hnurse : nurse ≠ 0)
    (hmeta : s.ob_type (s.ob_type nurse) = s.nb_type)
    (hkey : s.keep_alive (ptr_to_key cfg nurse) = some a)
    (hkeys : s.sets a = some keys)
    (hmem : keys.contains (ptr_to_key cfg patient) = true)
    (hcount : s.ob_refcnt a = 1) :
    inst_keep_alive cfg fuel s set_obj nurse patient =
      (Outcome.ok (),
        { s with ob_refcnt := upd s.ob_refcnt a 0, sets := upd s.sets a none }) := by
  simp only [inst_keep_alive, hpatient, hnurse, hmeta, hkey, if_false, false_or, ne_eq,
    not_true_eq_false, andThen_ok, hkeys, hmem, if_true]
  rw [Py_DECREF_of_set cfg fuel s a keys hkeys]
  simp [hcount]

theorem inst_keep_alive_existing (cfg : Config) (fuel : Nat) (s : State)
    (set_obj nurse patient a : Addr) (keys : List Int) (inst : nb_inst)
    (hpatient : patient ≠ 0) (hnurse : nurse ≠ 0)
    (hmeta : s.ob_type (s.ob_type nurse) = s.nb_type)
    (hinst : s.insts nurse = some inst)
    (hkey : s.keep_alive (ptr_to_key cfg nurse) = some a)
    (hkeys : s.sets a = some keys)
    (hcount : s.ob_refcnt a = 1) (hpa : patient ≠ a) :
    ∃ s1, inst_keep_alive cfg fuel s set_obj nurse patient = (Outcome.ok (), s1) ∧
      s1.ob_refcnt a = 0 ∧ s1.sets a = none ∧ s1.keep_alive = s.keep_alive := by
  cases hmem : keys.contains (ptr_to_key cfg patient) with
  | true =>
    rw [inst_keep_alive_again cfg fuel s set_obj nurse patient a keys hpatient hnurse hmeta hkey
      hkeys hmem hcount]
    exact ⟨_, rfl, by simp, by simp, rfl⟩
  | false =>
    have hap : a ≠ patient := Ne.symm hpa
    simp only [inst_keep_alive, hpatient, hnurse, hmeta, hkey, if_false, false_or, ne_eq,
      not_true_eq_false, andThen_ok, hkeys, hmem, hinst, Bool.false_eq_true]
    rw [Py_DECREF_of_set cfg fuel _ a (keys ++ [ptr_to_key cfg patient]) (by simp [Py_INCREF])]
    simp [Py_INCREF, upd_other _ _ _ _ hap, hcount]

theorem dealloc_destruct_ok (s : State) (inst : nb_inst) (t : type_data)
    (hdes : inst.destruct = true → t.flags.is_destructible = true) :
    ∃ s1, dealloc_destruct s inst t = (Outcome.ok (), s1) ∧ SameHeap s s1 := by
  unfold dealloc_destruct
  by_cases h1 : inst.destruct = true
  · have h2 := hdes h1
    by_cases h3 : t.flags.has_destruct = true
    · exact ⟨_, by simp only [h1, h2, h3, if_true]; rfl, by simp [SameHeap, emit]⟩
    · exact ⟨_, by simp only [h1, h2, h3, if_true, if_false]; rfl, by simp [SameHeap]⟩
  · exact ⟨_, by simp only [h1, if_false]; rfl, by simp [SameHeap]⟩

theorem dealloc_free_same_heap (cfg : Config) (s : State) (inst : nb_inst) (t : type_data) :
    SameHeap s (dealloc_free cfg s inst t) := by
  unfold dealloc_free
  by_cases h1 : inst.free = true
  · by_cases h2 : t.align ≤ cfg.default_new_alignment
    · simp [h1, h2, emit, SameHeap]
    · simp [h1, h2, emit, SameHeap]
  · simp [h1, SameHeap]

theorem same_heap_trans {s s1 s2 : State} (h1 : SameHeap s s1) (h2 : SameHeap s1 s2) :
    SameHeap s s2 := by
  obtain ⟨a1, a2, a3, a4, a5, a6, a7, a8, a9⟩ := h1
  obtain ⟨b1, b2, b3, b4, b5, b6, b7, b8, b9⟩ := h2
  exact ⟨b1.trans a1, b2.trans a2, b3.trans a3, b4.trans a4, b5.trans a5, b6.trans a6,
    b7.trans a7, b8.trans a8, b9.trans a9⟩

theorem dealloc_keep_alive_reads_released_set (cfg : Config)
    (d : State → Addr → Outcome Unit × State) (s : State) (self a : Addr) (inst : nb_inst)
    (keys : List Int)
    (hflag : inst.clear_keep_alive = true)
    (hkey : s.keep_alive (ptr_to_key cfg self) = some a)
    (hkeys : s.sets a = some keys) (hcount : s.ob_refcnt a = 1) :
    dealloc_keep_alive cfg (Py_DECREF_with cfg d) s self inst =
      (Outcome.undefined,
        { s with
          keep_alive := upd s.keep_alive (ptr_to_key cfg self) none
          ob_refcnt := upd s.ob_refcnt a 0
          sets := upd s.sets a none }) := by
  simp [dealloc_keep_alive, hflag, hkey, Py_DECREF_with, hcount, tp_dealloc, hkeys, andThen]

theorem dealloc_keep_alive_set_gone (cfg : Config)
    (d : State → Addr → Outcome Unit × State) (s : State) (self a : Addr) (inst : nb_inst)
    (hflag : inst.clear_keep_alive = true)
    (hkey : s.keep_alive (ptr_to_key cfg self) = some a)
    (hkeys : s.sets a = none) (hcount : s.ob_refcnt a = 0) :
    dealloc_keep_alive cfg (Py_DECREF_with cfg d) s self inst =
      (Outcome.undefined,
        { s with
          keep_alive := upd s.keep_alive (ptr_to_key cfg self) none
          ob_refcnt := upd s.ob_refcnt a (-1) }) := by
  simp [dealloc_keep_alive, hflag, hkey, Py_DECREF_with, hcount, hkeys, andThen]

theorem inst_dealloc_released_set (cfg : Config) (fuel : Nat) (s : State)
    (nurse a : Addr) (inst : nb_inst) (tp : PyTypeObject) (keys : List Int)
    (hinst : s.insts nurse = some inst) (htp : s.types (s.ob_type nurse) = some tp)
    (hflag : inst.clear_keep_alive = true)
    (hdes : inst.destruct = true → tp.extra.flags.is_destructible = true)
    (hkey : s.keep_alive (ptr_to_key cfg nurse) = some a)
    (hset : (s.sets a = some keys ∧ s.ob_refcnt a = 1) ∨
      (s.sets a = none ∧ s.ob_refcnt a = 0)) :
    ∃ s1, inst_dealloc cfg (fuel + 1) s nurse = (Outcome.undefined, s1) ∧
      s1.keep_alive (ptr_to_key cfg nurse) = none ∧
      s1.sets a = none ∧ s1.ob_refcnt a = s.ob_refcnt a - 1 ∧
      (∀ q, q ≠ a → s1.ob_refcnt q = s.ob_refcnt q) ∧
      s1.insts = s.insts ∧ s1.inst_c2p = s.inst_c2p := by
  obtain ⟨sa, h1, f1⟩ := dealloc_destruct_ok s inst tp.extra hdes
  have f2 := same_heap_trans f1 (dealloc_free_same_heap cfg sa inst tp.extra)
  obtain ⟨_, g2, _, g4, g5, _, g7, _, g9⟩ := f2
  simp only [inst_dealloc, hinst, htp, h1, andThen_ok]
  rcases hset with ⟨hk, hc⟩ | ⟨hk, hc⟩
  · rw [dealloc_keep_alive_reads_released_set cfg _ _ nurse a inst keys hflag
      (by rw [g4]; exact hkey) (by rw [g9]; exact hk) (by rw [g5]; exact hc)]
    refine ⟨_, rfl, by simp, by simp, by simp [hc], ?_, g7, g2⟩
    intro q hq
    simp [upd_other _ _ _ _ hq, g5]
  · rw [dealloc_keep_alive_set_gone cfg _ _ nurse a inst hflag
      (by rw [g4]; exact hkey) (by rw [g9]; exact hk) (by rw [g5]; exact hc)]
    refine ⟨_, rfl, by simp, by simp [g9, hk], by simp [hc], ?_, g7, g2⟩
    intro q hq
    simp [upd_other _ _ _ _ hq, g5]


/-- C13: keep-alive teardown on release. Let the nurse be a live proxy with the
flag `clear_keep_alive` set, whose destructor step does not fail, and let the
keep-alive dictionary map its key to the set `a` in the state in which
`inst_keep_alive` leaves it: either live and referenced once, by the dictionary
(after one link), or already released with count zero (after a further link).
Then `inst_dealloc` removes the entry of the nurse from the dictionary, whereby a
live set loses its only reference and is released, and then reads the set for
the loop over the patients: the behaviour is undefined. At that point no
patient's count has been decremented (only the count of `a` differs), the nurse
is still live and the Instance Registry is unchanged. -/
theorem inst_dealloc_reads_released_set (cfg : Config) (fuel : Nat) (s : State)
    (nurse a : Addr) (inst : nb_inst) (tp : PyTypeObject) (keys : List Int)
    (hinst : s.insts nurse = some inst) (htp : s.types (s.ob_type nurse) = some tp)
    (hflag : inst.clear_keep_alive = true)
    (hdes : inst.destruct = true → tp.extra.flags.is_destructible = true)
    (hkey : s.keep_alive (ptr_to_key cfg nurse) = some a)
    (hset : (s.sets a = some keys ∧ s.ob_refcnt a = 1) ∨
      (s.sets a = none ∧ s.ob_refcnt a = 0)) :
    ∃ s1, inst_dealloc cfg (fuel + 1) s nurse = (Outcome.undefined, s1) ∧
      s1.keep_alive (ptr_to_key cfg nurse) = none ∧
      s1.sets a = none ∧
      (∀ q, q ≠ a → s1.ob_refcnt q = s.ob_refcnt q) ∧
      s1.insts = s.insts ∧ s1.inst_c2p = s.inst_c2p := by
  obtain ⟨s1, h1, h2, h3, _, h5, h6, h7⟩ :=
    inst_dealloc_released_set cfg fuel s nurse a inst tp keys hinst htp hflag hdes hkey hset
  exact ⟨s1, h1, h2, h3, h5, h6, h7⟩

/-- C12: linking the same pair twice. Let the nurse be a live proxy without an
entry in the keep-alive dictionary, the patient non-null and the new set `set_obj`
non-null and distinct from the patient. The first `inst_keep_alive` does what
the claim says: the dictionary maps the key of the nurse to the new set, whose
only element is the key of the patient, the count of the patient rises by one and
the flag of the nurse is set. The second call with the same pair leaves the
dictionary, the count of the patient and the proxies as they are, but it is not a
no-op: it gives up a reference to the set that it does not hold
(`PyDict_GetItem` returns a borrowed reference, type.cpp:261 and 289), so the
count of the set drops to zero and the set is released while the dictionary still
refers to it. -/
theorem inst_keep_alive_twice_releases_set (cfg : Config) (fuel : Nat) (s : State)
    (set_obj set_obj2 nurse patient : Addr) (inst : nb_inst)
    (hpatient : patient ≠ 0) (hnurse : nurse ≠ 0)
    (hmeta : s.ob_type (s.ob_type nurse) = s.nb_type)
    (hinst : s.insts nurse = some inst)
    (hkey : s.keep_alive (ptr_to_key cfg nurse) = none)
    (hset : set_obj ≠ 0) (hps : patient ≠ set_obj) :
    ∃ s1 s2,
      inst_keep_alive cfg fuel s set_obj nurse patient = (Outcome.ok (), s1) ∧
      inst_keep_alive cfg fuel s1 set_obj2 nurse patient = (Outcome.ok (), s2) ∧
      s1.keep_alive (ptr_to_key cfg nurse) = some set_obj ∧
      s1.sets set_obj = some [ptr_to_key cfg patient] ∧
      s1.ob_refcnt patient = s.ob_refcnt patient + 1 ∧
      s1.insts nurse = some { inst with clear_keep_alive := true } ∧
      s2.keep_alive = s1.keep_alive ∧
      s2.ob_refcnt patient = s1.ob_refcnt patient ∧
      s2.insts = s1.insts ∧
      s2.sets set_obj = none ∧ s2.ob_refcnt set_obj = 0 := by
  have hsp : set_obj ≠ patient := Ne.symm hps
  have h1 := inst_keep_alive_first cfg fuel s set_obj nurse patient inst hpatient hnurse
    hmeta hinst hkey hset hps
  generalize hs1 : ({ s with
      keep_alive := upd s.keep_alive (ptr_to_key cfg nurse) (some set_obj)
      sets := upd s.sets set_obj (some [ptr_to_key cfg patient])
      ob_refcnt := upd (upd s.ob_refcnt set_obj 1) patient (s.ob_refcnt patient + 1)
      insts := upd s.insts nurse (some { inst with clear_keep_alive := true }) } : State) = s1
    at h1
  have k1 : s1.keep_alive (ptr_to_key cfg nurse) = some set_obj := by rw [← hs1]; simp
  have k2 : s1.sets set_obj = some [ptr_to_key cfg patient] := by rw [← hs1]; simp
  have k3 : s1.ob_refcnt patient = s.ob_refcnt patient + 1 := by rw [← hs1]; simp
  have k4 : s1.insts nurse = some { inst with clear_keep_alive := true } := by
    rw [← hs1]; simp
  have k5 : s1.ob_refcnt set_obj = 1 := by rw [← hs1]; simp [upd_other _ _ _ _ hsp]
  have k6 : s1.ob_type (s1.ob_type nurse) = s1.nb_type := by rw [← hs1]; exact hmeta
  have h2 := inst_keep_alive_again cfg fuel s1 set_obj2 nurse patient set_obj
    [ptr_to_key cfg patient] hpatient hnurse k6 k1 k2 (by simp) k5
  refine ⟨s1, _, h1, h2, k1, k2, k3, k4, rfl, ?_, rfl, by simp, by simp⟩
  simp [upd_other _ _ _ _ hps]

/-- C19: the reference count of the dependency set. Let the nurse be a live
proxy of a live type, without an entry in the keep-alive dictionary, and let the
patients be non-null and distinct from the new set `set_obj`. After the first
`inst_keep_alive` the count of the set is exactly one, the reference of the
dictionary. After a second call for the same nurse it is not one but zero, and
the set is released while the dictionary still maps the key of the nurse to it:
the call gives up the borrowed reference of `PyDict_GetItem` (type.cpp:289).
`inst_dealloc` of the nurse after the first call brings the count to zero
already in `PyDict_DelItem`, which releases the set; the code then reads the
released set, where its behaviour is undefined, and its own `Py_DECREF(set)`
(type.cpp:106) applied there takes the count to minus one. -/
theorem dependency_set_refcount (cfg : Config) (fuel : Nat) (s : State)
    (set_obj set_obj2 nurse patient patient2 : Addr) (inst : nb_inst) (tp : PyTypeObject)
    (hpatient : patient ≠ 0) (hpatient2 : patient2 ≠ 0) (hnurse : nurse ≠ 0)
    (hmeta : s.ob_type (s.ob_type nurse) = s.nb_type)
    (hinst : s.insts nurse = some inst) (htp : s.types (s.ob_type nurse) = some tp)
    (hdes : inst.destruct = true → tp.extra.flags.is_destructible = true)
    (hkey : s.keep_alive (ptr_to_key cfg nurse) = none)
    (hset : set_obj ≠ 0) (hps : patient ≠ set_obj) (hps2 : patient2 ≠ set_obj) :
    ∃ s1 s2 s3,
      inst_keep_alive cfg fuel s set_obj nurse patient = (Outcome.ok (), s1) ∧
      s1.ob_refcnt set_obj = 1 ∧
      inst_keep_alive cfg fuel s1 set_obj2 nurse patient2 = (Outcome.ok (), s2) ∧
      s2.ob_refcnt set_obj = 0 ∧ s2.sets set_obj = none ∧
      s2.keep_alive (ptr_to_key cfg nurse) = some set_obj ∧
      inst_dealloc cfg (fuel + 1) s1 nurse = (Outcome.undefined, s3) ∧
      s3.ob_refcnt set_obj = 0 ∧ s3.sets set_obj = none ∧
      (Py_DECREF cfg fuel s3 set_obj).2.ob_refcnt set_obj = -1 := by
  have hsp : set_obj ≠ patient := Ne.symm hps
  have h1 := inst_keep_alive_first cfg fuel s set_obj nurse patient inst hpatient hnurse
    hmeta hinst hkey hset hps
  generalize hs1 : ({ s with
      keep_alive := upd s.keep_alive (ptr_to_key cfg nurse) (some set_obj)
      sets := upd s.sets set_obj (some [ptr_to_key cfg patient])
      ob_refcnt := upd (upd s.ob_refcnt set_obj 1) patient (s.ob_refcnt patient + 1)
      insts := upd s.insts nurse (some { inst with clear_keep_alive := true }) } : State) = s1
    at h1
  have k1 : s1.keep_alive (ptr_to_key cfg nurse) = some set_obj := by rw [← hs1]; simp
  have k2 : s1.sets set_obj = some [ptr_to_key cfg patient] := by rw [← hs1]; simp
  have k4 : s1.insts nurse = some { inst with clear_keep_alive := true } := by
    rw [← hs1]; simp
  have k5 : s1.ob_refcnt set_obj = 1 := by rw [← hs1]; simp [upd_other _ _ _ _ hsp]
  have k6 : s1.ob_type (s1.ob_type nurse) = s1.nb_type := by rw [← hs1]; exact hmeta
  have k7 : s1.types (s1.ob_type nurse) = some tp := by rw [← hs1]; exact htp
  obtain ⟨s2, h2, c1, c2, c3⟩ := inst_keep_alive_existing cfg fuel s1 set_obj2 nurse patient2
    set_obj [ptr_to_key cfg patient] _ hpatient2 hnurse k6 k4 k1 k2 k5 hps2
  obtain ⟨s3, h3, _, d2, d3, _⟩ := inst_dealloc_released_set cfg fuel s1 nurse set_obj
    { inst with clear_keep_alive := true } tp [ptr_to_key cfg patient] k4 k7 rfl hdes k1
    (Or.inl ⟨k2, k5⟩)
  have d4 : s3.ob_refcnt set_obj = 0 := by rw [d3, k5]; rfl
  refine ⟨s1, s2, s3, h1, k5, h2, c1, c2, by rw [c3]; exact k1, h3, d4, d2, ?_⟩
  simp [Py_DECREF, Py_DECREF_with, d4]

/-- Witness of C12: the proxy 8192 of the registered type is linked twice to the
object 600; after the second call the set 16384 is released. -/
theorem inst_keep_alive_twice_releases_set_witness :
    state_bound.insts 8192 = some { value := 1000, destruct := false, free := false,
                                    clear_keep_alive := false } ∧
      state_bound.keep_alive (ptr_to_key cfg64 8192) = none ∧
      ∃ s1 s2,
        inst_keep_alive cfg64 0 state_bound 16384 8192 600 = (Outcome.ok (), s1) ∧
        inst_keep_alive cfg64 0 s1 0 8192 600 = (Outcome.ok (), s2) ∧
        s1.sets 16384 = some [ptr_to_key cfg64 600] ∧
        s2.keep_alive (ptr_to_key cfg64 8192) = some 16384 ∧
        s2.sets 16384 = none ∧ s2.ob_refcnt 16384 = 0 :=
  ⟨rfl, rfl,
    let ⟨s1, s2, h1, h2, h3, h4, _, _, h7, _, _, h10, h11⟩ :=
      inst_keep_alive_twice_releases_set cfg64 0 state_bound 16384 0 8192 600
        { value := 1000, destruct := false, free := false, clear_keep_alive := false }
        (by decide) (by decide) (by decide) rfl rfl (by decide) (by decide)
    ⟨s1, s2, h1, h2, h4, by rw [h7]; exact h3, h10, h11⟩⟩

/-- Witness of C13: the nurse 8192 was bound with policy `reference_internal` and
owner 600; its release reads the released set 16384, and the count of the owner
is still what it was. -/
theorem inst_dealloc_reads_released_set_witness :
    state_linked.insts 8192 = some { value := 1000, destruct := false, free := false,
                                     clear_keep_alive := true } ∧
      state_linked.keep_alive (ptr_to_key cfg64 8192) = some 16384 ∧
      state_linked.sets 16384 = some [ptr_to_key cfg64 600] ∧
      state_linked.ob_refcnt 16384 = 1 ∧
      ∃ s1, inst_dealloc cfg64 1 state_linked 8192 = (Outcome.undefined, s1) ∧
        s1.keep_alive (ptr_to_key cfg64 8192) = none ∧ s1.sets 16384 = none ∧
        s1.ob_refcnt 600 = state_linked.ob_refcnt 600 :=
  ⟨rfl, rfl, rfl, by decide,
    let ⟨s1, h1, h2, h3, h4, _⟩ :=
      inst_dealloc_reads_released_set cfg64 0 state_linked 8192 16384
        { value := 1000, destruct := false, free := false, clear_keep_alive := true }
        (type_object_registered flags_copy_only false) [ptr_to_key cfg64 600] rfl rfl rfl
        (fun h => absurd h (by decide)) rfl (Or.inl ⟨rfl, by decide⟩)
    ⟨s1, h1, h2, h3, h4 600 (by decide)⟩⟩

/-- Witness of C19: the proxy 8192 is linked to the object 600 and then to the
object 700; the count of the set 16384 is one after the first call and zero after
the second. -/
theorem dependency_set_refcount_witness :
    state_bound.insts 8192 = some { value := 1000, destruct := false, free := false,
                                    clear_keep_alive := false } ∧
      state_bound.keep_alive (ptr_to_key cfg64 8192) = none ∧
      ∃ s1 s2 s3,
        inst_keep_alive cfg64 0 state_bound 16384 8192 600 = (Outcome.ok (), s1) ∧
        s1.ob_refcnt 16384 = 1 ∧
        inst_keep_alive cfg64 0 s1 0 8192 700 = (Outcome.ok (), s2) ∧
        s2.ob_refcnt 16384 = 0 ∧ s2.sets 16384 = none ∧
        inst_dealloc cfg64 1 s1 8192 = (Outcome.undefined, s3) ∧
        (Py_DECREF cfg64 0 s3 16384).2.ob_refcnt 16384 = -1 :=
  ⟨rfl, rfl,
    let ⟨s1, s2, s3, h1, h2, h3, h4, h5, _, h7, _, _, h10⟩ :=
      dependency_set_refcount cfg64 0 state_bound 16384 0 8192 600 700
        { value := 1000, destruct := false, free := false, clear_keep_alive := false }
        (type_object_registered flags_copy_only false)
        (by decide) (by decide) (by decide) (by decide) rfl rfl
        (fun h => absurd h (by decide)) rfl (by decide) (by decide) (by decide)
    ⟨s1, s2, s3, h1, h2, h3, h4, h5, h7, h10⟩⟩

/-! ### Release: what it can change -/

theorem andThen_rel {α β : Type} (R : State → State → Prop)
    (htrans : ∀ a b c, R a b → R b c → R a c) (s : State) (r : Outcome α × State)
    (k : α → State → Outcome β × State) (h1 : R s r.2) (h2 : ∀ a s1, R s1 (k a s1).2) :
    R s (andThen r k).2 := by
  obtain ⟨out, s0⟩ := r
  cases out with
  | ok a => exact htrans _ _ _ h1 (h2 a s0)
  | fatal f => exact h1
  | raised => exact h1
  | undefined => exact h1
  | out_of_fuel => exact h1

theorem release_patients_rel (cfg : Config) (R : State → State → Prop)
    (hrefl : ∀ a, R a a) (htrans : ∀ a b c, R a b → R b c → R a c)
    (decref : State → Addr → Outcome Unit × State) (hd : ∀ s a, R s (decref s a).2) :
    ∀ (keys : List Int) (s : State), R s (release_patients cfg decref keys s).2 := by
  intro keys
  induction keys with
  | nil => intro s; exact hrefl s
  | cons key rest ih =>
    intro s
    exact andThen_rel R htrans s _ _ (hd s _) (fun _ s1 => ih s1)

theorem upd_none_shrinks {α β : Type} [DecidableEq α] (m : α → Option β) (k x : α) :
    upd m k none x = m x ∨ upd m k none x = none := by
  by_cases h : x = k
  · right; simp [upd, h]
  · left; simp [upd, h]

theorem shrinks_refl (s : State) : Shrinks s s :=
  ⟨rfl, rfl, fun _ => Or.inl rfl, fun _ => Or.inl rfl, fun _ => Or.inl rfl, fun _ => Or.inl rfl,
    fun _ => Or.inl rfl, fun _ => Or.inl rfl, fun _ => le_refl _⟩

theorem shrink_trans {α β : Type} (m m1 m2 : α → Option β)
    (h1 : ∀ x, m1 x = m x ∨ m1 x = none) (h2 : ∀ x, m2 x = m1 x ∨ m2 x = none) :
    ∀ x, m2 x = m x ∨ m2 x = none := by
  intro x
  rcases h2 x with h | h
  · rcases h1 x with g | g
    · left; rw [h, g]
    · right; rw [h, g]
  · right; exact h

theorem shrinks_trans (a b c : State) (h1 : Shrinks a b) (h2 : Shrinks b c) : Shrinks a c := by
  obtain ⟨a1, a2, a3, a4, a5, a6, a7, a8, a9⟩ := h1
  obtain ⟨b1, b2, b3, b4, b5, b6, b7, b8, b9⟩ := h2
  exact ⟨b1.trans a1, b2.trans a2, shrink_trans _ _ _ a3 b3, shrink_trans _ _ _ a4 b4,
    shrink_trans _ _ _ a5 b5, shrink_trans _ _ _ a6 b6, shrink_trans _ _ _ a7 b7,
    shrink_trans _ _ _ a8 b8, fun q => le_trans (b9 q) (a9 q)⟩

theorem same_heap_shrinks {s s1 : State} (h : SameHeap s s1) : Shrinks s s1 := by
  obtain ⟨a1, a2, a3, a4, a5, a6, a7, a8, a9⟩ := h
  exact ⟨a1, a6, fun p => Or.inl (by rw [a7]), fun k => Or.inl (by rw [a2]),
    fun a => Or.inl (by rw [a8]), fun T => Or.inl (by rw [a3]), fun k => Or.inl (by rw [a4]),
    fun a => Or.inl (by rw [a9]), fun q => by rw [a5]⟩

theorem shrinks_decrement (s : State) (o : Addr) :
    Shrinks s { s with ob_refcnt := upd s.ob_refcnt o (s.ob_refcnt o - 1) } := by
  refine ⟨rfl, rfl, fun _ => Or.inl rfl, fun _ => Or.inl rfl, fun _ => Or.inl rfl,
    fun _ => Or.inl rfl, fun _ => Or.inl rfl, fun _ => Or.inl rfl, ?_⟩
  intro q
  by_cases h : q = o
  · simp [upd, h]
  · simp [upd, h]

theorem shrinks_type_free (cfg : Config) (s : State) (o : Addr) :
    Shrinks s (type_free cfg s o).2 := by
  unfold type_free
  split
  · exact shrinks_refl s
  · split
    · exact shrinks_refl s
    · exact ⟨rfl, rfl, fun _ => Or.inl rfl, fun _ => Or.inl rfl, fun a => upd_none_shrinks _ _ a,
        fun T => upd_none_shrinks _ _ T, fun _ => Or.inl rfl, fun _ => Or.inl rfl,
        fun _ => le_refl _⟩

theorem shrinks_tp_dealloc (cfg : Config) (d : State → Addr → Outcome Unit × State)
    (hd : ∀ s x, Shrinks s (d s x).2) (s : State) (o : Addr) :
    Shrinks s (tp_dealloc cfg d s o).2 := by
  unfold tp_dealloc
  split
  · exact ⟨rfl, rfl, fun _ => Or.inl rfl, fun _ => Or.inl rfl, fun _ => Or.inl rfl,
      fun _ => Or.inl rfl, fun _ => Or.inl rfl, fun a => upd_none_shrinks _ _ a,
      fun _ => le_refl _⟩
  · split
    · exact hd s o
    · split
      · exact shrinks_type_free cfg s o
      · exact shrinks_refl s

theorem shrinks_Py_DECREF_with (cfg : Config) (d : State → Addr → Outcome Unit × State)
    (hd : ∀ s x, Shrinks s (d s x).2) (s : State) (o : Addr) :
    Shrinks s (Py_DECREF_with cfg d s o).2 := by
  unfold Py_DECREF_with
  simp only
  split
  · exact shrinks_trans _ _ _ (shrinks_decrement s o) (shrinks_tp_dealloc cfg d hd _ o)
  · exact shrinks_decrement s o

theorem shrinks_dealloc_keep_alive (cfg : Config) (d : State → Addr → Outcome Unit × State)
    (hd : ∀ s x, Shrinks s (d s x).2) (s : State) (self : Addr) (inst : nb_inst) :
    Shrinks s (dealloc_keep_alive cfg (Py_DECREF_with cfg d) s self inst).2 := by
  unfold dealloc_keep_alive
  split
  · dsimp only
    split
    · exact shrinks_refl s
    · refine shrinks_trans _ _ _ (?_ : Shrinks s
        { s with keep_alive := upd s.keep_alive (ptr_to_key cfg self) none }) ?_
      · exact ⟨rfl, rfl, fun _ => Or.inl rfl, fun _ => Or.inl rfl, fun _ => Or.inl rfl,
          fun _ => Or.inl rfl, fun k => upd_none_shrinks _ _ k, fun _ => Or.inl rfl,
          fun _ => le_refl _⟩
      · apply andThen_rel Shrinks shrinks_trans
        · exact shrinks_Py_DECREF_with cfg d hd _ _
        · intro _ s2
          split
          · exact shrinks_refl s2
          · apply andThen_rel Shrinks shrinks_trans
            · exact release_patients_rel cfg Shrinks shrinks_refl shrinks_trans _
                (shrinks_Py_DECREF_with cfg d hd) _ s2
            · intro _ s3
              exact shrinks_Py_DECREF_with cfg d hd s3 _
  · exact shrinks_refl s

theorem shrinks_dealloc_unregister (cfg : Config) (s : State) (inst : nb_inst) (t : type_data) :
    Shrinks s (dealloc_unregister cfg s inst t).2 := by
  unfold dealloc_unregister
  split
  · exact shrinks_refl s
  · exact ⟨rfl, rfl, fun _ => Or.inl rfl, fun k => upd_none_shrinks _ _ k, fun _ => Or.inl rfl,
      fun _ => Or.inl rfl, fun _ => Or.inl rfl, fun _ => Or.inl rfl, fun _ => le_refl _⟩

theorem shrinks_dealloc_destruct (s : State) (inst : nb_inst) (t : type_data) :
    Shrinks s (dealloc_destruct s inst t).2 := by
  unfold dealloc_destruct
  split
  · split
    · split
      · exact same_heap_shrinks (by simp [SameHeap, emit])
      · exact shrinks_refl s
    · exact shrinks_refl s
  · exact shrinks_refl s

theorem shrinks_tp_free (s : State) (self : Addr) :
    Shrinks s (emit { s with insts := upd s.insts self none } (Event.tp_free self)) :=
  ⟨rfl, rfl, fun p => upd_none_shrinks _ _ p, fun _ => Or.inl rfl, fun _ => Or.inl rfl,
    fun _ => Or.inl rfl, fun _ => Or.inl rfl, fun _ => Or.inl rfl, fun _ => le_refl _⟩

/-- Whatever its outcome, `inst_dealloc` only removes proxies, type objects, sets
and entries and only lowers counts. -/
theorem shrinks_inst_dealloc (cfg : Config) :
    ∀ (fuel : Nat) (s : State) (x : Addr), Shrinks s (inst_dealloc cfg fuel s x).2 := by
  intro fuel
  induction fuel with
  | zero => intro s x; exact shrinks_refl s
  | succ fuel ih =>
    intro s x
    unfold inst_dealloc
    split
    · exact shrinks_refl s
    · dsimp only
      split
      · exact shrinks_refl s
      · apply andThen_rel Shrinks shrinks_trans
        · exact shrinks_dealloc_destruct s _ _
        · intro _ s1
          apply andThen_rel Shrinks shrinks_trans
          · exact shrinks_trans _ _ _ (same_heap_shrinks (dealloc_free_same_heap cfg s1 _ _))
              (shrinks_dealloc_keep_alive cfg _ ih _ x _)
          · intro _ s3
            apply andThen_rel Shrinks shrinks_trans
            · exact shrinks_dealloc_unregister cfg s3 _ _
            · intro _ s4
              exact shrinks_trans _ _ _ (shrinks_tp_free s4 x)
                (shrinks_Py_DECREF_with cfg _ ih _ _)

/-! ### Release: the registry entry -/

theorem release_of_shrinks {self v : Addr} {s s1 : State} (h : ReleaseOf self v s)
    (hs : Shrinks s s1) : ReleaseOf self v s1 := by
  obtain ⟨h1, h2⟩ := h
  obtain ⟨_, _, i3, _, _, _, _, _, i9⟩ := hs
  refine ⟨?_, le_trans (i9 self) h2⟩
  intro q i hq hne
  rcases i3 q with g | g
  · rw [g] at hq
    exact h1 q i hq hne
  · rw [g] at hq
    exact Option.noConfusion hq

theorem quiet_refl (self v : Addr) (s : State) : QuietStep self v s s :=
  ⟨shrinks_refl s, fun _ => rfl⟩

theorem quiet_trans (self v : Addr) (a b c : State) (h1 : QuietStep self v a b)
    (h2 : QuietStep self v b c) : QuietStep self v a c :=
  ⟨shrinks_trans _ _ _ h1.1 h2.1, fun hr => (h2.2 (release_of_shrinks hr h1.1)).trans (h1.2 hr)⟩

theorem quiet_of_same_trace (self v : Addr) (s s1 : State) (hs : Shrinks s s1)
    (ht : s1.trace = s.trace) : QuietStep self v s s1 :=
  ⟨hs, fun _ => by rw [ht]⟩

theorem destruct_count_append (v : Addr) (tr : List Event) (e : Event) :
    destruct_count v (tr ++ [e]) = destruct_count v tr + (if e = Event.destruct v then 1 else 0) := by
  unfold destruct_count
  rw [List.count_append]
  by_cases h : e = Event.destruct v
  · simp [h]
  · simp [h, List.count_cons]

theorem quiet_emit (self v : Addr) (s : State) (e : Event) (he : e ≠ Event.destruct v) :
    QuietStep self v s (emit s e) := by
  refine ⟨same_heap_shrinks (by simp [SameHeap, emit]), fun _ => ?_⟩
  simp only [emit]
  rw [destruct_count_append]
  simp [he]

theorem quiet_type_free (cfg : Config) (self v : Addr) (s : State) (o : Addr) :
    QuietStep self v s (type_free cfg s o).2 := by
  refine quiet_of_same_trace self v s _ (shrinks_type_free cfg s o) ?_
  unfold type_free
  split
  · rfl
  · split <;> rfl

theorem quiet_Py_DECREF_with (cfg : Config) (self v : Addr)
    (d : State → Addr → Outcome Unit × State)
    (hdS : ∀ s x, Shrinks s (d s x).2)
    (hdQ : ∀ s x, x ≠ self → QuietStep self v s (d s x).2) (s : State) (o : Addr) :
    QuietStep self v s (Py_DECREF_with cfg d s o).2 := by
  refine ⟨shrinks_Py_DECREF_with cfg d hdS s o, fun hr => ?_⟩
  have hr1 : ReleaseOf self v { s with ob_refcnt := upd s.ob_refcnt o (s.ob_refcnt o - 1) } :=
    release_of_shrinks hr (shrinks_decrement s o)
  unfold Py_DECREF_with
  simp only
  split
  · rename_i hzero
    have hne : o ≠ self := by
      intro h
      have := hr.2
      rw [h] at hzero
      simp only [upd_same] at hzero
      omega
    unfold tp_dealloc
    split
    · rfl
    · split
      · exact (hdQ _ o hne).2 hr1
      · split
        · exact (quiet_type_free cfg self v _ o).2 hr1
        · exact (quiet_emit self v _ (Event.dealloc o) (by simp)).2 hr1
  · rfl

theorem quiet_dealloc_keep_alive (cfg : Config) (self v : Addr)
    (d : State → Addr → Outcome Unit × State)
    (hdS : ∀ s x, Shrinks s (d s x).2)
    (hdQ : ∀ s x, x ≠ self → QuietStep self v s (d s x).2) (s : State) (x : Addr)
    (inst : nb_inst) :
    QuietStep self v s (dealloc_keep_alive cfg (Py_DECREF_with cfg d) s x inst).2 := by
  unfold dealloc_keep_alive
  split
  · dsimp only
    split
    · exact quiet_refl self v s
    · refine quiet_trans self v _ _ _ (?_ : QuietStep self v s
        { s with keep_alive := upd s.keep_alive (ptr_to_key cfg x) none }) ?_
      · refine quiet_of_same_trace self v _ _ ?_ rfl
        exact ⟨rfl, rfl, fun _ => Or.inl rfl, fun _ => Or.inl rfl, fun _ => Or.inl rfl,
          fun _ => Or.inl rfl, fun k => upd_none_shrinks _ _ k, fun _ => Or.inl rfl,
          fun _ => le_refl _⟩
      · apply andThen_rel (QuietStep self v) (quiet_trans self v)
        · exact quiet_Py_DECREF_with cfg self v d hdS hdQ _ _
        · intro _ s2
          split
          · exact quiet_refl self v s2
          · apply andThen_rel (QuietStep self v) (quiet_trans self v)
            · exact release_patients_rel cfg (QuietStep self v) (quiet_refl self v)
                (quiet_trans self v) _ (quiet_Py_DECREF_with cfg self v d hdS hdQ) _ s2
            · intro _ s3
              exact quiet_Py_DECREF_with cfg self v d hdS hdQ s3 _
  · exact quiet_refl self v s

theorem quiet_dealloc_free (cfg : Config) (self v : Addr) (s : State) (inst : nb_inst)
    (t : type_data) : QuietStep self v s (dealloc_free cfg s inst t) := by
  unfold dealloc_free
  split
  · split
    · exact quiet_emit self v s _ (by simp)
    · exact quiet_emit self v s _ (by simp)
  · exact quiet_refl self v s

/-- The part of `inst_dealloc` after the destructor step (type.cpp:82-119) calls
no destructor hook on `v` in the situation `ReleaseOf self v`. -/
theorem quiet_after_destruct (cfg : Config) (self v : Addr)
    (d : State → Addr → Outcome Unit × State)
    (hdS : ∀ s x, Shrinks s (d s x).2)
    (hdQ : ∀ s x, x ≠ self → QuietStep self v s (d s x).2) (x : Addr) (inst : nb_inst)
    (t : type_data) (type : Addr) (s1 : State) :
    QuietStep self v s1
      (andThen (dealloc_keep_alive cfg (Py_DECREF_with cfg d) (dealloc_free cfg s1 inst t) x inst)
        (fun _ s3 =>
          andThen (dealloc_unregister cfg s3 inst t) (fun _ s4 =>
            Py_DECREF_with cfg d
              (emit { s4 with insts := upd s4.insts x none } (Event.tp_free x)) type))).2 := by
  apply andThen_rel (QuietStep self v) (quiet_trans self v)
  · exact quiet_trans self v _ _ _ (quiet_dealloc_free cfg self v s1 inst t)
      (quiet_dealloc_keep_alive cfg self v d hdS hdQ _ x inst)
  · intro _ s3
    apply andThen_rel (QuietStep self v) (quiet_trans self v)
    · refine quiet_of_same_trace self v _ _ (shrinks_dealloc_unregister cfg s3 inst t) ?_
      unfold dealloc_unregister
      split <;> rfl
    · intro _ s4
      refine quiet_trans self v _ _ _ ?_ (quiet_Py_DECREF_with cfg self v d hdS hdQ _ _)
      refine ⟨shrinks_tp_free s4 x, fun _ => ?_⟩
      simp only [emit]
      rw [destruct_count_append]
      simp

theorem quiet_inst_dealloc (cfg : Config) (self v : Addr) :
    ∀ (fuel : Nat) (s : State) (x : Addr), x ≠ self →
      QuietStep self v s (inst_dealloc cfg fuel s x).2 := by
  intro fuel
  induction fuel with
  | zero => intro s x _; exact quiet_refl self v s
  | succ fuel ih =>
    intro s x hx
    refine ⟨shrinks_inst_dealloc cfg (fuel + 1) s x, fun hr => ?_⟩
    unfold inst_dealloc
    split
    · rfl
    · rename_i inst hinst
      dsimp only
      split
      · rfl
      · rename_i tp htp
        have hstep : QuietStep self v s (dealloc_destruct s inst tp.extra).2 := by
          unfold dealloc_destruct
          split
          · rename_i hd
            have hval : inst.value ≠ v := hr.1 x inst hinst hx hd
            split
            · split
              · exact quiet_emit self v s _ (by simp [hval])
              · exact quiet_refl self v s
            · exact quiet_refl self v s
          · exact quiet_refl self v s
        exact (andThen_rel (QuietStep self v) (quiet_trans self v) s _ _ hstep
          (fun _ s1 => quiet_after_destruct cfg self v _ (shrinks_inst_dealloc cfg fuel) ih x
            inst tp.extra (s.ob_type x) s1)).2 hr

theorem release_of_example (flags : type_flags)
    (hbase : (flags.has_base && flags.has_base_py) = false) (hscope : flags.has_scope = false)
    (hc : flags.is_copy_constructible = true) :
    ReleaseOf 8192 8224 (state_dying flags) := by
  refine ⟨?_, by simp [state_dying, upd]⟩
  intro q i hq hne
  have : (state_dying flags).insts q = none := by
    by_cases hh : flags.has_copy = true <;>
    simp [state_dying, state_owned, type_put, state_registered, type_new, hbase, hscope,
      type_qualname, type_fullname, type_scope_name, type_new_build, descr, cfg64, state_empty,
      upd, inst_new_impl, andThen, set_ownership, construct_value, Py_INCREF, emit, hc, hne, hh]
  rw [this] at hq
  exact Option.noConfusion hq

/-- Claim C17. Release (`inst_dealloc`) of a proxy `self` whose count is not
positive, in a state where no other live proxy with destruct-on-release set wraps
the same value address: if destruct-on-release is set and the type is declared
non-destructible, the call fails with `destroy_non_destructible` and the state is
the one before the call (no storage freed, no keep-alive entry removed, Instance
Registry untouched); if it is set and the type is destructible, the destructor hook
is called on the value address exactly once when the type has a custom hook and not
at all otherwise; if it is clear, the hook is not called on that address. The
counts hold whatever the outcome of the later steps. -/
theorem inst_dealloc_destructor (cfg : Config) (fuel : Nat) (s : State) (self : Addr)
    (inst : nb_inst) (tp : PyTypeObject)
    (hinst : s.insts self = some inst) (htp : s.types (s.ob_type self) = some tp)
    (hrel : ReleaseOf self inst.value s) :
    (inst.destruct = true → tp.extra.flags.is_destructible = false →
      inst_dealloc cfg (fuel + 1) s self
        = (Outcome.fatal Fatal.destroy_non_destructible, s)) ∧
    (inst.destruct = true → tp.extra.flags.is_destructible = true →
      destruct_count inst.value (inst_dealloc cfg (fuel + 1) s self).2.trace
        = destruct_count inst.value s.trace
          + (if tp.extra.flags.has_destruct = true then 1 else 0)) ∧
    (inst.destruct = false →
      destruct_count inst.value (inst_dealloc cfg (fuel + 1) s self).2.trace
        = destruct_count inst.value s.trace) := by
  refine ⟨?_, ?_, ?_⟩
  · intro hd hnd
    unfold inst_dealloc
    simp only [hinst, htp]
    simp [dealloc_destruct, hd, hnd, andThen]
  · intro hd hnd
    by_cases hh : tp.extra.flags.has_destruct = true
    · have hq := quiet_after_destruct cfg self inst.value (inst_dealloc cfg fuel)
        (shrinks_inst_dealloc cfg fuel) (quiet_inst_dealloc cfg self inst.value fuel) self inst
        tp.extra (s.ob_type self) (emit s (Event.destruct inst.value))
      have hr1 : ReleaseOf self inst.value (emit s (Event.destruct inst.value)) :=
        release_of_shrinks hrel (same_heap_shrinks (by simp [SameHeap, emit]))
      have h1 := hq.2 hr1
      unfold inst_dealloc
      simp only [hinst, htp]
      simp only [dealloc_destruct, hd, hnd, hh, if_true, andThen_ok]
      rw [h1]
      simp only [emit]
      rw [destruct_count_append]
      simp
    · have hq := quiet_after_destruct cfg self inst.value (inst_dealloc cfg fuel)
        (shrinks_inst_dealloc cfg fuel) (quiet_inst_dealloc cfg self inst.value fuel) self inst
        tp.extra (s.ob_type self) s
      have h1 := hq.2 hrel
      unfold inst_dealloc
      simp only [hinst, htp]
      simp only [dealloc_destruct, hd, hnd, hh, if_true, if_false, Bool.false_eq_true, andThen_ok]
      rw [h1]
      simp
  · intro hd
    have hq := quiet_after_destruct cfg self inst.value (inst_dealloc cfg fuel)
      (shrinks_inst_dealloc cfg fuel) (quiet_inst_dealloc cfg self inst.value fuel) self inst
      tp.extra (s.ob_type self) s
    have h1 := hq.2 hrel
    unfold inst_dealloc
    simp only [hinst, htp]
    simp only [dealloc_destruct, hd, if_false, andThen_ok]
    exact h1

/-- Witness of C17: the proxy 8192 owns its value at 8224. With a custom
destructor hook, release calls the hook on 8224 once; with a type declared
non-destructible, release fails and leaves the state as it was. -/
theorem inst_dealloc_destructor_witness :
    (state_dying flags_hooks).insts 8192
        = some { value := 8224, destruct := true, free := false, clear_keep_alive := false } ∧
      (state_dying flags_hooks).types ((state_dying flags_hooks).ob_type 8192)
        = some (type_object_registered flags_hooks false) ∧
      ReleaseOf 8192 8224 (state_dying flags_hooks) ∧
      destruct_count 8224 (state_dying flags_hooks).trace = 0 ∧
      destruct_count 8224 (inst_dealloc cfg64 1 (state_dying flags_hooks) 8192).2.trace = 1 ∧
      (inst_dealloc cfg64 1 (state_dying flags_hooks) 8192).1 = Outcome.ok () ∧
      destruct_count 8224 (inst_dealloc cfg64 1 (state_dying flags_hooks) 8192).2.trace
        = destruct_count 8224 (state_dying flags_hooks).trace
          + (if (type_object_registered flags_hooks false).extra.flags.has_destruct = true
              then 1 else 0) ∧
      inst_dealloc cfg64 1 (state_dying flags_not_destructible) 8192
        = (Outcome.fatal Fatal.destroy_non_destructible, state_dying flags_not_destructible) :=
  ⟨rfl, rfl, release_of_example flags_hooks rfl rfl rfl, by decide, by decide, by decide,
    (inst_dealloc_destructor cfg64 0 (state_dying flags_hooks) 8192
      { value := 8224, destruct := true, free := false, clear_keep_alive := false }
      (type_object_registered flags_hooks false) rfl rfl
      (release_of_example flags_hooks rfl rfl rfl)).2.1 rfl rfl,
    (inst_dealloc_destructor cfg64 0 (state_dying flags_not_destructible) 8192
      { value := 8224, destruct := true, free := false, clear_keep_alive := false }
      (type_object_registered flags_not_destructible false) rfl rfl
      (release_of_example flags_not_destructible rfl rfl rfl)).1 rfl rfl⟩

/-! ### The Instance Registry invariant -/

theorem protected_shrinks {cfg : Config} {z : Addr} {s s1 : State} (h : Protected cfg z s)
    (hs : Shrinks s s1) : Protected cfg z s1 := by
  obtain ⟨h1, h2⟩ := h
  obtain ⟨_, _, i3, _, _, _, i7, _, _⟩ := hs
  constructor
  · rcases i7 (ptr_to_key cfg z) with g | g
    · rw [g]; exact h1
    · exact g
  · intro i hi
    rcases i3 z with g | g
    · rw [g] at hi; exact h2 i hi
    · rw [g] at hi; exact Option.noConfusion hi

theorem registry_inv_frame (cfg : Config) (s s1 : State) (hs : Shrinks s s1)
    (h1 : s1.inst_c2p = s.inst_c2p) (h2 : s1.insts = s.insts) (h : RegistryInv cfg s) :
    RegistryInv cfg s1 := by
  obtain ⟨u1, u2, u3⟩ := h
  obtain ⟨_, i2, _, _, i5, _, _, _, _⟩ := hs
  refine ⟨?_, ?_, ?_⟩
  · intro p inst hp
    rw [h2] at hp
    rw [h1]
    exact u1 p inst hp
  · intro k p hk
    rw [h1] at hk
    obtain ⟨inst, hi, hv, ht⟩ := u2 k p hk
    refine ⟨inst, by rw [h2]; exact hi, hv, ?_⟩
    intro tp htp
    rw [i2] at htp
    rcases i5 (s.ob_type p) with g | g
    · rw [g] at htp; exact ht tp htp
    · rw [g] at htp; exact Option.noConfusion htp
  · intro k k2 p hk hk2
    rw [h1] at hk hk2
    exact u3 k k2 p hk hk2

theorem sound_frame {α : Type} (cfg : Config) (z : Addr) (k : Addr × TypeIndex)
    (s s1 : State) (out : Outcome α) (hs : Shrinks s s1) (h1 : s1.inst_c2p = s.inst_c2p)
    (h2 : s1.insts = s.insts) (hout : out ≠ Outcome.fatal Fatal.unknown_instance) :
    Sound cfg z k s (out, s1) := by
  unfold Sound
  intro hinv
  exact ⟨hout, registry_inv_frame cfg s s1 hs h1 h2 hinv,
    fun _ hk => ⟨by rw [h1]; exact hk, by rw [h2]⟩⟩

theorem sound_andThen {α β : Type} (cfg : Config) (z : Addr) (k : Addr × TypeIndex)
    (s : State) (r : Outcome α × State) (kont : α → State → Outcome β × State)
    (hs : Shrinks s r.2) (h1 : Sound cfg z k s r)
    (h2 : ∀ a, r.1 = Outcome.ok a → RegistryInv cfg r.2 → Sound cfg z k r.2 (kont a r.2)) :
    Sound cfg z k s (andThen r kont) := by
  unfold Sound at h1 ⊢
  intro hinv
  obtain ⟨o1, i1, k1⟩ := h1 hinv
  obtain ⟨out, s0⟩ := r
  cases out with
  | ok a =>
    have h3 := h2 a rfl i1
    unfold Sound at h3
    obtain ⟨o2, i2, k2⟩ := h3 i1
    refine ⟨o2, i2, fun hp hk => ?_⟩
    obtain ⟨e1, e2⟩ := k1 hp hk
    obtain ⟨e3, e4⟩ := k2 (protected_shrinks hp hs) e1
    exact ⟨e3, e4.trans e2⟩
  | fatal f => exact ⟨by simpa [andThen] using o1, i1, k1⟩
  | raised => exact ⟨by simp [andThen], i1, k1⟩
  | undefined => exact ⟨by simp [andThen], i1, k1⟩
  | out_of_fuel => exact ⟨by simp [andThen], i1, k1⟩

theorem sound_trans {α β : Type} (cfg : Config) (z : Addr) (k : Addr × TypeIndex)
    (s s1 : State) (a : α) (r : Outcome β × State) (hs : Shrinks s s1)
    (h1 : Sound cfg z k s (Outcome.ok a, s1)) (h2 : Sound cfg z k s1 r) :
    Sound cfg z k s r :=
  sound_andThen cfg z k s (Outcome.ok a, s1) (fun _ _ => r) hs h1 (fun _ _ _ => h2)

theorem sound_type_free (cfg : Config) (z : Addr) (k : Addr × TypeIndex) (s : State)
    (o : Addr) : Sound cfg z k s (type_free cfg s o) := by
  unfold type_free
  split
  · exact sound_frame cfg z k s s _ (shrinks_refl s) rfl rfl (by simp)
  · split
    · exact sound_frame cfg z k s s _ (shrinks_refl s) rfl rfl (by simp)
    · exact sound_frame cfg z k s _ _
        ⟨rfl, rfl, fun _ => Or.inl rfl, fun _ => Or.inl rfl, fun a => upd_none_shrinks _ _ a,
          fun T => upd_none_shrinks _ _ T, fun _ => Or.inl rfl, fun _ => Or.inl rfl,
          fun _ => le_refl _⟩ rfl rfl (by simp)

theorem sound_tp_dealloc (cfg : Config) (d : State → Addr → Outcome Unit × State)
    (hdQ : ∀ z k s x, Sound cfg z k s (d s x)) (z : Addr) (k : Addr × TypeIndex) (s : State)
    (o : Addr) : Sound cfg z k s (tp_dealloc cfg d s o) := by
  unfold tp_dealloc
  split
  · exact sound_frame cfg z k s _ _
      ⟨rfl, rfl, fun _ => Or.inl rfl, fun _ => Or.inl rfl, fun _ => Or.inl rfl,
        fun _ => Or.inl rfl, fun _ => Or.inl rfl, fun a => upd_none_shrinks _ _ a,
        fun _ => le_refl _⟩ rfl rfl (by simp)
  · split
    · exact hdQ z k s o
    · split
      · exact sound_type_free cfg z k s o
      · exact sound_frame cfg z k s _ _ (same_heap_shrinks (by simp [SameHeap, emit])) rfl rfl
          (by simp)

theorem sound_Py_DECREF_with (cfg : Config) (d : State → Addr → Outcome Unit × State)
    (hdQ : ∀ z k s x, Sound cfg z k s (d s x)) (z : Addr) (k : Addr × TypeIndex) (s : State)
    (o : Addr) : Sound cfg z k s (Py_DECREF_with cfg d s o) := by
  have h0 : Sound cfg z k s
      ((Outcome.ok (), { s with ob_refcnt := upd s.ob_refcnt o (s.ob_refcnt o - 1) }) :
        Outcome Unit × State) :=
    sound_frame cfg z k s _ _ (shrinks_decrement s o) rfl rfl (by simp)
  unfold Py_DECREF_with
  simp only
  split
  · exact sound_trans cfg z k s _ () _ (shrinks_decrement s o) h0
      (sound_tp_dealloc cfg d hdQ z k _ o)
  · exact h0

theorem sound_release_patients (cfg : Config) (z : Addr) (k : Addr × TypeIndex)
    (decref : State → Addr → Outcome Unit × State) (hS : ∀ s a, Shrinks s (decref s a).2)
    (hQ : ∀ s a, Sound cfg z k s (decref s a)) :
    ∀ (keys : List Int) (s : State), Sound cfg z k s (release_patients cfg decref keys s) := by
  intro keys
  induction keys with
  | nil => intro s; exact sound_frame cfg z k s s _ (shrinks_refl s) rfl rfl (by simp)
  | cons key rest ih =>
    intro s
    exact sound_andThen cfg z k s _ _ (hS s _) (hQ s _) (fun _ _ _ => ih _)

/-- The releases of step 3 of `inst_dealloc`, after the dictionary entry has been
deleted (type.cpp:94-106). -/
theorem sound_cascade (cfg : Config) (d : State → Addr → Outcome Unit × State)
    (hdS : ∀ s x, Shrinks s (d s x).2) (hdQ : ∀ z k s x, Sound cfg z k s (d s x))
    (z : Addr) (k : Addr × TypeIndex) (s1 : State) (set : Addr) :
    Sound cfg z k s1
      (andThen (Py_DECREF_with cfg d s1 set) (fun _ s2 =>
        match s2.sets set with
        | none => (Outcome.undefined, s2)
        | some keys =>
          andThen (release_patients cfg (Py_DECREF_with cfg d) keys s2)
            (fun _ s3 => Py_DECREF_with cfg d s3 set))) := by
  refine sound_andThen cfg z k s1 _ _ (shrinks_Py_DECREF_with cfg d hdS s1 set)
    (sound_Py_DECREF_with cfg d hdQ z k s1 set) ?_
  intro _ _ _
  split
  · exact sound_frame cfg z k _ _ _ (shrinks_refl _) rfl rfl (by simp)
  · exact sound_andThen cfg z k _ _ _
      (release_patients_rel cfg Shrinks shrinks_refl shrinks_trans _
        (shrinks_Py_DECREF_with cfg d hdS) _ _)
      (sound_release_patients cfg z k _ (shrinks_Py_DECREF_with cfg d hdS)
        (sound_Py_DECREF_with cfg d hdQ z k) _ _)
      (fun _ _ _ => sound_Py_DECREF_with cfg d hdQ z k _ set)

theorem dealloc_destruct_same_heap (s : State) (inst : nb_inst) (t : type_data) :
    SameHeap s (dealloc_destruct s inst t).2 := by
  unfold dealloc_destruct
  split
  · split
    · split
      · simp [SameHeap, emit]
      · simp [SameHeap]
    · simp [SameHeap]
  · simp [SameHeap]

theorem dealloc_destruct_finds (s : State) (inst : nb_inst) (t : type_data) :
    (dealloc_destruct s inst t).1 ≠ Outcome.fatal Fatal.unknown_instance := by
  unfold dealloc_destruct
  split
  · split
    · split <;> simp
    · simp
  · simp

theorem sound_dealloc_keep_alive (cfg : Config) (d : State → Addr → Outcome Unit × State)
    (hdS : ∀ s x, Shrinks s (d s x).2) (hdQ : ∀ z k s x, Sound cfg z k s (d s x))
    (z : Addr) (k : Addr × TypeIndex) (s : State) (x : Addr) (inst : nb_inst) :
    Sound cfg z k s (dealloc_keep_alive cfg (Py_DECREF_with cfg d) s x inst) := by
  unfold dealloc_keep_alive
  split
  · dsimp only
    split
    · exact sound_frame cfg z k s s _ (shrinks_refl s) rfl rfl (by simp)
    · have hs : Shrinks s { s with keep_alive := upd s.keep_alive (ptr_to_key cfg x) none } :=
        ⟨rfl, rfl, fun _ => Or.inl rfl, fun _ => Or.inl rfl, fun _ => Or.inl rfl,
          fun _ => Or.inl rfl, fun k => upd_none_shrinks _ _ k, fun _ => Or.inl rfl,
          fun _ => le_refl _⟩
      exact sound_trans cfg z k s _ () _ hs (sound_frame cfg z k s _ _ hs rfl rfl (by simp))
        (sound_cascade cfg d hdS hdQ z k _ _)
  · exact sound_frame cfg z k s s _ (shrinks_refl s) rfl rfl (by simp)

/-- Step 3 of the release of `x` leaves `x` live and its entry in place, whatever
the outcome: a nested release of `x` stops before it reaches step 4. -/
theorem dealloc_keep_alive_keeps_self (cfg : Config)
    (d : State → Addr → Outcome Unit × State)
    (hdS : ∀ s x, Shrinks s (d s x).2) (hdQ : ∀ z k s x, Sound cfg z k s (d s x))
    (s : State) (x : Addr) (inst : nb_inst) (k : Addr × TypeIndex)
    (hinv : RegistryInv cfg s) (hinst : s.insts x = some inst)
    (hk : s.inst_c2p k = some x) :
    (dealloc_keep_alive cfg (Py_DECREF_with cfg d) s x inst).2.inst_c2p k = some x ∧
      (dealloc_keep_alive cfg (Py_DECREF_with cfg d) s x inst).2.insts x = some inst := by
  unfold dealloc_keep_alive
  split
  · rename_i hc
    dsimp only
    split
    · exact ⟨hk, hinst⟩
    · rename_i set _
      have hs : Shrinks s { s with keep_alive := upd s.keep_alive (ptr_to_key cfg x) none } :=
        ⟨rfl, rfl, fun _ => Or.inl rfl, fun _ => Or.inl rfl, fun _ => Or.inl rfl,
          fun _ => Or.inl rfl, fun k => upd_none_shrinks _ _ k, fun _ => Or.inl rfl,
          fun _ => le_refl _⟩
      have hc1 := sound_cascade cfg d hdS hdQ x k
        { s with keep_alive := upd s.keep_alive (ptr_to_key cfg x) none } set
      unfold Sound at hc1
      obtain ⟨_, _, h3⟩ := hc1 (registry_inv_frame cfg s _ hs rfl rfl hinv)
      have hp : Protected cfg x
          { s with keep_alive := upd s.keep_alive (ptr_to_key cfg x) none } := by
        refine ⟨by simp [upd], ?_⟩
        intro i hi
        have hi2 : s.insts x = some i := hi
        rw [hinst] at hi2
        cases hi2
        exact hc
      obtain ⟨e1, e2⟩ := h3 hp hk
      exact ⟨e1, e2.trans hinst⟩
  · exact ⟨hk, hinst⟩

/-- Step 4 of the release of `x` and the release of the block (type.cpp:110-119),
from a state in which `x` is registered under the key that step 4 looks up. -/
theorem sound_unregister_free (cfg : Config) (d : State → Addr → Outcome Unit × State)
    (hdQ : ∀ z k s x, Sound cfg z k s (d s x))
    (z : Addr) (k : Addr × TypeIndex) (s3 : State) (x type : Addr) (inst : nb_inst)
    (t : type_data) (hzx : z ≠ x)
    (hk : s3.inst_c2p (inst.value, cfg.type_index t.type) = some x) :
    Sound cfg z k s3
      (andThen (dealloc_unregister cfg s3 inst t) (fun _ s4 =>
        Py_DECREF_with cfg d
          (emit { s4 with insts := upd s4.insts x none } (Event.tp_free x)) type)) := by
  have e : dealloc_unregister cfg s3 inst t
      = (Outcome.ok (),
          { s3 with inst_c2p := upd s3.inst_c2p (inst.value, cfg.type_index t.type) none }) := by
    simp only [dealloc_unregister, hk]
  rw [e, andThen_ok]
  have hs : Shrinks s3
      (emit { ({ s3 with inst_c2p := upd s3.inst_c2p (inst.value, cfg.type_index t.type) none }
                : State) with
              insts := upd s3.insts x none } (Event.tp_free x)) :=
    ⟨rfl, rfl, fun p => upd_none_shrinks _ _ p, fun k => upd_none_shrinks _ _ k,
      fun _ => Or.inl rfl, fun _ => Or.inl rfl, fun _ => Or.inl rfl, fun _ => Or.inl rfl,
      fun _ => le_refl _⟩
  refine sound_trans cfg z k s3 _ () _ hs ?_ (sound_Py_DECREF_with cfg d hdQ z k _ type)
  unfold Sound
  intro hinv
  obtain ⟨u1, u2, u3⟩ := hinv
  refine ⟨by simp, ⟨?_, ?_, ?_⟩, ?_⟩
  · intro p i hp
    have hpx : p ≠ x := by
      intro h
      rw [h] at hp
      simp [emit, upd] at hp
    have hp3 : s3.insts p = some i := by
      simpa [emit, upd, hpx] using hp
    obtain ⟨k0, hk0⟩ := u1 p i hp3
    have hk0x : k0 ≠ (inst.value, cfg.type_index t.type) := by
      intro h
      rw [h, hk] at hk0
      exact hpx (Option.some.inj hk0).symm
    exact ⟨k0, by simpa [emit, upd, hk0x] using hk0⟩
  · intro k0 p hk0
    have hk0x : k0 ≠ (inst.value, cfg.type_index t.type) := by
      intro h
      rw [h] at hk0
      simp [emit, upd] at hk0
    have hk3 : s3.inst_c2p k0 = some p := by
      simpa [emit, upd, hk0x] using hk0
    have hpx : p ≠ x := by
      intro h
      rw [h] at hk3
      exact hk0x (u3 _ _ x hk3 hk)
    obtain ⟨i, hi, hv, ht⟩ := u2 k0 p hk3
    exact ⟨i, by simpa [emit, upd, hpx] using hi, hv, ht⟩
  · intro k0 k2 p h0 h2
    have hk0x : k0 ≠ (inst.value, cfg.type_index t.type) := by
      intro h
      rw [h] at h0
      simp [emit, upd] at h0
    have hk2x : k2 ≠ (inst.value, cfg.type_index t.type) := by
      intro h
      rw [h] at h2
      simp [emit, upd] at h2
    exact u3 k0 k2 p (by simpa [emit, upd, hk0x] using h0) (by simpa [emit, upd, hk2x] using h2)
  · intro _ hkz
    have hkx : k ≠ (inst.value, cfg.type_index t.type) := by
      intro h
      rw [h, hk] at hkz
      exact hzx (Option.some.inj hkz).symm
    exact ⟨by simpa [emit, upd, hkx] using hkz, by simp [emit, upd, hzx]⟩

/-- The release of a proxy that is in step 3 of its own release stops before the
Instance Registry is touched. -/
theorem inst_dealloc_protected (cfg : Config) (fuel : Nat) (s : State) (x : Addr)
    (hp : Protected cfg x s) :
    (inst_dealloc cfg fuel s x).1 ≠ Outcome.ok () ∧
      (inst_dealloc cfg fuel s x).1 ≠ Outcome.fatal Fatal.unknown_instance ∧
      SameHeap s (inst_dealloc cfg fuel s x).2 := by
  cases fuel with
  | zero => exact ⟨by simp [inst_dealloc], by simp [inst_dealloc], by simp [inst_dealloc, SameHeap]⟩
  | succ fuel =>
    unfold inst_dealloc
    split
    · exact ⟨by simp, by simp, by simp [SameHeap]⟩
    · rename_i inst hinst
      dsimp only
      split
      · exact ⟨by simp, by simp, by simp [SameHeap]⟩
      · rename_i tp htp
        have hc : inst.clear_keep_alive = true := hp.2 inst hinst
        have h1 := dealloc_destruct_same_heap s inst tp.extra
        have h1f := dealloc_destruct_finds s inst tp.extra
        rcases hd : dealloc_destruct s inst tp.extra with ⟨out, s1⟩
        rw [hd] at h1 h1f
        have h2 : SameHeap s (dealloc_free cfg s1 inst tp.extra) :=
          same_heap_trans h1 (dealloc_free_same_heap cfg s1 inst tp.extra)
        have hk : (dealloc_free cfg s1 inst tp.extra).keep_alive (ptr_to_key cfg x) = none := by
          rw [h2.2.2.2.1]
          exact hp.1
        cases out with
        | ok a =>
          simp only [andThen_ok, dealloc_keep_alive, hc, if_true, hk, andThen_fatal]
          exact ⟨by simp, by simp, h2⟩
        | fatal f => exact ⟨by simp [andThen], by simpa [andThen] using h1f, h1⟩
        | raised => exact ⟨by simp [andThen], by simp [andThen], h1⟩
        | undefined => exact ⟨by simp [andThen], by simp [andThen], h1⟩
        | out_of_fuel => exact ⟨by simp [andThen], by simp [andThen], h1⟩

/-- Whatever its outcome, a run of `inst_dealloc` from a state with the registry
invariant does not end in "unknown instance" and keeps the invariant. -/
theorem sound_inst_dealloc (cfg : Config) :
    ∀ (fuel : Nat) (z : Addr) (k : Addr × TypeIndex) (s : State) (x : Addr),
      Sound cfg z k s (inst_dealloc cfg fuel s x) := by
  intro fuel
  induction fuel with
  | zero =>
    intro z k s x
    exact sound_frame cfg z k s s _ (shrinks_refl s) rfl rfl (by simp)
  | succ fuel ih =>
    intro z k s x
    have hdS := shrinks_inst_dealloc cfg fuel
    have core : ∀ (z : Addr) (k : Addr × TypeIndex), z ≠ x →
        Sound cfg z k s (inst_dealloc cfg (fuel + 1) s x) := by
      intro z k hzx
      unfold inst_dealloc
      split
      · exact sound_frame cfg z k s s _ (shrinks_refl s) rfl rfl (by simp)
      · rename_i inst hinst
        dsimp only
        split
        · exact sound_frame cfg z k s s _ (shrinks_refl s) rfl rfl (by simp)
        · rename_i tp htp
          unfold Sound
          intro hinv
          have hkx : s.inst_c2p (inst.value, cfg.type_index tp.extra.type) = some x := by
            obtain ⟨k0, hk0⟩ := hinv.1 x inst hinst
            obtain ⟨i, hi, hv, ht⟩ := hinv.2.1 k0 x hk0
            rw [hinst] at hi
            cases hi
            have e : k0 = (inst.value, cfg.type_index tp.extra.type) :=
              Prod.ext hv (ht tp htp)
            rw [← e]
            exact hk0
          have h1 := dealloc_destruct_same_heap s inst tp.extra
          have h2 : SameHeap s (dealloc_free cfg (dealloc_destruct s inst tp.extra).2 inst tp.extra) :=
            same_heap_trans h1 (dealloc_free_same_heap cfg _ inst tp.extra)
          have hinv2 : RegistryInv cfg
              (dealloc_free cfg (dealloc_destruct s inst tp.extra).2 inst tp.extra) :=
            registry_inv_frame cfg s _ (same_heap_shrinks h2) h2.2.1 h2.2.2.2.2.2.2.1 hinv
          have hself := dealloc_keep_alive_keeps_self cfg (inst_dealloc cfg fuel) hdS ih
            (dealloc_free cfg (dealloc_destruct s inst tp.extra).2 inst tp.extra) x inst
            (inst.value, cfg.type_index tp.extra.type) hinv2
            (by rw [h2.2.2.2.2.2.2.1]; exact hinst) (by rw [h2.2.1]; exact hkx)
          refine sound_andThen cfg z k s _ _ (same_heap_shrinks h1)
            (sound_frame cfg z k s _ _ (same_heap_shrinks h1) h1.2.1 h1.2.2.2.2.2.2.1
              (dealloc_destruct_finds s inst tp.extra)) ?_ hinv
          intro _ _ _
          have h12 := dealloc_free_same_heap cfg (dealloc_destruct s inst tp.extra).2 inst tp.extra
          refine sound_andThen cfg z k _ _ _
            (shrinks_trans _ _ _ (same_heap_shrinks h12)
              (shrinks_dealloc_keep_alive cfg (inst_dealloc cfg fuel) hdS _ x inst))
            (sound_trans cfg z k _ _ () _ (same_heap_shrinks h12)
              (sound_frame cfg z k _ _ _ (same_heap_shrinks h12) h12.2.1 h12.2.2.2.2.2.2.1 (by simp))
              (sound_dealloc_keep_alive cfg (inst_dealloc cfg fuel) hdS ih z k _ x inst)) ?_
          intro _ _ _
          exact sound_unregister_free cfg (inst_dealloc cfg fuel) ih z k _ x (s.ob_type x) inst
            tp.extra hzx hself.1
    by_cases hzx : z = x
    · have hc := core (x + 1) k (by simp)
      unfold Sound at hc ⊢
      intro hinv
      obtain ⟨c1, c2, _⟩ := hc hinv
      refine ⟨c1, c2, ?_⟩
      intro hp hk
      rw [hzx] at hp hk ⊢
      have h := (inst_dealloc_protected cfg (fuel + 1) s x hp).2.2
      exact ⟨by rw [h.2.1]; exact hk, by rw [h.2.2.2.2.2.2.1]⟩
    · exact core z k hzx

theorem registry_inv_flags (cfg : Config) (s s1 : State) (h1 : s1.inst_c2p = s.inst_c2p)
    (h2 : ∀ p, (s1.insts p).map (fun i => i.value) = (s.insts p).map (fun i => i.value))
    (h3 : s1.ob_type = s.ob_type) (h4 : s1.types = s.types) (h : RegistryInv cfg s) :
    RegistryInv cfg s1 := by
  obtain ⟨u1, u2, u3⟩ := h
  refine ⟨?_, ?_, ?_⟩
  · intro p inst hp
    have e := h2 p
    rw [hp] at e
    cases hq : s.insts p with
    | none => rw [hq] at e; simp at e
    | some i =>
      rw [h1]
      exact u1 p i hq
  · intro k p hk
    rw [h1] at hk
    obtain ⟨inst, hi, hv, ht⟩ := u2 k p hk
    have e := h2 p
    rw [hi] at e
    cases hq : s1.insts p with
    | none => rw [hq] at e; simp at e
    | some i =>
      rw [hq] at e
      simp only [Option.map_some', Option.some.injEq] at e
      refine ⟨i, rfl, by rw [e]; exact hv, ?_⟩
      intro tp htp
      rw [h3, h4] at htp
      exact ht tp htp
  · intro k k2 p hk hk2
    rw [h1] at hk hk2
    exact u3 k k2 p hk hk2

theorem registry_inv_insert (cfg : Config) (s s1 : State) (o type : Addr)
    (kv : Addr × TypeIndex) (tp : PyTypeObject) (self : nb_inst) (hv : self.value = kv.1)
    (hT : kv.2 = cfg.type_index tp.extra.type)
    (hfresh : s.insts o = none) (htp : s.types type = some tp) (hnone : s.inst_c2p kv = none)
    (e1 : s1.inst_c2p = upd s.inst_c2p kv (some o)) (e2 : s1.insts = upd s.insts o (some self))
    (e3 : s1.ob_type = upd s.ob_type o type) (e4 : s1.types = s.types)
    (h : RegistryInv cfg s) : RegistryInv cfg s1 := by
  obtain ⟨u1, u2, u3⟩ := h
  have hlive : ∀ k p, s.inst_c2p k = some p → p ≠ o := by
    intro k p hk hpo
    obtain ⟨i, hi, _⟩ := u2 k p hk
    rw [hpo, hfresh] at hi
    exact Option.noConfusion hi
  refine ⟨?_, ?_, ?_⟩
  · intro p inst hp
    rw [e2] at hp
    rw [e1]
    by_cases hpo : p = o
    · exact ⟨kv, by simp [upd, hpo]⟩
    · simp only [upd, hpo, if_false] at hp
      obtain ⟨k0, hk0⟩ := u1 p inst hp
      have hk0v : k0 ≠ kv := by
        intro h
        rw [h, hnone] at hk0
        exact Option.noConfusion hk0
      exact ⟨k0, by simpa [upd, hk0v] using hk0⟩
  · intro k p hk
    rw [e1] at hk
    by_cases hkv : k = kv
    · simp only [upd, hkv, if_true, Option.some.injEq] at hk
      refine ⟨self, by rw [e2, ← hk]; simp [upd], by rw [hkv, hv], ?_⟩
      intro tp2 htp2
      rw [e3, e4, ← hk] at htp2
      simp only [upd, if_true] at htp2
      rw [htp] at htp2
      cases htp2
      rw [hkv]
      exact hT
    · simp only [upd, hkv, if_false] at hk
      have hpo := hlive k p hk
      obtain ⟨i, hi, hv2, ht⟩ := u2 k p hk
      refine ⟨i, by rw [e2]; simpa [upd, hpo] using hi, hv2, ?_⟩
      intro tp2 htp2
      rw [e3, e4] at htp2
      simp only [upd, hpo, if_false] at htp2
      exact ht tp2 htp2
  · intro k k2 p hk hk2
    rw [e1] at hk hk2
    by_cases hkv : k = kv
    · by_cases hkv2 : k2 = kv
      · rw [hkv, hkv2]
      · simp only [upd, hkv, if_true, Option.some.injEq] at hk
        simp only [upd, hkv2, if_false] at hk2
        exact absurd hk.symm (hlive k2 p hk2)
    · by_cases hkv2 : k2 = kv
      · simp only [upd, hkv2, if_true, Option.some.injEq] at hk2
        simp only [upd, hkv, if_false] at hk
        exact absurd hk2.symm (hlive k p hk)
      · simp only [upd, hkv, if_false] at hk
        simp only [upd, hkv2, if_false] at hk2
        exact u3 k k2 p hk hk2

theorem registry_inv_new_type (cfg : Config) (s s1 : State) (ht : Addr)
    (h1 : s1.inst_c2p = s.inst_c2p) (h2 : s1.insts = s.insts)
    (h3 : ∀ p, p ≠ ht → s1.ob_type p = s.ob_type p)
    (h4 : ∀ a, a ≠ ht → s1.types a = s.types a)
    (hfresh : s.insts ht = none) (htype : ∀ p, s.insts p ≠ none → s.ob_type p ≠ ht)
    (h : RegistryInv cfg s) : RegistryInv cfg s1 := by
  obtain ⟨u1, u2, u3⟩ := h
  refine ⟨?_, ?_, ?_⟩
  · intro p inst hp
    rw [h2] at hp
    rw [h1]
    exact u1 p inst hp
  · intro k p hk
    rw [h1] at hk
    obtain ⟨inst, hi, hv, ht2⟩ := u2 k p hk
    refine ⟨inst, by rw [h2]; exact hi, hv, ?_⟩
    intro tp htp
    have hp : p ≠ ht := by
      intro h
      rw [h, hfresh] at hi
      exact Option.noConfusion hi
    have hty : s.ob_type p ≠ ht := htype p (by rw [hi]; simp)
    rw [h3 p hp, h4 _ hty] at htp
    exact ht2 tp htp
  · intro k k2 p hk hk2
    rw [h1] at hk hk2
    exact u3 k k2 p hk hk2

theorem safe_of_sound {α : Type} (cfg : Config) (z : Addr) (k : Addr × TypeIndex) (s : State)
    (r : Outcome α × State) (h : Sound cfg z k s r) : Safe cfg s r :=
  fun hinv => ⟨(h hinv).1, fun _ _ => (h hinv).2.1⟩

theorem safe_step {α : Type} (cfg : Config) (s s1 : State) (out : Outcome α)
    (hout : out ≠ Outcome.fatal Fatal.unknown_instance)
    (h : RegistryInv cfg s → RegistryInv cfg s1) : Safe cfg s (out, s1) :=
  fun hinv => ⟨hout, fun _ _ => h hinv⟩

theorem safe_stop {α : Type} (cfg : Config) (s s1 : State) (out : Outcome α)
    (hout : out ≠ Outcome.fatal Fatal.unknown_instance) (hno : ∀ a, out ≠ Outcome.ok a) :
    Safe cfg s (out, s1) :=
  fun _ => ⟨hout, fun a ha => absurd ha (hno a)⟩

theorem safe_andThen {α β : Type} (cfg : Config) (s : State) (r : Outcome α × State)
    (kont : α → State → Outcome β × State) (h1 : Safe cfg s r)
    (h2 : ∀ a s1, Safe cfg s1 (kont a s1)) : Safe cfg s (andThen r kont) := by
  unfold Safe at h1 ⊢
  intro hinv
  obtain ⟨o1, i1⟩ := h1 hinv
  obtain ⟨out, s0⟩ := r
  cases out with
  | ok a => exact h2 a s0 (i1 a rfl)
  | fatal f => exact ⟨by simpa [andThen] using o1, fun a ha => by simp [andThen] at ha⟩
  | raised => exact ⟨by simp [andThen], fun a ha => by simp [andThen] at ha⟩
  | undefined => exact ⟨by simp [andThen], fun a ha => by simp [andThen] at ha⟩
  | out_of_fuel => exact ⟨by simp [andThen], fun a ha => by simp [andThen] at ha⟩

theorem safe_Py_DECREF (cfg : Config) (fuel : Nat) (s : State) (o : Addr) :
    Safe cfg s (Py_DECREF cfg fuel s o) :=
  safe_of_sound cfg 0 (0, 0) s _
    (sound_Py_DECREF_with cfg _ (sound_inst_dealloc cfg fuel) 0 (0, 0) s o)

theorem registry_inv_Py_INCREF (cfg : Config) (s : State) (o : Addr)
    (h : RegistryInv cfg s) : RegistryInv cfg (Py_INCREF s o) :=
  registry_inv_flags cfg s _ rfl (fun _ => rfl) rfl rfl h

theorem safe_inst_new_impl (cfg : Config) (s : State) (o type value : Addr)
    (hfresh : s.insts o = none) : Safe cfg s (inst_new_impl cfg s o type value) := by
  unfold inst_new_impl
  split
  · exact safe_stop cfg s s _ (by simp) (by simp)
  · split
    · exact safe_stop cfg s s _ (by simp) (by simp)
    · rename_i tp htp
      dsimp only
      split
      · exact safe_stop cfg s s _ (by simp) (by simp)
      · split
        · exact safe_stop cfg s _ _ (by simp) (by simp)
        · rename_i hnone
          refine safe_step cfg s _ _ (by simp) ?_
          intro hinv
          exact registry_inv_insert cfg s _ o type _ tp
            { value := if value ≠ 0 then value
                else align_up cfg ((o + tp.tp_basicsize) % 2 ^ cfg.bits) tp.extra.align,
              destruct := false, free := false, clear_keep_alive := false }
            rfl rfl hfresh htp hnone rfl rfl rfl rfl hinv

theorem safe_set_ownership (cfg : Config) (s : State) (inst : Addr) (destruct free : Bool) :
    Safe cfg s (set_ownership s inst destruct free) := by
  unfold set_ownership
  split
  · exact safe_stop cfg s s _ (by simp) (by simp)
  · rename_i i hi
    refine safe_step cfg s _ _ (by simp) ?_
    intro hinv
    refine registry_inv_flags cfg s _ rfl ?_ rfl rfl hinv
    intro p
    by_cases hp : p = inst
    · simp [upd, hp, hi]
    · simp [upd, hp]

theorem safe_inst_keep_alive (cfg : Config) (fuel : Nat) (s : State)
    (set_obj nurse patient : Addr) :
    Safe cfg s (inst_keep_alive cfg fuel s set_obj nurse patient) := by
  unfold inst_keep_alive
  split
  · exact safe_step cfg s s _ (by simp) id
  · split
    · exact safe_stop cfg s s _ (by simp) (by simp)
    · dsimp only
      refine safe_andThen cfg s _ _ ?_ ?_
      · split
        · exact safe_step cfg s s _ (by simp) id
        · split
          · exact safe_stop cfg s s _ (by simp) (by simp)
          · refine safe_step cfg s _ _ (by simp) ?_
            intro hinv
            exact registry_inv_flags cfg s _ rfl (fun _ => rfl) rfl rfl hinv
      · intro nurse_set s3
        split
        · exact safe_stop cfg s3 s3 _ (by simp) (by simp)
        · split
          · exact safe_Py_DECREF cfg fuel s3 nurse_set
          · split
            · exact safe_stop cfg s3 s3 _ (by simp) (by simp)
            · rename_i inst hinst
              intro hinv
              refine safe_Py_DECREF cfg fuel _ nurse_set ?_
              refine registry_inv_flags cfg s3 _ rfl ?_ rfl rfl hinv
              intro p
              by_cases hp : p = nurse
              · simp [Py_INCREF, upd, hp, hinst]
              · simp [Py_INCREF, upd, hp]

theorem safe_construct_value (cfg : Config) (fuel : Nat) (s : State) (t : type_data)
    (inst value : Addr) (constructible has_hook : Bool) (throws : Addr → Addr → Bool)
    (call : Addr → Addr → Event) (not_constructible : Fatal)
    (hf : not_constructible ≠ Fatal.unknown_instance) :
    Safe cfg s (construct_value cfg fuel s t inst value constructible has_hook throws call
      not_constructible) := by
  unfold construct_value
  split
  · exact safe_stop cfg s s _ (by simp) (by simp)
  · split
    · split
      · dsimp only
        split
        · refine safe_andThen cfg s _ _ ?_ ?_
          · intro hinv
            exact safe_Py_DECREF cfg fuel _ inst
              (registry_inv_flags cfg s _ rfl (fun _ => rfl) rfl rfl hinv)
          · intro _ s2
            exact safe_step cfg s2 s2 _ (by simp) id
        · refine safe_step cfg s _ _ (by simp) ?_
          intro hinv
          exact registry_inv_flags cfg s _ rfl (fun _ => rfl) rfl rfl hinv
      · refine safe_step cfg s _ _ (by simp) ?_
        intro hinv
        exact registry_inv_flags cfg s _ rfl (fun _ => rfl) rfl rfl hinv
    · exact safe_stop cfg s s _ (by simpa using hf) (by simp)

theorem safe_type_put (cfg : Config) (fuel : Nat) (s : State)
    (o set_obj cpp_type value : Addr) (rvp : rv_policy) (parent : Addr)
    (hfresh : s.insts o = none) :
    Safe cfg s (type_put cfg fuel s o set_obj cpp_type value rvp parent) := by
  unfold type_put
  split
  · exact safe_step cfg s _ _ (by simp) (registry_inv_Py_INCREF cfg s _)
  · split
    · exact safe_step cfg s _ _ (by simp) (registry_inv_Py_INCREF cfg s _)
    · split
      · exact safe_step cfg s s _ (by simp) id
      · split
        · exact safe_step cfg s s _ (by simp) id
        · split
          · exact safe_stop cfg s s _ (by simp) (by simp)
          · dsimp only
            refine safe_andThen cfg s _ _ (safe_inst_new_impl cfg s o _ _ hfresh) ?_
            intro inst s1
            refine safe_andThen cfg s1 _ _ (safe_set_ownership cfg s1 inst _ _) ?_
            intro _ s2
            refine safe_andThen cfg s2 _ _ ?_ ?_
            · split
              · exact safe_inst_keep_alive cfg fuel s2 set_obj inst parent
              · exact safe_step cfg s2 s2 _ (by simp) id
            · intro _ s3
              refine safe_andThen cfg s3 _ _ ?_ ?_
              · split
                · exact safe_construct_value cfg fuel s3 _ inst value _ _ _ _ _ (by simp)
                · exact safe_step cfg s3 s3 _ (by simp) id
              · intro go s4
                split
                · refine safe_andThen cfg s4 _ _ ?_ ?_
                  · split
                    · exact safe_construct_value cfg fuel s4 _ inst value _ _ _ _ _ (by simp)
                    · exact safe_step cfg s4 s4 _ (by simp) id
                  · intro go2 s5
                    split
                    · exact safe_step cfg s5 s5 _ (by simp) id
                    · exact safe_step cfg s5 s5 _ (by simp) id
                · exact safe_step cfg s4 s4 _ (by simp) id

theorem type_new_build_frame (cfg : Config) (s s1 : State) (ht a : Addr) (ready : Bool)
    (t : type_data) (qualname : String) (scope_name : Option PyVal)
    (h : type_new_build cfg s ht ready t qualname scope_name = (Outcome.ok a, s1)) :
    s1.inst_c2p = s.inst_c2p ∧ s1.insts = s.insts ∧
      (∀ p, p ≠ ht → s1.ob_type p = s.ob_type p) ∧ (∀ b, b ≠ ht → s1.types b = s.types b) := by
  unfold type_new_build at h
  by_cases hht : ht = 0
  · simp [hht] at h
  cases ready
  · simp [hht] at h
  simp only [hht, if_false, Bool.not_true, Bool.false_eq_true] at h
  split at h
  · simp at h
  · simp only [Prod.mk.injEq, Outcome.ok.injEq] at h
    obtain ⟨_, h⟩ := h
    subst h
    cases scope_name <;> by_cases hsc : t.flags.has_scope = true <;>
      simp only [setattr, hsc, if_true, if_false, Bool.false_eq_true, true_and] <;>
      exact ⟨fun p hp => by simp [upd, hp], fun b hb => by simp [upd, hb]⟩

theorem type_new_frame (cfg : Config) (s s1 : State) (ht a : Addr) (ready : Bool)
    (t : type_data) (h : type_new cfg s ht ready t = (Outcome.ok a, s1)) :
    s1.inst_c2p = s.inst_c2p ∧ s1.insts = s.insts ∧
      (∀ p, p ≠ ht → s1.ob_type p = s.ob_type p) ∧ (∀ b, b ≠ ht → s1.types b = s.types b) := by
  unfold type_new at h
  split at h
  · simp at h
  · split at h
    · exact type_new_build_frame cfg s s1 ht a ready t _ _ h
    · simp at h

theorem initial_inv (cfg : Config) (s : State) (h : Initial s) : RegistryInv cfg s := by
  obtain ⟨h1, _, h3⟩ := h
  refine ⟨?_, ?_, ?_⟩
  · intro p inst hp
    rw [h3 p] at hp
    exact Option.noConfusion hp
  · intro k p hk
    rw [h1 k] at hk
    exact Option.noConfusion hk
  · intro k _ p hk
    rw [h1 k] at hk
    exact Option.noConfusion hk

theorem reachable_inv (cfg : Config) (s : State) (h : Reachable cfg s) : RegistryInv cfg s := by
  induction h with
  | init s h => exact initial_inv cfg s h
  | register s s1 ht r ready t _ hfresh htype hcall ih =>
    obtain ⟨e1, e2, e3, e4⟩ := type_new_frame cfg s s1 ht r ready t hcall
    exact registry_inv_new_type cfg s s1 ht e1 e2 e3 e4 hfresh htype ih
  | allocate s s1 o type value r _ hfresh hcall ih =>
    have h := (safe_inst_new_impl cfg s o type value hfresh ih).2 r (by rw [hcall])
    rw [hcall] at h
    exact h
  | bind s s1 fuel o set_obj cpp_type value parent r rvp _ hfresh hcall ih =>
    have h := (safe_type_put cfg fuel s o set_obj cpp_type value rvp parent hfresh ih).2 r
      (by rw [hcall])
    rw [hcall] at h
    exact h
  | release s s1 fuel p _ hcall ih =>
    have h := (sound_inst_dealloc cfg fuel 0 (0, 0) s p ih).2.1
    rw [hcall] at h
    exact h
  | incref s o _ ih => exact registry_inv_Py_INCREF cfg s o ih
  | decref s s1 fuel o _ hcall ih =>
    have h := (safe_Py_DECREF cfg fuel s o ih).2 () (by rw [hcall])
    rw [hcall] at h
    exact h

theorem reachable_example : Reachable cfg64 state_bound :=
  Reachable.bind (state_registered flags_copy_only false) state_bound 0 8192 0 7 1000 0 8192
    rv_policy.reference
    (Reachable.register state_empty (state_registered flags_copy_only false) 4096 4096 true
      (descr flags_copy_only false)
      (Reachable.init state_empty ⟨fun _ => rfl, fun _ => rfl, fun _ => rfl⟩)
      rfl (fun _ hp => absurd rfl hp) (Prod.ext (by decide) rfl))
    rfl (Prod.ext (by decide) rfl)

/-- Claim C18. In every state reached from empty registries by calls of
`type_new`, `inst_new_impl`, `type_put` and `inst_dealloc` that return (and by
the reference counting of the runtime), where an allocation never returns a live
proxy and a new type object is not the type of a live proxy: every live proxy has
exactly one Instance Registry entry, whose key is the value address of the proxy
and, as read from its live type object, its type identity; every entry points to
a live proxy; two live proxies with live type objects and the same key are the
same proxy; the lookup of step 4 of a release finds the proxy; and no run of
`inst_dealloc`, of `Py_DECREF` or of `type_put` from such a state ends in the
fatal error "unknown instance", whatever the recursion budget. -/
theorem reachable_registry_invariant (cfg : Config) (s : State) (h : Reachable cfg s) :
    (∀ p inst, s.insts p = some inst →
      ∃ k, s.inst_c2p k = some p ∧ k.1 = inst.value ∧
        (∀ tp, s.types (s.ob_type p) = some tp → k.2 = cfg.type_index tp.extra.type) ∧
        ∀ k2, s.inst_c2p k2 = some p → k2 = k) ∧
    (∀ k p, s.inst_c2p k = some p → s.insts p ≠ none) ∧
    (∀ p q ip iq tp tq, s.insts p = some ip → s.insts q = some iq →
      s.types (s.ob_type p) = some tp → s.types (s.ob_type q) = some tq →
      (ip.value, cfg.type_index tp.extra.type) = (iq.value, cfg.type_index tq.extra.type) →
      p = q) ∧
    (∀ p inst tp, s.insts p = some inst → s.types (s.ob_type p) = some tp →
      s.inst_c2p (inst.value, cfg.type_index tp.extra.type) = some p) ∧
    (∀ fuel p, (inst_dealloc cfg fuel s p).1 ≠ Outcome.fatal Fatal.unknown_instance) ∧
    (∀ fuel o, (Py_DECREF cfg fuel s o).1 ≠ Outcome.fatal Fatal.unknown_instance) ∧
    (∀ fuel o set_obj cpp_type value rvp parent, s.insts o = none →
      (type_put cfg fuel s o set_obj cpp_type value rvp parent).1
        ≠ Outcome.fatal Fatal.unknown_instance) := by
  have hinv := reachable_inv cfg s h
  obtain ⟨u1, u2, u3⟩ := hinv
  have own : ∀ p inst tp, s.insts p = some inst → s.types (s.ob_type p) = some tp →
      s.inst_c2p (inst.value, cfg.type_index tp.extra.type) = some p := by
    intro p inst tp hp htp
    obtain ⟨k0, hk0⟩ := u1 p inst hp
    obtain ⟨i, hi, hv, ht⟩ := u2 k0 p hk0
    rw [hp] at hi
    cases hi
    have e : k0 = (inst.value, cfg.type_index tp.extra.type) := Prod.ext hv (ht tp htp)
    rw [← e]
    exact hk0
  refine ⟨?_, ?_, ?_, own, ?_, ?_, ?_⟩
  · intro p inst hp
    obtain ⟨k0, hk0⟩ := u1 p inst hp
    obtain ⟨i, hi, hv, ht⟩ := u2 k0 p hk0
    rw [hp] at hi
    cases hi
    exact ⟨k0, hk0, hv, ht, fun k2 hk2 => u3 k2 k0 p hk2 hk0⟩
  · intro k p hk
    obtain ⟨i, hi, _⟩ := u2 k p hk
    rw [hi]
    simp
  · intro p q ip iq tp tq hp hq htp htq e
    have h1 := own p ip tp hp htp
    have h2 := own q iq tq hq htq
    rw [e, h2] at h1
    exact (Option.some.inj h1).symm
  · intro fuel p
    exact (sound_inst_dealloc cfg fuel 0 (0, 0) s p ⟨u1, u2, u3⟩).1
  · intro fuel o
    exact (safe_Py_DECREF cfg fuel s o ⟨u1, u2, u3⟩).1
  · intro fuel o set_obj cpp_type value rvp parent hfresh
    exact (safe_type_put cfg fuel s o set_obj cpp_type value rvp parent hfresh ⟨u1, u2, u3⟩).1

/-- Witness of C18: the state in which the address 1000 is bound to the proxy
8192 is reached by `type_new` and `type_put` from empty registries; the proxy is
registered under its own key (1000, 7), and its release finds the entry and
returns. -/
theorem reachable_registry_invariant_witness :
    Reachable cfg64 state_bound ∧
      state_bound.insts 8192 = some { value := 1000, destruct := false, free := false,
                                      clear_keep_alive := false } ∧
      state_bound.inst_c2p (1000, 7) = some 8192 ∧
      (inst_dealloc cfg64 1 state_bound 8192).1 ≠ Outcome.fatal Fatal.unknown_instance ∧
      (inst_dealloc cfg64 1 state_bound 8192).1 = Outcome.ok () :=
  ⟨reachable_example, rfl,
    (reachable_registry_invariant cfg64 state_bound reachable_example).2.2.2.1 8192
      { value := 1000, destruct := false, free := false, clear_keep_alive := false }
      (type_object_registered flags_copy_only false) rfl rfl,
    (reachable_registry_invariant cfg64 state_bound reachable_example).2.2.2.2.1 1 8192,
    by decide⟩

end nanobind
